import Mathlib

/-!
Tea-house front end: cart and checkout.

A shallow embedding of the cart code of `frontend/js/menu.js` and
`frontend/db/database.js`, and theorems about it.

Conventions of the embedding.

* Quantities and numeric ids are integers (`Int`).  A price is a finite
  number of the language (`Double`), fractional ones included; the products
  and sums of the cart total are rounded as the language rounds them, to the
  nearest 64-bit binary floating-point number, ties to even, and can end in
  `Infinity` or `NaN` (`JsNumber`).
* A cart is an array of line objects; it is a `List CartLine`.  Mutating the
  object that `Array.prototype.find` returned is an update of the first
  matching element of the list.
* `localStorage` is a record of entries plus the mode the browser is in.  The
  program reads the keys `teaHouseCart` and `tea_house_cart` only through
  `JSON.parse` and writes them only through `JSON.stringify`; such an entry is
  held as what `JSON.parse` makes of its text (`CartText`).  The keys
  `guest_phone` and `guest_name` are read and written as plain strings.  A stored JSON
  text whose value is not an array of line objects is not represented.
* An `async` function is run to completion, without other handlers
  interleaved at its `await` points.
* A function that can throw returns `Except JsError _` next to the state it
  leaves behind.
-/

namespace TeaHouse

/-! ## JavaScript values -/

/-- A dish identifier as the page holds it: a number or a string.  Strict
equality `===` of two identifiers is equality in this type: a number is never
strictly equal to a string. -/
inductive JsId where
  | num (n : Int)
  | str (s : String)
deriving DecidableEq, Repr

/-- The values the checkout code tests for truthiness or passes on. -/
inductive JsVal where
  | undefined
  | null
  | bool (b : Bool)
  | num (n : Int)
  | str (s : String)
  | object
deriving DecidableEq, Repr

/-- JavaScript truthiness (`ToBoolean`). -/
def JsVal.truthy : JsVal → Bool
  | .undefined => false
  | .null => false
  | .bool b => b
  | .num n => n != 0
  | .str s => s != ""
  | .object => true

/-- The `a || b` operator on values. -/
def JsVal.or (a b : JsVal) : JsVal := if a.truthy then a else b

/-- Exceptions that the modelled code can meet. -/
inductive JsError where
  /-- The value `new Error(m)`; its message is `String(m)`. -/
  | error (m : JsVal)
  /-- Thrown by `JSON.parse` on text that is not JSON. -/
  | syntaxError
  /-- Thrown by `localStorage.setItem` when the quota is exceeded. -/
  | quotaExceeded
  /-- Thrown by any `localStorage` access when storage is blocked. -/
  | securityError
  /-- A rejected `fetch` or dynamic `import` (a `TypeError` of the browser). -/
  | transport (why : String)
  /-- A `TypeError` of the language: a property read on `null`, or a call of
  something that is not a function. -/
  | typeError (what : String)
deriving DecidableEq, Repr

/-! ## Numbers -/

/-- A finite number of the language, held exactly as `num / 2 ^ shift`.  The
integer `n` is `n / 2 ^ 0`; the literal `99.9` is the nearest number that the
format has, `3514918771674317 / 2 ^ 45`.  The two zeros are not told apart. -/
structure Double where
  num : Int
  shift : Nat
deriving DecidableEq, Repr

instance (n : Nat) : OfNat Double n := ⟨⟨n, 0⟩⟩

/-- The exact value of a finite number. -/
def Double.value (x : Double) : ℚ := x.num / 2 ^ x.shift

/-- An integer quantity as a number. -/
def Double.ofInt (n : Int) : Double := ⟨n, 0⟩

/-- The result of an arithmetic operation. -/
inductive JsNumber where
  | finite (x : Double)
  /-- The value `Infinity`. -/
  | posInf
  /-- The value `-Infinity`. -/
  | negInf
  /-- The value `NaN`. -/
  | nan
deriving DecidableEq, Repr

instance (n : Nat) : OfNat JsNumber n := ⟨.finite ⟨n, 0⟩⟩

/-- The exact value of a result, when it is finite. -/
def JsNumber.exact : JsNumber → Option ℚ
  | .finite x => some x.value
  | _ => none

/-- The number of binary digits of `n`, counted in at most `fuel` halvings. -/
def bits : Nat → Nat → Nat
  | 0, _ => 0
  | fuel + 1, n => if n = 0 then 0 else bits fuel (n / 2) + 1

/-- The number of binary digits of `n`: 0 for 0, and `b` when
`2 ^ (b - 1) ≤ n < 2 ^ b`. -/
def bitLength (n : Nat) : Nat := bits n n

/-- The fraction `n / 2 ^ k` in lowest terms. -/
def reduce : Int → Nat → Double
  | n, 0 => ⟨n, 0⟩
  | n, k + 1 => if n % 2 = 0 then reduce (n / 2) k else ⟨n, k + 1⟩

/-- The integer part of the binary logarithm of `a / d`, for positive `a`
and `d`. -/
def exponentOf (a d : Nat) : Int :=
  let k : Int := (bitLength a : Int) - (bitLength d : Int)
  if d <<< k.toNat ≤ a <<< (-k).toNat then k else k - 1

/-- The integer nearest to `scaled / unit`, the even one of the two when the
fraction is halfway between them. -/
def nearest (scaled unit : Nat) : Nat :=
  let below := scaled / unit
  let rest := scaled % unit
  if 2 * rest < unit then below
  else if unit < 2 * rest then below + 1
  else if below % 2 = 0 then below else below + 1

/-- The number of the language nearest to the fraction `n / d`: rounding to
53 significant binary digits, or to a multiple of `2 ^ (-1074)` for the small
values, ties to the even neighbour; beyond the largest number the result is an
infinity.  With `e` the integer part of the binary logarithm of `|n| / d` and
`q = max (e - 52) (-1074)`, the result is the multiple of `2 ^ q` nearest to
the fraction. -/
def roundRatio (n : Int) (d : Nat) : JsNumber :=
  let a := n.natAbs
  if a = 0 ∨ d = 0 then .finite ⟨0, 0⟩
  else
    let q : Int := max (exponentOf a d - 52) (-1074)
    let size := nearest (a <<< (-q).toNat) (d <<< q.toNat) <<< q.toNat
    if 1024 < bitLength size then (if n < 0 then .negInf else .posInf)
    else .finite (reduce (if n < 0 then -(size : Int) else (size : Int)) (-q).toNat)

/-- The product `x * y` of two finite numbers. -/
def Double.mul (x y : Double) : JsNumber :=
  roundRatio (x.num * y.num) (1 <<< (x.shift + y.shift))

/-- The sum `x + y` of two finite numbers. -/
def Double.add (x y : Double) : JsNumber :=
  roundRatio (x.num * ((1 <<< y.shift : Nat) : Int) + y.num * ((1 <<< x.shift : Nat) : Int))
    (1 <<< (x.shift + y.shift))

/-- The sum `a + b` of two results. -/
def JsNumber.add : JsNumber → JsNumber → JsNumber
  | .finite x, .finite y => x.add y
  | .nan, _ => .nan
  | _, .nan => .nan
  | .posInf, .negInf => .nan
  | .negInf, .posInf => .nan
  | .posInf, _ => .posInf
  | _, .posInf => .posInf
  | .negInf, _ => .negInf
  | _, .negInf => .negInf

/-! ## Data model -/

/-- One row of the cart.  `image` is the extra property that
`database.js` writes (`image: dish.image_url`); `none` stands for a property
that is undefined or absent. -/
structure CartLine where
  id : JsId
  name : String
  price : Double
  quantity : Int
  image : Option String
deriving DecidableEq, Repr

/-- The cart: an array of line objects. -/
abbrev Cart := List CartLine

/-- The dish object passed to `addToCart` of `database.js`. -/
structure Dish where
  id : JsId
  name : String
  price : Double
  image_url : Option String
deriving DecidableEq, Repr

/-- The call `cart.find(item => item.id === id)`. -/
def findLine (id : JsId) (cart : Cart) : Option CartLine :=
  cart.find? (fun item => decide (item.id = id))

/-- The array after assigning `item.quantity = f(item.quantity)` to the object
that `cart.find(item => item.id === id)` returned: the first line with that id
is updated in place, every other element is the same object as before. -/
def updateFound (id : JsId) (f : Int → Int) : Cart → Cart
  | [] => []
  | item :: rest =>
    if item.id = id then { item with quantity := f item.quantity } :: rest
    else item :: updateFound id f rest

/-- The call `cart.filter(item => item.id !== id)`. -/
def withoutId (id : JsId) (cart : Cart) : Cart :=
  cart.filter (fun item => decide (item.id ≠ id))

/-- The call `cart.reduce((sum, item) => sum + item.quantity, 0)`. -/
def itemCount (cart : Cart) : Int :=
  cart.foldl (fun sum item => sum + item.quantity) 0

/-- The call `cart.reduce((sum, item) => sum + (item.price * item.quantity), 0)`. -/
def cartTotal (cart : Cart) : JsNumber :=
  cart.foldl (fun sum item => sum.add (item.price.mul (Double.ofInt item.quantity))) (.finite 0)

/-- The sum over the lines of price times quantity, in exact arithmetic. -/
def exactTotal (cart : Cart) : ℚ :=
  (cart.map (fun l => l.price.value * (l.quantity : ℚ))).sum

/-! ## localStorage -/

/-- A string stored under a cart key, as `JSON.parse` sees it. -/
inductive CartText where
  /-- The JSON text of the array of line objects `c` (`"[]"` for `[]`). -/
  | lines (c : Cart)
  /-- The string `s`, which is not JSON: `JSON.parse(s)` throws.  The empty
  string is the one falsy case. -/
  | corrupt (s : String)
deriving DecidableEq, Repr

/-- Truthiness of the stored string: every string but `""` is truthy. -/
def CartText.truthy : CartText → Bool
  | .lines _ => true
  | .corrupt s => s != ""

/-- The call `JSON.parse(text)`. -/
def jsonParse : CartText → Except JsError Cart
  | .lines c => .ok c
  | .corrupt _ => .error .syntaxError

/-- The call `JSON.stringify(cart)`. -/
def jsonStringify (cart : Cart) : CartText := .lines cart

/-- How the browser answers `localStorage` calls. -/
inductive StorageMode where
  /-- Reads and writes succeed. -/
  | normal
  /-- The quota is used up: `setItem` throws, reads and `removeItem` work. -/
  | full
  /-- Storage is blocked for the page: every access throws. -/
  | blocked
deriving DecidableEq, Repr

/-- The page's `localStorage`. -/
structure LocalStorage where
  mode : StorageMode
  /-- Entries read through `JSON.parse`, by key. -/
  carts : List (String × CartText)
  /-- Entries read as plain strings, by key. -/
  strings : List (String × String)
deriving DecidableEq, Repr

/-- Replace or add the entry of `key` in an association list. -/
def putEntry {α : Type} (key : String) (v : α) : List (String × α) → List (String × α)
  | [] => [(key, v)]
  | (k, w) :: rest => if k = key then (key, v) :: rest else (k, w) :: putEntry key v rest

/-- Drop every entry of `key` from an association list. -/
def dropEntry {α : Type} (key : String) (l : List (String × α)) : List (String × α) :=
  l.filter (fun e => decide (e.1 ≠ key))

namespace LocalStorage

/-- The call `localStorage.getItem(key)` for a key holding JSON; `none` is `null`. -/
def getItem (ls : LocalStorage) (key : String) : Except JsError (Option CartText) :=
  match ls.mode with
  | .blocked => .error .securityError
  | _ => .ok (ls.carts.lookup key)

/-- The call `localStorage.getItem(key)` for a key holding a plain string. -/
def getString (ls : LocalStorage) (key : String) : Except JsError (Option String) :=
  match ls.mode with
  | .blocked => .error .securityError
  | _ => .ok (ls.strings.lookup key)

/-- The call `localStorage.setItem(key, text)` for a key holding JSON. -/
def setItem (ls : LocalStorage) (key : String) (text : CartText) : Except JsError LocalStorage :=
  match ls.mode with
  | .blocked => .error .securityError
  | .full => .error .quotaExceeded
  | .normal => .ok { ls with carts := putEntry key text ls.carts, strings := dropEntry key ls.strings }

/-- The call `localStorage.removeItem(key)`. -/
def removeItem (ls : LocalStorage) (key : String) : Except JsError LocalStorage :=
  match ls.mode with
  | .blocked => .error .securityError
  | _ => .ok { ls with carts := dropEntry key ls.carts, strings := dropEntry key ls.strings }

end LocalStorage

/-! ## The order request and the backend module -/

/-- One element of `items` in the order request. -/
structure OrderItem where
  dish_id : JsId
  quantity : Int
deriving DecidableEq, Repr

/-- The object `orderData` that `handleCheckout` passes to `createOrder`.
`none` in a guest field is `null`. -/
structure OrderRequest where
  table_number : String
  items : List OrderItem
  guest_phone : Option String
  guest_name : Option String
deriving DecidableEq, Repr

/-- What `await db.createOrder(orderData)` resolves to, as far as
`handleCheckout` reads it. -/
inductive OrderResponse where
  /-- The values `null` and `undefined`. -/
  | absent
  /-- A boolean, a number or a string: it has none of the properties read. -/
  | scalar (truthy : Bool)
  /-- An object, with the values of the four properties that are read
  (`undefined` for a property it does not have). -/
  | record (success order_id id message : JsVal)
deriving DecidableEq, Repr

/-- The test `orderResponse && (orderResponse.success || orderResponse.order_id || orderResponse.id)`. -/
def OrderResponse.accepted : OrderResponse → Bool
  | .absent => false
  | .scalar _ => false
  | .record success order_id id _ => ((success.or order_id).or id).truthy

/-- The argument of `new Error(...)` on the failure branch:
`(orderResponse && orderResponse.message) || 'Ошибка при создании заказа'`. -/
def OrderResponse.failureMessage : OrderResponse → JsVal
  | .absent => .str "Ошибка при создании заказа"
  | .scalar _ => .str "Ошибка при создании заказа"
  | .record _ _ _ message => message.or (.str "Ошибка при создании заказа")

/-- The default export of `database.js`, as `handleCheckout` uses it: the
`createOrder` function, which resolves to a value or rejects. -/
structure DbModule where
  createOrder : OrderRequest → Except JsError OrderResponse

/-- The surroundings of one `handleCheckout` run: what the dynamic
`import('/db/database.js?v=...')` yields. -/
structure CheckoutEnv where
  importDb : Except JsError DbModule

/-- A request that left the page during a run. -/
inductive Effect where
  | importDb
  | createOrder (req : OrderRequest)
deriving DecidableEq, Repr

/-! ## menu.js -/

namespace Menu

/-- The constant `CONFIG.CART.STORAGE_KEY`. -/
def STORAGE_KEY : String := "tea_house_cart"

/-- What `updateCartUI` writes into the cart elements of the page. -/
structure CartPanel where
  /-- Text of `cartCount`. -/
  countText : Int
  /-- Whether `emptyCart` is displayed. -/
  emptyShown : Bool
  /-- The lines rendered into `cartItems`. -/
  rows : Cart
  /-- The number in the text of `totalAmount`. -/
  totalText : JsNumber
  /-- The flag `checkoutBtn.disabled`. -/
  checkoutDisabled : Bool
deriving DecidableEq, Repr

/-- The module state of `menu.js` with the parts of the page it acts on. -/
structure MenuState where
  /-- The module variable `cart`. -/
  cart : Cart
  /-- The module variable `isCartOpen`. -/
  isCartOpen : Bool
  storage : LocalStorage
  /-- The cart elements, or `none` when one of `cartCount`, `cartItems`,
  `emptyCart`, `totalAmount`, `checkoutBtn` is missing from the page. -/
  panel : Option CartPanel
  /-- Whether the element `cartSidebar` exists. -/
  hasSidebar : Bool
  /-- Whether the sidebar and the body carry their open classes. -/
  sidebarOpen : Bool
  /-- The texts shown by `alert`, oldest first. -/
  alerts : List String
  /-- The entries of `console.error`, oldest first: label and error. -/
  console : List (String × JsError)
deriving DecidableEq, Repr

/-- The function `loadCart`. -/
def loadCart (s : MenuState) : MenuState :=
  let failed (e : JsError) : MenuState :=
    { s with console := s.console ++ [("Ошибка загрузки корзины:", e)], cart := [] }
  match s.storage.getItem STORAGE_KEY with
  | .error e => failed e
  | .ok none => s
  | .ok (some savedCart) =>
    if savedCart.truthy then
      match jsonParse savedCart with
      | .error e => failed e
      | .ok c => { s with cart := c }
    else s

/-- The function `saveCart`. -/
def saveCart (s : MenuState) : MenuState :=
  match s.storage.setItem STORAGE_KEY (jsonStringify s.cart) with
  | .ok ls => { s with storage := ls }
  | .error e => { s with console := s.console ++ [("Ошибка сохранения корзины:", e)] }

/-- The function `updateCartUI`. -/
def updateCartUI (s : MenuState) : MenuState :=
  match s.panel with
  | none => s
  | some _ =>
    let shown : CartPanel :=
      { countText := itemCount s.cart
        emptyShown := s.cart.length == 0
        rows := s.cart
        totalText := cartTotal s.cart
        checkoutDisabled := s.cart.length == 0 }
    { s with panel := some shown }

/-- The function `openCart`. -/
def openCart (s : MenuState) : MenuState :=
  if s.hasSidebar then { s with sidebarOpen := true, isCartOpen := true } else s

/-- The function `closeCart`. -/
def closeCart (s : MenuState) : MenuState :=
  if s.hasSidebar then { s with sidebarOpen := false, isCartOpen := false } else s

/-- The function `addToCart(dishId, dishName, price)`.  The last call,
`showAddToCartFeedback`, only restyles the dish card and is left out. -/
def addToCart (dishId : JsId) (dishName : String) (price : Double) (s : MenuState) : MenuState :=
  let s1 : MenuState :=
    match findLine dishId s.cart with
    | some _ => { s with cart := updateFound dishId (fun q => q + 1) s.cart }
    | none =>
      { s with cart := s.cart ++
          [{ id := dishId, name := dishName, price := price, quantity := 1, image := none }] }
  updateCartUI (saveCart s1)

/-- The function `removeFromCart(itemId)`. -/
def removeFromCart (itemId : JsId) (s : MenuState) : MenuState :=
  updateCartUI (saveCart { s with cart := withoutId itemId s.cart })

/-- The function `updateCartItemQuantity(itemId, newQuantity)`. -/
def updateCartItemQuantity (itemId : JsId) (newQuantity : Int) (s : MenuState) : MenuState :=
  match findLine itemId s.cart with
  | some _ =>
    if newQuantity ≤ 0 then removeFromCart itemId s
    else updateCartUI (saveCart { s with cart := updateFound itemId (fun _ => newQuantity) s.cart })
  | none => s

/-- The function `clearCart`. -/
def clearCart (s : MenuState) : MenuState :=
  updateCartUI (saveCart { s with cart := [] })

/-- The value of `localStorage.getItem(key) || null` for a guest key. -/
def storedOrNull (ls : LocalStorage) (key : String) : Except JsError (Option String) :=
  match ls.getString key with
  | .error e => .error e
  | .ok none => .ok none
  | .ok (some v) => .ok (if v != "" then some v else none)

/-- What one run of `handleCheckout` leaves behind. -/
structure CheckoutRun where
  /-- How the call ended: normally, or with an exception that escaped. -/
  outcome : Except JsError Unit
  state : MenuState
  /-- The requests issued during the run, oldest first. -/
  trace : List Effect

/-- The `catch` block of `handleCheckout`. -/
def checkoutCatch (error : JsError) (s : MenuState) (trace : List Effect) : CheckoutRun :=
  { outcome := .ok ()
    state :=
      { s with
        console := s.console ++ [("Ошибка оформления заказа:", error)]
        alerts := s.alerts ++
          ["Произошла ошибка при оформлении заказа. Пожалуйста, попробуйте еще раз."] }
    trace := trace }

/-- The statements of `handleCheckout` that build `items` and `orderData`
from the cart and the stored guest identity. -/
def buildOrderData (s : MenuState) : Except JsError OrderRequest :=
  let items : List OrderItem :=
    s.cart.map (fun i => { dish_id := i.id, quantity := i.quantity })
  match storedOrNull s.storage "guest_phone" with
  | .error e => .error e
  | .ok phone =>
    match storedOrNull s.storage "guest_name" with
    | .error e => .error e
    | .ok name =>
      .ok { table_number := "0", items := items, guest_phone := phone, guest_name := name }

/-- The function `handleCheckout`. -/
def handleCheckout (env : CheckoutEnv) (s : MenuState) : CheckoutRun :=
  if s.cart.length = 0 then { outcome := .ok (), state := s, trace := [] }
  else
    match env.importDb with
    | .error e => checkoutCatch e s [.importDb]
    | .ok db =>
      match buildOrderData s with
      | .error e => checkoutCatch e s [.importDb]
      | .ok orderData =>
        match db.createOrder orderData with
        | .error e => checkoutCatch e s [.importDb, .createOrder orderData]
        | .ok orderResponse =>
          if orderResponse.accepted then
            let s1 : MenuState :=
              { s with alerts := s.alerts ++
                  ["Заказ успешно оформлен! Скоро мы его приготовим."] }
            { outcome := .ok ()
              state := closeCart (clearCart s1)
              trace := [.importDb, .createOrder orderData] }
          else
            checkoutCatch (.error orderResponse.failureMessage) s
              [.importDb, .createOrder orderData]

end Menu

/-! ## database.js: the cart functions -/

namespace Database

/-- The storage key `'teaHouseCart'` that the cart functions of
`database.js` use. -/
def cartKey : String := "teaHouseCart"

/-- The storage and the parts of the page that the cart functions of
`database.js` act on. -/
structure PageState where
  storage : LocalStorage
  /-- The number shown in each `.cart-count` element of the page. -/
  badges : List Int
  /-- The flag `disabled` of `checkoutBtn`, or `none` when the page has no
  such button. -/
  checkoutBtn : Option Bool
deriving DecidableEq, Repr

/-- How a call ended (a returned value or a thrown exception) and the state
it left. -/
structure Run (α : Type) where
  outcome : Except JsError α
  state : PageState

/-- The function `getCart`. -/
def getCart (s : PageState) : Except JsError Cart :=
  match s.storage.getItem cartKey with
  | .error e => .error e
  | .ok none => .ok []
  | .ok (some cartJson) => if cartJson.truthy then jsonParse cartJson else .ok []

/-- The function `saveCart`. -/
def saveCart (cart : Cart) (s : PageState) : Except JsError PageState :=
  match s.storage.setItem cartKey (jsonStringify cart) with
  | .error e => .error e
  | .ok ls => .ok { s with storage := ls }

/-- The function `getCartItemCount`. -/
def getCartItemCount (s : PageState) : Except JsError Int :=
  match getCart s with
  | .error e => .error e
  | .ok cart => .ok (itemCount cart)

/-- The function `getCartTotal`. -/
def getCartTotal (s : PageState) : Except JsError JsNumber :=
  match getCart s with
  | .error e => .error e
  | .ok cart => .ok (cartTotal cart)

/-- The function `updateCartCount`. -/
def updateCartCount (s : PageState) : Except JsError PageState :=
  match getCartItemCount s with
  | .error e => .error e
  | .ok count =>
    .ok { s with
          badges := s.badges.map (fun _ => count)
          checkoutBtn := s.checkoutBtn.map (fun _ => count == 0) }

/-- The tail `saveCart(cart); updateCartCount(); return cart;` shared by the
mutating functions. -/
def saveAndReturn (cart : Cart) (s : PageState) : Run Cart :=
  match saveCart cart s with
  | .error e => { outcome := .error e, state := s }
  | .ok s1 =>
    match updateCartCount s1 with
    | .error e => { outcome := .error e, state := s1 }
    | .ok s2 => { outcome := .ok cart, state := s2 }

/-- The function `addToCart(dish)`. -/
def addToCart (dish : Dish) (s : PageState) : Run Cart :=
  match getCart s with
  | .error e => { outcome := .error e, state := s }
  | .ok cart =>
    match findLine dish.id cart with
    | some _ => saveAndReturn (updateFound dish.id (fun q => q + 1) cart) s
    | none =>
      saveAndReturn
        (cart ++ [{ id := dish.id, name := dish.name, price := dish.price, quantity := 1,
                    image := dish.image_url }]) s

/-- The function `removeFromCart(dishId)`. -/
def removeFromCart (dishId : JsId) (s : PageState) : Run Cart :=
  match getCart s with
  | .error e => { outcome := .error e, state := s }
  | .ok cart => saveAndReturn (withoutId dishId cart) s

/-- The function `updateCartItemQuantity(dishId, quantity)`. -/
def updateCartItemQuantity (dishId : JsId) (quantity : Int) (s : PageState) : Run Cart :=
  match getCart s with
  | .error e => { outcome := .error e, state := s }
  | .ok cart =>
    match findLine dishId cart with
    | some _ =>
      if quantity ≤ 0 then removeFromCart dishId s
      else saveAndReturn (updateFound dishId (fun _ => quantity) cart) s
    | none => { outcome := .ok cart, state := s }

/-- The function `clearCart`. -/
def clearCart (s : PageState) : Run Cart :=
  match s.storage.removeItem cartKey with
  | .error e => { outcome := .error e, state := s }
  | .ok ls =>
    let s1 : PageState := { s with storage := ls }
    match updateCartCount s1 with
    | .error e => { outcome := .error e, state := s1 }
    | .ok s2 => { outcome := .ok [], state := s2 }

end Database

/-! ## database.js: the gateway -/

/-- A JSON value, as `res.json()` resolves to and as the gateway passes on.
Numbers are integers; a property list holds each property once. -/
inductive Json where
  | null
  | bool (b : Bool)
  | num (n : Int)
  | str (s : String)
  | arr (items : List Json)
  | obj (fields : List (String × Json))

/-- JavaScript truthiness (`ToBoolean`) of a JSON value. -/
def Json.truthy : Json → Bool
  | .null => false
  | .bool b => b
  | .num n => n != 0
  | .str s => s != ""
  | .arr _ => true
  | .obj _ => true

/-- The read `v?.detail`; `none` is `undefined`.  Only an object can have this
property; on `null` the optional chaining yields `undefined`, and so does the
read on a boolean, a number, a string or an array. -/
def Json.detail (v : Json) : Option Json :=
  match v with
  | .obj fields => fields.lookup "detail"
  | _ => none

/-- The expression `a || b`, where `a` may be `undefined` (`none`). -/
def Json.orElse (a : Option Json) (b : Json) : Json :=
  match a with
  | some v => if v.truthy then v else b
  | none => b

/-- A response that `fetch` resolved to. -/
structure HttpResponse where
  status : Nat
  /-- What `res.json()` resolves to, or `none` when it rejects because the
  body is not JSON. -/
  json : Option Json

/-- The getter `res.ok`: the status is in the range 200 to 299. -/
def HttpResponse.ok (res : HttpResponse) : Bool :=
  200 ≤ res.status && res.status ≤ 299

/-- The object `opts` passed to `fetch`.  The body is held as the value that
`JSON.stringify` was applied to. -/
structure FetchOptions where
  method : String
  headers : List (String × String)
  body : Option Json

/-- What the gateway needs of the browser. -/
structure Browser where
  /-- The value `window.__API_BASE__`, or `none` when it is not set. -/
  apiBaseOverride : Option String
  /-- The function `fetch(url, opts)`: it resolves to a response, or rejects
  when the server cannot be reached. -/
  fetch : String → FetchOptions → Except JsError HttpResponse

namespace Database

/-- The constant `API_BASE`: `(window.__API_BASE__ || '') + '/api'`. -/
def API_BASE (b : Browser) : String :=
  (match b.apiBaseOverride with
   | some v => if v != "" then v else ""
   | none => "") ++ "/api"

/-- The object `{ ok: res.ok, status: res.status, json }` that `rawRequest`
returns. -/
structure RawResult where
  ok : Bool
  status : Nat
  json : Json

/-- The object `opts` that `rawRequest` builds: the method, and when a body
is supplied the JSON content type and the serialised body. -/
def requestOptions (method : String) (body : Json) : FetchOptions :=
  if body.truthy then
    { method := method, headers := [("Content-Type", "application/json")], body := some body }
  else
    { method := method, headers := [], body := none }

/-- The function `rawRequest(path, method, body)`; a call without `body`
passes `null`. -/
def rawRequest (b : Browser) (path : String) (method : String) (body : Json) :
    Except JsError RawResult :=
  let url := API_BASE b ++ path
  let opts : FetchOptions := requestOptions method body
  match b.fetch url opts with
  | .error e => .error e
  | .ok res =>
    let json : Json :=
      match res.json with
      | some parsed => parsed
      | none => .null
    .ok { ok := res.ok, status := res.status, json := json }

/-- The outcome object that `wrappedRequest` returns; `message` is `none`
when the object has no such property. -/
structure Outcome where
  success : Bool
  message : Option Json
  data : Json

/-- The function `wrappedRequest(path, method, body)`. -/
def wrappedRequest (b : Browser) (path : String) (method : String) (body : Json) :
    Except JsError Outcome :=
  match rawRequest b path method body with
  | .error e => .error e
  | .ok r =>
    if !r.ok then
      .ok { success := false
            message := some (Json.orElse r.json.detail (.str ("HTTP " ++ toString r.status)))
            data := .null }
    else
      .ok { success := true, message := none, data := Json.orElse (some r.json) .null }

end Database

/-! ## Cart well-formedness -/

/-- The well-formedness of a cart in the words of the spec: the lines are
unique by `id`, and every quantity is an integer that is at least 1. -/
def WellFormed (c : Cart) : Prop :=
  (c.map (fun l => l.id)).Nodup ∧ ∀ l ∈ c, 1 ≤ l.quantity

instance (c : Cart) : Decidable (WellFormed c) := by
  unfold WellFormed
  infer_instance

/-! ## database.js: the endpoint functions -/

namespace Database

/-- The function `getCategories`. -/
def getCategories (b : Browser) : Except JsError Outcome :=
  wrappedRequest b "/categories" "GET" .null

/-- The function `getDishes(params)`.  The argument `query` is the text
`qs.toString()` of the search parameters built from `params`: the empty string
for a call without parameters. -/
def getDishes (b : Browser) (query : String) : Except JsError Outcome :=
  wrappedRequest b ("/dishes" ++ (if query != "" then "?" ++ query else "")) "GET" .null

/-- The function `findOrCreateGuest(phone, name)`; a call without `name`
passes `null`. -/
def findOrCreateGuest (b : Browser) (phone name : Json) : Except JsError Outcome :=
  wrappedRequest b "/guests/find_or_create" "POST" (.obj [("phone", phone), ("name", name)])

/-- The function `createOrder(payload)`. -/
def createOrder (b : Browser) (payload : Json) : Except JsError Outcome :=
  wrappedRequest b "/orders" "POST" payload

end Database

/-! ## pages/ai_waiter_debug.js -/

namespace AiWaiter

/-- The function `getRussianWordForm(number, words)` on a non-negative
integer; `none` is `undefined`. -/
def getRussianWordForm (number : Nat) (words : List String) : Option String :=
  let cases : List Nat := [2, 0, 1, 1, 1, 2]
  if number % 100 > 4 && number % 100 < 20 then words[2]?
  else (cases[min (number % 10) 5]?).bind (fun index => words[index]?)

end AiWaiter

/-! ## admin/js/admin-common.js -/

/-- The value `String(x)` would be taken of, for a JSON value `x` passed to
`new Error(x)`. -/
def Json.toJsVal : Json → JsVal
  | .null => .null
  | .bool b => .bool b
  | .num n => .num n
  | .str s => .str s
  | .arr _ => .object
  | .obj _ => .object

namespace AdminAPI

/-- A response as `fetchJSON` reads it. -/
structure AdminResponse where
  status : Nat
  statusText : String
  /-- What `res.text()` resolves to, or the error it rejects with. -/
  text : Except JsError String
  /-- What `JSON.parse(text)` returns, or `none` when it throws. -/
  parsed : Option Json

/-- The getter `res.ok`: the status is in the range 200 to 299. -/
def AdminResponse.ok (res : AdminResponse) : Bool :=
  200 ≤ res.status && res.status ≤ 299

/-- The object `AdminAPI` with what it needs of the browser. -/
structure Api where
  /-- The property `base`. -/
  base : String
  /-- The function `fetch(url, init)`, the init object given by its entries. -/
  fetch : String → List (String × String) → Except JsError AdminResponse

/-- The object `Object.assign({credentials:'same-origin'}, opts)`. -/
def requestInit (opts : List (String × String)) : List (String × String) :=
  opts.foldl (fun init entry => putEntry entry.1 entry.2 init) [("credentials", "same-origin")]

/-- The method `fetchJSON(path, opts)`.  The `console.error` line before the
`throw` only logs and is left out. -/
def fetchJSON (api : Api) (path : String) (opts : List (String × String)) :
    Except JsError Json :=
  let url := api.base ++ path
  match api.fetch url (requestInit opts) with
  | .error e => .error e
  | .ok res =>
    match res.text with
    | .error e => .error e
    | .ok text =>
      let data : Json :=
        match res.parsed with
        | some parsed => parsed
        | none => .str text
      if !res.ok then
        match data with
        | .str message => .error (.error (.str message))
        | .null => .error (.typeError "Cannot read properties of null (reading 'detail')")
        | other =>
          .error (.error ((Json.orElse other.detail (.str res.statusText)).toJsVal))
      else .ok data

/-- How a `tryEndpoints` call ended, and the paths it passed to `fetchJSON`,
in order. -/
structure TryRun where
  outcome : Except JsError Json
  requested : List String

/-- The loop of `tryEndpoints` over the paths still to try, with the current
`lastErr` (`none` is `null`) and the paths requested so far. -/
def tryFrom (api : Api) (opts : List (String × String)) :
    List String → Option JsError → List String → TryRun
  | [], lastErr, requested =>
    { outcome := .error (match lastErr with
        | some e => e
        | none => .error (.str "No endpoints available"))
      requested := requested }
  | p :: rest, _, requested =>
    match fetchJSON api p opts with
    | .ok data => { outcome := .ok data, requested := requested ++ [p] }
    | .error e => tryFrom api opts rest (some e) (requested ++ [p])

/-- The method `tryEndpoints(paths, opts)`; a call without `opts` passes the
empty object. -/
def tryEndpoints (api : Api) (paths : List String) (opts : List (String × String)) : TryRun :=
  tryFrom api opts paths none []

end AdminAPI

/-! ## menu.js: the category accordion -/

/-- JavaScript truthiness of an identifier: `0` and `""` are falsy. -/
def JsId.truthy : JsId → Bool
  | .num n => n != 0
  | .str s => s != ""

/-- The text that a template literal makes of an identifier. -/
def JsId.toText : JsId → String
  | .num n => toString n
  | .str s => s

namespace Menu

/-- A category element of the page. -/
structure CategoryBlock where
  /-- The value of its attribute `data-category-id`. -/
  attr : String
  /-- Whether it carries the class `open`. -/
  isOpen : Bool
deriving DecidableEq, Repr

/-- The module variable `currentOpenCategory` (`none` is `null`) and the
category elements of the page, in document order. -/
structure Accordion where
  currentOpenCategory : Option JsId
  blocks : List CategoryBlock
deriving DecidableEq, Repr

/-- The element that `document.querySelector` returns for the selector
`[data-category-id="..."]` built from `text`: the first one with that attribute
value.  The text is taken to hold no quote and no backslash. -/
def queryCategory (text : String) (blocks : List CategoryBlock) : Option CategoryBlock :=
  blocks.find? (fun b => decide (b.attr = text))

/-- The page after `classList.add('open')` or `classList.remove('open')` on the
element that `queryCategory text` returns. -/
def setOpen (text : String) (value : Bool) : List CategoryBlock → List CategoryBlock
  | [] => []
  | b :: rest =>
    if b.attr = text then { b with isOpen := value } :: rest
    else b :: setOpen text value rest

/-- The function `toggleCategory(categoryId)`. -/
def toggleCategory (categoryId : JsId) (s : Accordion) : Accordion :=
  match queryCategory categoryId.toText s.blocks with
  | none => s
  | some _ =>
    if s.currentOpenCategory = some categoryId then
      { currentOpenCategory := none, blocks := setOpen categoryId.toText false s.blocks }
    else
      let closed : List CategoryBlock :=
        match s.currentOpenCategory with
        | some previous =>
          if previous.truthy then
            match queryCategory previous.toText s.blocks with
            | some _ => setOpen previous.toText false s.blocks
            | none => s.blocks
          else s.blocks
        | none => s.blocks
      { currentOpenCategory := some categoryId
        blocks := setOpen categoryId.toText true closed }

/-- A run of `toggleCategory` calls, one per identifier, in order. -/
def toggleAll (ids : List JsId) (s : Accordion) : Accordion :=
  ids.foldl (fun state id => toggleCategory id state) s

/-- The accordion invariant: the category elements carry pairwise distinct
identifiers, a recorded identifier is truthy, and an element is open exactly
when its identifier is the recorded one. -/
def Consistent (s : Accordion) : Prop :=
  (s.blocks.map (fun b => b.attr)).Nodup ∧
    (∀ id, s.currentOpenCategory = some id → id.truthy = true) ∧
    ∀ b ∈ s.blocks,
      b.isOpen = true ↔ ∃ id, s.currentOpenCategory = some id ∧ id.toText = b.attr

end Menu

/-! ## auth.js: form validation -/

namespace Auth

/-- The value `s.length`: the number of UTF-16 code units of the string. -/
def utf16Length (s : String) : Nat :=
  s.data.foldl (fun n c => n + (if c.toNat ≥ 65536 then 2 else 1)) 0

/-- The characters that `trim` strips and that `\s` matches: the white space
and line terminator code points of the language. -/
def isJsSpace (c : Char) : Bool :=
  c.toNat ∈ [9, 10, 11, 12, 13, 32, 160, 5760, 8232, 8233, 8239, 8287, 12288, 65279] ||
    (8192 ≤ c.toNat && c.toNat ≤ 8202)

/-- The method `s.trim()`. -/
def jsTrim (s : String) : String :=
  String.mk (((s.data.dropWhile isJsSpace).reverse.dropWhile isJsSpace).reverse)

/-- How often an element of a pattern may repeat: exactly once, or once or
more (`+`). -/
inductive Repeat where
  | once
  | many
deriving DecidableEq, Repr

/-- The test of a pattern `^ e1 e2 ... $` against a text, where each element
is a character class, possibly followed by `+`: the whole text must be matched
by the elements in order.  The two patterns of `auth.js` have this shape.  An
astral character is two code units of the same class for both of them, so
matching by code points gives the same answer. -/
def matchPattern : List ((Char → Bool) × Repeat) → List Char → Bool
  | [], [] => true
  | [], _ :: _ => false
  | _ :: _, [] => false
  | (cls, .once) :: rest, c :: cs => cls c && matchPattern rest cs
  | (cls, .many) :: rest, c :: cs =>
    cls c && (matchPattern rest cs || matchPattern ((cls, .many) :: rest) cs)

/-- The class of one literal character. -/
def lit (c : Char) : (Char → Bool) × Repeat := (fun x => x == c, .once)

/-- The class `\d`. -/
def digit : (Char → Bool) × Repeat := (fun x => x.isDigit, .once)

/-- The element `[^\s@]+`. -/
def notSpaceOrAt : (Char → Bool) × Repeat := (fun x => !isJsSpace x && x != '@', .many)

/-- The pattern `/^\+7 \(\d{3}\) \d{3}-\d{2}-\d{2}$/`. -/
def phoneRegex : List ((Char → Bool) × Repeat) :=
  [lit '+', lit '7', lit ' ', lit '(', digit, digit, digit, lit ')', lit ' ',
   digit, digit, digit, lit '-', digit, digit, lit '-', digit, digit]

/-- The pattern `/^[^\s@]+@[^\s@]+\.[^\s@]+$/`. -/
def emailRegex : List ((Char → Bool) × Repeat) :=
  [notSpaceOrAt, lit '@', notSpaceOrAt, lit '.', notSpaceOrAt]

/-- The function `isValidPhone(phone)`. -/
def isValidPhone (phone : String) : Bool := matchPattern phoneRegex phone.data

/-- The function `isValidEmail(email)`. -/
def isValidEmail (email : String) : Bool := matchPattern emailRegex email.data

/-- The object `formData` that the handlers build from the form fields. -/
structure FormData where
  name : String
  phone : String
  email : String
  password : String
  confirmPassword : String
  agreeTerms : Bool
deriving DecidableEq, Repr

/-- The function `validateForm(formData, formType)`: the entries of the object
`errors` it returns, in the order they are set.  The call `clearErrors()` only
empties the error elements of the page and is left out. -/
def validateForm (formData : FormData) (formType : String) : List (String × String) :=
  let nameErrors : List (String × String) :=
    if formType = "register" then
      if jsTrim formData.name = "" then [("name", "Введите ваше имя")]
      else if utf16Length (jsTrim formData.name) < 2 then
        [("name", "Имя должно содержать минимум 2 символа")]
      else []
    else []
  let phoneErrors : List (String × String) :=
    if formData.phone = "" then [("phone", "Введите номер телефона")]
    else if !isValidPhone formData.phone then [("phone", "Введите корректный номер телефона")]
    else []
  let emailErrors : List (String × String) :=
    if formType = "register" ∧ formData.email ≠ "" ∧ isValidEmail formData.email = false then
      [("email", "Введите корректный email адрес")]
    else []
  let passwordErrors : List (String × String) :=
    if formData.password = "" then [("password", "Введите пароль")]
    else if utf16Length formData.password < 6 then
      [("password", "Пароль должен содержать минимум 6 символов")]
    else []
  let registerErrors : List (String × String) :=
    if formType = "register" then
      (if formData.confirmPassword = "" then [("confirmPassword", "Подтвердите пароль")]
       else if formData.password ≠ formData.confirmPassword then
         [("confirmPassword", "Пароли не совпадают")]
       else []) ++
      (if !formData.agreeTerms then [("terms", "Необходимо согласие с условиями")] else [])
    else []
  nameErrors ++ phoneErrors ++ emailErrors ++ passwordErrors ++ registerErrors

end Auth

/-! ## menu.js: loading the menu -/

/-- The read `v.name` of one of the properties `success`, `data`, `Id`, `id`
on a value that is not `null`; `none` is `undefined`.  Only an object has such
a property. -/
def Json.get (v : Json) (name : String) : Option Json :=
  match v with
  | .obj fields => fields.lookup name
  | _ => none

/-- The read `v.length` on a value that is not `null`; `none` is `undefined`. -/
def Json.lengthOf (v : Json) : Option Json :=
  match v with
  | .arr items => some (.num items.length)
  | .str s => some (.num (Auth.utf16Length s))
  | .obj fields => fields.lookup "length"
  | _ => none

/-- The test `Array.isArray(v)`. -/
def Json.isArray : Json → Bool
  | .arr _ => true
  | _ => false

/-- Truthiness of a value that may be `undefined` (`none`). -/
def truthyValue (v : Option Json) : Bool :=
  match v with
  | some j => j.truthy
  | none => false

/-- The value of `a || b` where both may be `undefined`. -/
def orValue (a b : Option Json) : Option Json :=
  if truthyValue a then a else b

/-- The outcome object of `wrappedRequest` as a value: the properties
`success`, `message` (on a failure) and `data`. -/
def Database.Outcome.toJson (o : Database.Outcome) : Json :=
  .obj ([("success", .bool o.success)] ++
    (match o.message with
     | some m => [("message", m)]
     | none => []) ++
    [("data", o.data)])

namespace Menu

/-- The object `Object.assign({}, source, { Id: Id })` that the normalisation
makes of an element: a copy of `source` whose property `Id` has the given
value (`none` is `undefined`). -/
structure Entry where
  source : Json
  Id : Option Json

/-- What one of the module variables `categories` and `dishes` holds: a value
taken from a response as it came, or the array that the normalisation
built. -/
inductive Listing where
  | raw (value : Json)
  | entries (items : List Entry)

/-- What the element `categoriesContainer` shows. -/
inductive ContainerView where
  /-- The content the page came with. -/
  | initial
  /-- The category blocks that `displayMenu` built. -/
  | menu (html : String)
  /-- The error block that `showError` built, with its message. -/
  | error (message : String)
deriving DecidableEq, Repr

/-- The module variables of `menu.js` for the menu, and the parts of the page
that loading the menu acts on. -/
structure Catalog where
  categories : Listing
  dishes : Listing
  /-- The content of `categoriesContainer`, or `none` when the page has no
  such element. -/
  container : Option ContainerView
  /-- Whether `loadingElement` is hidden, or `none` when the page has no such
  element. -/
  loadingHidden : Option Bool
  /-- The entries of `console.error`, oldest first: label and error. -/
  console : List (String × JsError)

/-- The default export of `database.js` as `loadMenuData` uses it: what the
calls `getCategories()` and `getDishes()` resolve to (`none` is `undefined`),
or the error they reject with. -/
structure MenuDb where
  getCategories : Except JsError (Option Json)
  getDishes : Except JsError (Option Json)

/-- The surroundings of one `loadMenuData` run. -/
structure LoadEnv where
  /-- What the dynamic `import('/db/database.js?v=...')` yields. -/
  importDb : Except JsError MenuDb
  /-- The text that the templates of `displayMenu` and `createDishCard` build
  from the categories and the dishes, or the error they throw.  The templates
  themselves are not embedded. -/
  render : List Entry → List Entry → Except JsError String

/-- The function `showError(message)`. -/
def showError (message : String) (s : Catalog) : Catalog :=
  match s.container with
  | none => s
  | some _ => { s with container := some (.error message) }

/-- The statements of `loadMenuData` that choose the value of `categories`
from the response. -/
def chooseCategories (response : Option Json) : Except JsError Json :=
  match response with
  | none => .error (.error (.str "Ошибка загрузки категорий (пустой ответ)"))
  | some r =>
    if !r.truthy ||
        (!truthyValue r.lengthOf && (!truthyValue (r.get "success") && !truthyValue (r.get "data")))
    then
      match r.get "data" with
      | some data =>
        if r.truthy && truthyValue (r.get "success") && data.truthy then .ok data
        else .error (.error (.str "Ошибка загрузки категорий (пустой ответ)"))
      | none => .error (.error (.str "Ошибка загрузки категорий (пустой ответ)"))
    else if r.isArray then .ok r
    else
      match r.get "data" with
      | some data => if data.truthy then .ok data else .ok r
      | none => .ok r

/-- The statements of `loadMenuData` that choose the value of `dishes` from
the response. -/
def chooseDishes (response : Option Json) : Except JsError Json :=
  match response with
  | none => .error (.error (.str "Ошибка загрузки блюд (пустой ответ)"))
  | some r =>
    if !r.truthy ||
        (!truthyValue (r.get "success") && !truthyValue (r.get "data") && !r.isArray)
    then
      match r.get "data" with
      | some data =>
        if r.truthy && truthyValue (r.get "success") && data.truthy then .ok data
        else .error (.error (.str "Ошибка загрузки блюд (пустой ответ)"))
      | none => .error (.error (.str "Ошибка загрузки блюд (пустой ответ)"))
    else if r.isArray then .ok r
    else
      match r.get "data" with
      | some data => if data.truthy then .ok data else .ok r
      | none => .ok r

/-- The callback `c => Object.assign({}, c, { Id: c.Id || c.id })` on one
element: reading a property of `null` throws. -/
def normalizeEntry (c : Json) : Except JsError Entry :=
  match c with
  | .null => .error (.typeError "Cannot read properties of null (reading 'Id')")
  | other => .ok { source := other, Id := orValue (other.get "Id") (other.get "id") }

/-- The callback applied to the elements of an array in order; the first
exception ends the `map`. -/
def normalizeAll : List Json → Except JsError (List Entry)
  | [] => .ok []
  | c :: rest =>
    match normalizeEntry c with
    | .error e => .error e
    | .ok entry =>
      match normalizeAll rest with
      | .error e => .error e
      | .ok more => .ok (entry :: more)

/-- The expression `value.map(c => Object.assign({}, c, { Id: c.Id || c.id }))`:
a value that is not an array has no callable `map`. -/
def normalize (value : Json) : Except JsError (List Entry) :=
  match value with
  | .arr items => normalizeAll items
  | _ => .error (.typeError "map is not a function")

/-- The function `displayMenu`, called with the normalised categories and
dishes. -/
def displayMenu (env : LoadEnv) (categories dishes : List Entry) (s : Catalog) :
    Except JsError Unit × Catalog :=
  match s.container with
  | none => (.ok (), s)
  | some _ =>
    let s1 : Catalog := { s with loadingHidden := s.loadingHidden.map (fun _ => true) }
    if categories.length = 0 then (.ok (), showError "Категории не найдены" s1)
    else
      match env.render categories dishes with
      | .error e => (.error e, s1)
      | .ok html => (.ok (), { s1 with container := some (.menu html) })

/-- How a `loadMenuData` call ended and the state it left. -/
structure LoadRun where
  outcome : Except JsError Unit
  state : Catalog

/-- The `catch` block of `loadMenuData`. -/
def loadCatch (error : JsError) (s : Catalog) : LoadRun :=
  { outcome := .ok ()
    state := showError "Не удалось загрузить меню. Пожалуйста, попробуйте позже."
      { s with console := s.console ++ [("Ошибка загрузки меню:", error)] } }

/-- The function `loadMenuData`. -/
def loadMenuData (env : LoadEnv) (s : Catalog) : LoadRun :=
  match env.importDb with
  | .error e => loadCatch e s
  | .ok db =>
    match db.getCategories with
    | .error e => loadCatch e s
    | .ok categoriesResponse =>
      match chooseCategories categoriesResponse with
      | .error e => loadCatch e s
      | .ok chosenCategories =>
        let s1 : Catalog := { s with categories := .raw chosenCategories }
        match db.getDishes with
        | .error e => loadCatch e s1
        | .ok dishesResponse =>
          match chooseDishes dishesResponse with
          | .error e => loadCatch e s1
          | .ok chosenDishes =>
            let s2 : Catalog := { s1 with dishes := .raw chosenDishes }
            match normalize chosenCategories with
            | .error e => loadCatch e s2
            | .ok categoryEntries =>
              let s3 : Catalog := { s2 with categories := .entries categoryEntries }
              match normalize chosenDishes with
              | .error e => loadCatch e s3
              | .ok dishEntries =>
                let s4 : Catalog := { s3 with dishes := .entries dishEntries }
                match displayMenu env categoryEntries dishEntries s4 with
                | (.error e, s5) => loadCatch e s5
                | (.ok (), s5) => { outcome := .ok (), state := s5 }

/-- The module `database.js` behind `loadMenuData`: `getCategories()` and
`getDishes()` through the gateway of the given browser. -/
def databaseModule (b : Browser) : MenuDb :=
  { getCategories :=
      match Database.getCategories b with
      | .error e => .error e
      | .ok outcome => .ok (some outcome.toJson)
    getDishes :=
      match Database.getDishes b "" with
      | .error e => .error e
      | .ok outcome => .ok (some outcome.toJson) }

end Menu

/-! ## menu.js: registration of a guest -/

/-- The call `localStorage.setItem(key, value)` for a key holding a plain string. -/
def LocalStorage.setString (ls : LocalStorage) (key value : String) :
    Except JsError LocalStorage :=
  match ls.mode with
  | .blocked => .error .securityError
  | .full => .error .quotaExceeded
  | .normal =>
    .ok { ls with strings := putEntry key value ls.strings, carts := dropEntry key ls.carts }

namespace Menu

/-- What `await db.findOrCreateGuest(phone, name)` resolves to, as far as
`handleAuthSubmit` reads it. -/
inductive GuestResponse where
  /-- The values `null` and `undefined`. -/
  | absent
  /-- A boolean, a number or a string: it has none of the properties read. -/
  | scalar (truthy : Bool)
  /-- An object, with the values of the four properties that are read
  (`undefined` for a property it does not have). -/
  | record (success id guest_id message : JsVal)
deriving DecidableEq, Repr

/-- The test `guestResponse && (guestResponse.success || guestResponse.id || guestResponse.guest_id)`. -/
def GuestResponse.accepted : GuestResponse → Bool
  | .absent => false
  | .scalar _ => false
  | .record success id guest_id _ => ((success.or id).or guest_id).truthy

/-- The message of the failure branch:
`(guestResponse && guestResponse.message) || 'Ошибка регистрации'`. -/
def GuestResponse.failureMessage : GuestResponse → JsVal
  | .absent => .str "Ошибка регистрации"
  | .scalar _ => .str "Ошибка регистрации"
  | .record _ _ _ message => message.or (.str "Ошибка регистрации")

/-- The default export of `database.js`, as `handleAuthSubmit` uses it. -/
structure GuestModule where
  findOrCreateGuest : String → String → Except JsError GuestResponse

/-- The surroundings of one `handleAuthSubmit` run: what the dynamic
`import('/db/database.js?v=...')` yields. -/
structure AuthEnv where
  importDb : Except JsError GuestModule

/-- What `formData.get` returns for the three fields of the registration
form; `none` is `null`, for a form without that field. -/
structure AuthFields where
  phone : Option String
  name : Option String
  email : Option String
deriving DecidableEq, Repr

/-- The parts of the page that `handleAuthSubmit` acts on. -/
structure AuthPage where
  storage : LocalStorage
  /-- Whether the element `authMessage` exists. -/
  hasMessage : Bool
  /-- The value shown in `authMessage` and its type, once one is shown. -/
  message : Option (JsVal × String)
  /-- The entries of `console.error`, oldest first: label and error. -/
  console : List (String × JsError)
  /-- Whether `closeAuthModal` has been scheduled with `setTimeout`. -/
  closeScheduled : Bool
deriving DecidableEq, Repr

/-- The function `showAuthMessage(message, type)`. -/
def showAuthMessage (message : JsVal) (type : String) (p : AuthPage) : AuthPage :=
  if p.hasMessage then { p with message := some (message, type) } else p

/-- The class `[0-9\s\-\(\)]`. -/
def phoneChar (c : Char) : Bool :=
  c.isDigit || Auth.isJsSpace c || c == '-' || c == '(' || c == ')'

/-- The part `[0-9\s\-\(\)]{10,15}$` of the phone pattern. -/
def phoneTail (cs : List Char) : Bool :=
  decide (10 ≤ cs.length) && decide (cs.length ≤ 15) && cs.all phoneChar

/-- The part `[7-8]?[0-9\s\-\(\)]{10,15}$` of the phone pattern. -/
def phoneAfterPlus (cs : List Char) : Bool :=
  phoneTail cs ||
    match cs with
    | c :: rest => (c == '7' || c == '8') && phoneTail rest
    | [] => false

/-- The test of `/^[\+]?[7-8]?[0-9\s\-\(\)]{10,15}$/` against a text. -/
def phoneRegexTest (phone : String) : Bool :=
  phoneAfterPlus phone.data ||
    match phone.data with
    | c :: rest => c == '+' && phoneAfterPlus rest
    | [] => false

/-- What one run of `handleAuthSubmit` leaves behind. -/
structure AuthRun where
  /-- How the call ended: normally, or with an exception that escaped. -/
  outcome : Except JsError Unit
  state : AuthPage

/-- The `catch` block of `handleAuthSubmit`. -/
def authCatch (e : JsError) (p : AuthPage) : AuthRun :=
  { outcome := .ok ()
    state := showAuthMessage (.str "Произошла ошибка при регистрации") "error"
      { p with console := p.console ++ [("Ошибка регистрации:", e)] } }

/-- The function `handleAuthSubmit`, the only code of the page that writes the
keys `guest_phone` and `guest_name`.  A missing form field makes `.trim()`
throw before the `try` block. -/
def handleAuthSubmit (env : AuthEnv) (fields : AuthFields) (p : AuthPage) : AuthRun :=
  match fields.phone, fields.name, fields.email with
  | some rawPhone, some rawName, some _ =>
    let phone := Auth.jsTrim rawPhone
    let name := Auth.jsTrim rawName
    if phone = "" ∨ name = "" then
      { outcome := .ok ()
        state := showAuthMessage (.str "Пожалуйста, заполните обязательные поля") "error" p }
    else if phoneRegexTest phone = false then
      { outcome := .ok ()
        state := showAuthMessage (.str "Пожалуйста, введите корректный номер телефона")
          "error" p }
    else
      match env.importDb with
      | .error e => authCatch e p
      | .ok db =>
        match db.findOrCreateGuest phone name with
        | .error e => authCatch e p
        | .ok guestResponse =>
          if guestResponse.accepted then
            let p1 := showAuthMessage
              (.str ("Добро пожаловать, " ++ name ++ "! Регистрация успешна.")) "success" p
            match p1.storage.setString "guest_phone" phone with
            | .error e => authCatch e p1
            | .ok ls1 =>
              match ls1.setString "guest_name" name with
              | .error e => authCatch e { p1 with storage := ls1 }
              | .ok ls2 =>
                { outcome := .ok ()
                  state := { p1 with storage := ls2, closeScheduled := true } }
          else
            { outcome := .ok ()
              state := showAuthMessage guestResponse.failureMessage "error" p }
  | _, _, _ =>
    { outcome := .error (.typeError "Cannot read properties of null (reading 'trim')")
      state := p }

/-- The guest identity as the page stores it: a value held under `guest_phone`
or `guest_name` is never the empty string. -/
def GuestValuesNonEmpty (ls : LocalStorage) : Prop :=
  ∀ key ∈ ["guest_phone", "guest_name"], ∀ v, ls.strings.lookup key = some v → v ≠ ""

end Menu

/-! ## Sample inputs -/

namespace Sample

open Menu

/-- A cart line for two portions of pilaf. -/
def plov : CartLine :=
  { id := .num 1, name := "Плов", price := 350, quantity := 2, image := none }

/-- A cart line for one pot of tea. -/
def chai : CartLine :=
  { id := .num 6, name := "Чай зеленый", price := 120, quantity := 1, image := none }

/-- A registered guest's storage with the cart `[plov, chai]` saved. -/
def guestStorage : LocalStorage :=
  { mode := .normal
    carts := [("tea_house_cart", .lines [plov, chai])]
    strings := [("guest_phone", "+7 (999) 123-45-67"), ("guest_name", "Алишер")] }

/-- The menu page with the cart `[plov, chai]`, the sidebar open. -/
def menuPage : MenuState :=
  { cart := [plov, chai]
    isCartOpen := true
    storage := guestStorage
    panel := some { countText := 3, emptyShown := false, rows := [plov, chai],
                    totalText := 820, checkoutDisabled := false }
    hasSidebar := true
    sidebarOpen := true
    alerts := []
    console := [] }

/-- The menu page right after loading, with nothing in the cart. -/
def emptyPage : MenuState :=
  { cart := []
    isCartOpen := false
    storage := { mode := .normal, carts := [], strings := [] }
    panel := some { countText := 0, emptyShown := true, rows := [],
                    totalText := 0, checkoutDisabled := true }
    hasSidebar := true
    sidebarOpen := false
    alerts := []
    console := [] }

/-- The menu page with a cart, where the stored guest name is the empty string. -/
def namelessPage : MenuState :=
  { menuPage with
    storage := { guestStorage with
                 strings := [("guest_phone", "+7 (999) 123-45-67"), ("guest_name", "")] } }

/-- The menu page with the cart `[plov, chai]` of a guest registered through
the form of the page. -/
def registeredPage : MenuState :=
  { menuPage with
    storage := { guestStorage with
                 strings := [("guest_phone", "+7 999 123-45-67"), ("guest_name", "Алишер")] } }

/-- A backend that accepts every order. -/
def acceptingEnv : CheckoutEnv :=
  { importDb := .ok
      { createOrder := fun _ => .ok (.record (.bool true) .undefined .undefined .undefined) } }

/-- A backend that refuses every order with the message "Блюдо недоступно". -/
def refusingEnv : CheckoutEnv :=
  { importDb := .ok
      { createOrder := fun _ =>
          .ok (.record (.bool false) .undefined .undefined (.str "Блюдо недоступно")) } }

/-- A backend that cannot be reached: `createOrder` rejects. -/
def unreachableEnv : CheckoutEnv :=
  { importDb := .ok { createOrder := fun _ => .error (.transport "Failed to fetch") } }

/-- The dish behind `plov`, offered under a new name and price. -/
def plovDish : Dish :=
  { id := .num 1, name := "Плов праздничный", price := 400,
    image_url := some "/static/images/plov.jpg" }

/-- A dish that is in none of the sample carts. -/
def lagman : Dish :=
  { id := .num 2, name := "Лагман", price := 320, image_url := some "/static/images/lagman.jpg" }

/-- A page using the cart functions of `database.js`, with the cart
`[plov, chai]` stored under their key. -/
def cartPage : Database.PageState :=
  { storage := { mode := .normal
                 carts := [("teaHouseCart", .lines [plov, chai])]
                 strings := [] }
    badges := [3]
    checkoutBtn := some false }

/-- A page using the cart functions of `database.js` whose cart key holds text
that is not JSON. -/
def corruptPage : Database.PageState :=
  { storage := { mode := .normal
                 carts := [("teaHouseCart", .corrupt "[object Object]")]
                 strings := [] }
    badges := [3]
    checkoutBtn := some false }

/-- The page `cartPage` when the storage quota is used up. -/
def fullPage : Database.PageState :=
  { cartPage with storage := { cartPage.storage with mode := .full } }

/-- The menu page with a corrupt text under its cart key. -/
def corruptMenuPage : MenuState :=
  { emptyPage with
    cart := [plov]
    storage := { mode := .normal, carts := [("tea_house_cart", .corrupt "[object Object]")],
                 strings := [] } }

/-- A browser whose every request is answered with the given response. -/
def answering (res : HttpResponse) : Browser :=
  { apiBaseOverride := none, fetch := fun _ _ => .ok res }

/-- A browser that cannot reach the server: every `fetch` rejects. -/
def offline : Browser :=
  { apiBaseOverride := none, fetch := fun _ _ => .error (.transport "Failed to fetch") }

/-- A storage with nothing in it. -/
def emptyStorage : LocalStorage :=
  { mode := .normal, carts := [], strings := [] }

/-- An admin backend that knows only the path `/api/admin/orders`: it answers
it with an empty list, every other path with 404 and a `detail` text. -/
def adminApi : AdminAPI.Api :=
  { base := ""
    fetch := fun url _ =>
      if url = "/api/admin/orders" then
        .ok { status := 200, statusText := "OK", text := .ok "[]", parsed := some (.arr []) }
      else
        .ok { status := 404, statusText := "Not Found", text := .ok "Not Found page",
              parsed := none } }

/-- The menu with the categories 0 and 1, both closed. -/
def twoCategories : Accordion :=
  { currentOpenCategory := none
    blocks := [{ attr := "0", isOpen := false }, { attr := "1", isOpen := false }] }

/-- A page with the categories 1, 2 and 3, all closed. -/
def numberedCategories : Accordion :=
  { currentOpenCategory := none
    blocks := [{ attr := "1", isOpen := false }, { attr := "2", isOpen := false },
      { attr := "3", isOpen := false }] }

/-- Three portions of a dish priced `99.9`: the price is the number nearest to
that literal. -/
def samsa : CartLine :=
  { id := .num 7, name := "Самса", price := ⟨3514918771674317, 45⟩, quantity := 3,
    image := none }

/-- A backend that registers every guest. -/
def welcomingEnv : AuthEnv :=
  { importDb := .ok
      { findOrCreateGuest := fun _ _ =>
          .ok (.record (.bool true) (.num 12) .undefined .undefined) } }

/-- The registration form of the menu page, filled in. -/
def filledFields : AuthFields :=
  { phone := some " +7 999 123-45-67", name := some "Алишер ", email := some "" }

/-- The menu page of a guest who has not registered yet. -/
def authPage : AuthPage :=
  { storage := { mode := .normal, carts := [], strings := [] }
    hasMessage := true
    message := none
    console := []
    closeScheduled := false }

/-- A registration form filled in correctly. -/
def goodForm : Auth.FormData :=
  { name := " Алишер ", phone := "+7 (999) 123-45-67", email := "alisher@example.com",
    password := "chaikhana", confirmPassword := "chaikhana", agreeTerms := true }

/-- The menu module state of a freshly loaded page. -/
def freshCatalog : Catalog :=
  { categories := .raw (.arr []), dishes := .raw (.arr []), container := some .initial,
    loadingHidden := some false, console := [] }

/-- The category "Горячие блюда" as the backend sends it. -/
def hotCategory : Json := .obj [("id", .num 10), ("name", .str "Горячие блюда")]

/-- The dish "Плов" as the backend sends it. -/
def plovJson : Json :=
  .obj [("id", .num 1), ("name", .str "Плов"), ("price", .num 350), ("category_id", .num 10)]

/-- A backend that answers `/api/categories` with the array of one category,
`/api/dishes` with the given body, and every other address with 404. -/
def backend (dishesBody : Json) : Browser :=
  { apiBaseOverride := none
    fetch := fun url _ =>
      if url = "/api/categories" then .ok { status := 200, json := some (.arr [hotCategory]) }
      else if url = "/api/dishes" then .ok { status := 200, json := some dishesBody }
      else .ok { status := 404, json := none } }

/-- A load environment whose database module resolves to the two given
values, with templates that render without error. -/
def loadEnv (categoriesResponse dishesResponse : Json) : LoadEnv :=
  { importDb := .ok { getCategories := .ok (some categoriesResponse)
                      getDishes := .ok (some dishesResponse) }
    render := fun _ _ => .ok "menu" }

/-- The load environment of a page whose database module talks to the given
browser, with templates that render without error. -/
def gatewayEnv (b : Browser) : LoadEnv :=
  { importDb := .ok (databaseModule b), render := fun _ _ => .ok "menu" }

end Sample


/-! ## Theorems -/

open Menu

/-! ### Association lists -/

theorem lookup_putEntry {α : Type} (key : String) (v : α) (l : List (String × α)) :
    (putEntry key v l).lookup key = some v := by
  induction l with
  | nil => simp [putEntry, List.lookup]
  | cons e rest ih =>
    obtain ⟨k, w⟩ := e
    by_cases h : k = key
    · simp [putEntry, h, List.lookup]
    · have h2 : (key == k) = false := by
        simp only [beq_eq_false_iff_ne, ne_eq]
        exact fun h3 => h h3.symm
      simp [putEntry, h, List.lookup, h2, ih]

/-! ### The stored guest identity -/

theorem lookup_putEntry_ne {α : Type} (key other : String) (v : α) (l : List (String × α))
    (hne : other ≠ key) : (putEntry key v l).lookup other = l.lookup other := by
  have hb : (other == key) = false := by
    simp only [beq_eq_false_iff_ne, ne_eq]
    exact hne
  induction l with
  | nil => simp [putEntry, List.lookup, hb]
  | cons e rest ih =>
    obtain ⟨k, w⟩ := e
    by_cases h : k = key
    · subst h
      simp [putEntry, List.lookup, hb]
    · by_cases h2 : other = k
      · subst h2
        simp [putEntry, h, List.lookup]
      · have h3 : (other == k) = false := by
          simp only [beq_eq_false_iff_ne, ne_eq]
          exact h2
        simp [putEntry, h, List.lookup, h3, ih]

theorem lookup_dropEntry_ne {α : Type} (key other : String) (l : List (String × α))
    (hne : other ≠ key) : (dropEntry key l).lookup other = l.lookup other := by
  induction l with
  | nil => rfl
  | cons e rest ih =>
    obtain ⟨k, w⟩ := e
    unfold dropEntry at ih ⊢
    rw [List.filter_cons]
    by_cases h : k = key
    · have hd : decide ((k, w).1 ≠ key) = false := by simpa using h
      have h3 : (other == k) = false := by
        simp only [beq_eq_false_iff_ne, ne_eq]
        exact fun h4 => hne (h4.trans h)
      rw [hd, List.lookup_cons, h3]
      exact ih
    · have hd : decide ((k, w).1 ≠ key) = true := by simpa using h
      rw [hd, if_pos rfl, List.lookup_cons, List.lookup_cons, ih]

theorem Menu.guestValues_setString (ls ls1 : LocalStorage) (key value : String)
    (hv : value ≠ "") (h : GuestValuesNonEmpty ls)
    (hset : ls.setString key value = .ok ls1) : GuestValuesNonEmpty ls1 := by
  unfold LocalStorage.setString at hset
  split at hset
  · cases hset
  · cases hset
  · cases hset
    intro k hk v hlook
    by_cases hkey : k = key
    · subst hkey
      rw [lookup_putEntry] at hlook
      cases hlook
      exact hv
    · rw [lookup_putEntry_ne key k value ls.strings hkey] at hlook
      exact h k hk v hlook

theorem Menu.guestValues_showAuthMessage (message : JsVal) (type : String) (p : AuthPage) :
    (showAuthMessage message type p).storage = p.storage := by
  unfold showAuthMessage
  split <;> rfl

theorem Menu.guestValues_authCatch (e : JsError) (p : AuthPage) :
    (authCatch e p).state.storage = p.storage := by
  unfold authCatch
  rw [Menu.guestValues_showAuthMessage]

/-- The one writer of the guest keys keeps them free of empty strings: whatever
the form holds and whatever the backend answers, if no empty string is stored
under `guest_phone` or `guest_name` before `handleAuthSubmit`, none is stored
afterwards. -/
theorem Menu.handleAuthSubmit_keeps_guest_values (env : AuthEnv) (fields : AuthFields)
    (p : AuthPage) (h : GuestValuesNonEmpty p.storage) :
    GuestValuesNonEmpty (handleAuthSubmit env fields p).state.storage := by
  unfold handleAuthSubmit
  split
  · rename_i rawPhone rawName rawEmail hp hn he
    simp only
    split
    · rw [Menu.guestValues_showAuthMessage]; exact h
    · rename_i hfilled
      have hphone : Auth.jsTrim rawPhone ≠ "" := fun hp => hfilled (Or.inl hp)
      have hname : Auth.jsTrim rawName ≠ "" := fun hn => hfilled (Or.inr hn)
      split
      · rw [Menu.guestValues_showAuthMessage]; exact h
      · split
        · rw [Menu.guestValues_authCatch]; exact h
        · split
          · rw [Menu.guestValues_authCatch]; exact h
          · split
            · split
              · rw [Menu.guestValues_authCatch, Menu.guestValues_showAuthMessage]; exact h
              · rename_i ls1 hset1
                have h1 : GuestValuesNonEmpty ls1 :=
                  Menu.guestValues_setString _ ls1 _ _ hphone
                    (by rw [Menu.guestValues_showAuthMessage]; exact h) hset1
                split
                · rw [Menu.guestValues_authCatch]; exact h1
                · rename_i ls2 hset2
                  exact Menu.guestValues_setString ls1 ls2 _ _ hname h1 hset2
            · rw [Menu.guestValues_showAuthMessage]; exact h
  · exact h

/-- The cart functions of `menu.js` write storage through `saveCart` only, and
`saveCart` leaves the guest keys as they are. -/
theorem Menu.saveCart_keeps_guest_values (s : MenuState) (h : GuestValuesNonEmpty s.storage) :
    GuestValuesNonEmpty (saveCart s).storage := by
  unfold saveCart LocalStorage.setItem
  split
  · rename_i ls hset
    split at hset
    · cases hset
    · cases hset
    · cases hset
      intro k hk v hlook
      have hkey : k ≠ STORAGE_KEY := by
        simp only [List.mem_cons, List.mem_singleton, List.not_mem_nil, or_false] at hk
        rcases hk with hk | hk <;> rw [hk] <;> decide
      rw [lookup_dropEntry_ne STORAGE_KEY k s.storage.strings hkey] at hlook
      exact h k hk v hlook
  · exact h

/-- A registration that succeeds stores the trimmed phone and name. -/
theorem Menu.handleAuthSubmit_example :
    (handleAuthSubmit Sample.welcomingEnv Sample.filledFields Sample.authPage).state.storage.strings =
      [("guest_phone", "+7 999 123-45-67"), ("guest_name", "Алишер")] := by
  decide

/-! ### Checkout -/

theorem length_ne_zero_of_ne_nil {c : Cart} (h : c ≠ []) : ¬ c.length = 0 := by
  intro h0
  exact h (List.length_eq_zero.mp h0)

/-- With readable storage the order data is always built. -/
theorem buildOrderData_of_readable (s : MenuState) (hmode : s.storage.mode ≠ .blocked) :
    buildOrderData s = .ok
      { table_number := "0"
        items := s.cart.map (fun i => { dish_id := i.id, quantity := i.quantity })
        guest_phone := (s.storage.strings.lookup "guest_phone").filter (fun v => v != "")
        guest_name := (s.storage.strings.lookup "guest_name").filter (fun v => v != "") } := by
  have hget : ∀ key, storedOrNull s.storage key =
      .ok ((s.storage.strings.lookup key).filter (fun v => v != "")) := by
    intro key
    unfold storedOrNull LocalStorage.getString
    cases hm : s.storage.mode with
    | blocked => exact absurd hm hmode
    | normal =>
      cases hl : s.storage.strings.lookup key with
      | none => simp [Option.filter]
      | some v => by_cases hv : v = "" <;> simp [Option.filter, hv]
    | full =>
      cases hl : s.storage.strings.lookup key with
      | none => simp [Option.filter]
      | some v => by_cases hv : v = "" <;> simp [Option.filter, hv]
  unfold buildOrderData
  simp only [hget]

/-- C1. Checkout atomicity: when every order-creation call fails (it rejects,
or resolves to a value that has no truthy `success`, `order_id` or `id`), the
in-memory cart and the whole of `localStorage`, the persisted cart included,
are after `handleCheckout` what they were before. -/
theorem handleCheckout_failure_keeps_cart (env : CheckoutEnv) (s : MenuState)
    (hfail : ∀ db req r, env.importDb = .ok db → buildOrderData s = .ok req →
      db.createOrder req = .ok r → r.accepted = false) :
    (handleCheckout env s).state.cart = s.cart ∧
      (handleCheckout env s).state.storage = s.storage := by
  unfold handleCheckout
  split
  · exact ⟨rfl, rfl⟩
  · split
    · exact ⟨rfl, rfl⟩
    · rename_i db hdb
      split
      · exact ⟨rfl, rfl⟩
      · rename_i req hreq
        split
        · exact ⟨rfl, rfl⟩
        · rename_i r hr
          have hacc := hfail db req r hdb hreq hr
          simp [hacc, checkoutCatch]

/-- Witness of C1: a refused order on the cart of two lines. -/
theorem handleCheckout_failure_keeps_cart_witness :
    Sample.menuPage.cart = [Sample.plov, Sample.chai] ∧
      (handleCheckout Sample.refusingEnv Sample.menuPage).state.cart = Sample.menuPage.cart ∧
      (handleCheckout Sample.refusingEnv Sample.menuPage).state.storage =
        Sample.menuPage.storage :=
  ⟨rfl, handleCheckout_failure_keeps_cart Sample.refusingEnv Sample.menuPage (by
    intro db req r hdb _ hr
    simp only [Sample.refusingEnv, Except.ok.injEq] at hdb
    subst hdb
    simp only [Except.ok.injEq] at hr
    subst hr
    rfl)⟩

/-- C2. After a checkout of a non-empty cart whose order-creation call
resolved to an accepted outcome, the in-memory cart is empty; and when the
browser takes the write, the cart key holds the serialised empty cart, so that
a following `loadCart` yields the empty cart whatever was in memory. -/
theorem handleCheckout_success_clears_cart (env : CheckoutEnv) (s : MenuState)
    (db : DbModule) (req : OrderRequest) (r : OrderResponse)
    (hne : s.cart ≠ []) (himp : env.importDb = .ok db)
    (hreq : buildOrderData s = .ok req) (hresp : db.createOrder req = .ok r)
    (hacc : r.accepted = true) :
    (handleCheckout env s).state.cart = [] ∧
      (s.storage.mode = .normal →
        (handleCheckout env s).state.storage.getItem STORAGE_KEY =
            .ok (some (jsonStringify [])) ∧
          ∀ c0 : Cart, (loadCart { (handleCheckout env s).state with cart := c0 }).cart = []) := by
  have hlen := length_ne_zero_of_ne_nil hne
  have hrun : (handleCheckout env s).state =
      closeCart (clearCart { s with alerts := s.alerts ++
        ["Заказ успешно оформлен! Скоро мы его приготовим."] }) := by
    unfold handleCheckout
    simp only [hlen, if_false, himp, hreq, hresp, hacc, if_true]
  rw [hrun]
  refine ⟨?_, ?_⟩
  · unfold closeCart clearCart updateCartUI saveCart
    simp only
    split <;> split <;> split <;> rfl
  · intro hmode
    have hst : (closeCart (clearCart { s with alerts := s.alerts ++
        ["Заказ успешно оформлен! Скоро мы его приготовим."] })).storage =
        { s.storage with
          carts := putEntry STORAGE_KEY (jsonStringify []) s.storage.carts
          strings := dropEntry STORAGE_KEY s.storage.strings } := by
      unfold closeCart clearCart updateCartUI saveCart LocalStorage.setItem
      simp only [hmode]
      split <;> split <;> rfl
    have hget : (closeCart (clearCart { s with alerts := s.alerts ++
        ["Заказ успешно оформлен! Скоро мы его приготовим."] })).storage.getItem STORAGE_KEY =
        .ok (some (jsonStringify [])) := by
      rw [hst]
      unfold LocalStorage.getItem
      simp only [hmode, lookup_putEntry]
    refine ⟨hget, ?_⟩
    intro c0
    unfold loadCart
    simp only [hget]
    rfl

/-- Witness of C2: an accepted order on the cart of two lines; afterwards the
stored cart is empty, and loading it over a stale in-memory cart empties it. -/
theorem handleCheckout_success_clears_cart_witness :
    (handleCheckout Sample.acceptingEnv Sample.menuPage).state.cart = [] ∧
      (handleCheckout Sample.acceptingEnv Sample.menuPage).state.storage.getItem STORAGE_KEY =
        .ok (some (jsonStringify [])) ∧
      (loadCart { (handleCheckout Sample.acceptingEnv Sample.menuPage).state with
                  cart := [Sample.plov] }).cart = [] :=
  have h := handleCheckout_success_clears_cart Sample.acceptingEnv Sample.menuPage
    { createOrder := fun _ => .ok (.record (.bool true) .undefined .undefined .undefined) }
    { table_number := "0"
      items := [{ dish_id := .num 1, quantity := 2 }, { dish_id := .num 6, quantity := 1 }]
      guest_phone := some "+7 (999) 123-45-67"
      guest_name := some "Алишер" }
    (.record (.bool true) .undefined .undefined .undefined)
    (by decide) rfl rfl rfl rfl
  ⟨h.1, (h.2 rfl).1, (h.2 rfl).2 [Sample.plov]⟩


/-- C3. With an empty cart `handleCheckout` issues no request at all (neither
the import of the backend module nor `createOrder`) and leaves the whole
state, the cart and `localStorage` included, as it was. -/
theorem handleCheckout_empty_no_request (env : CheckoutEnv) (s : MenuState)
    (hempty : s.cart = []) :
    (handleCheckout env s).trace = [] ∧ (handleCheckout env s).state = s := by
  unfold handleCheckout
  simp [hempty]

/-- Witness of C3: the freshly loaded page, with a backend that would accept. -/
theorem handleCheckout_empty_no_request_witness :
    Sample.emptyPage.cart = [] ∧
      (handleCheckout Sample.acceptingEnv Sample.emptyPage).trace = [] ∧
      (handleCheckout Sample.acceptingEnv Sample.emptyPage).state = Sample.emptyPage :=
  ⟨rfl, handleCheckout_empty_no_request Sample.acceptingEnv Sample.emptyPage rfl⟩

/-- C4, as stated, fails: on the freshly loaded page with an empty cart
`handleCheckout` ends without any `alert` and without any console entry. -/
theorem handleCheckout_empty_reports_nothing :
    Sample.emptyPage.cart = [] ∧
      (handleCheckout Sample.acceptingEnv Sample.emptyPage).state.alerts = [] ∧
      (handleCheckout Sample.acceptingEnv Sample.emptyPage).state.console = [] := by
  decide

/-- C4, amended. With an empty cart `handleCheckout` returns normally and
silently: it shows no `alert` and writes no console entry (the guard
`if (cart.length === 0) return;` is all it runs). -/
theorem handleCheckout_empty_is_silent (env : CheckoutEnv) (s : MenuState)
    (hempty : s.cart = []) :
    (handleCheckout env s).outcome = .ok () ∧
      (handleCheckout env s).state.alerts = s.alerts ∧
      (handleCheckout env s).state.console = s.console := by
  unfold handleCheckout
  simp [hempty]

/-- Witness of C4, amended: an empty cart on a page that has shown an alert before. -/
theorem handleCheckout_empty_is_silent_witness :
    (handleCheckout Sample.unreachableEnv
        { Sample.emptyPage with alerts := ["Заказ успешно оформлен! Скоро мы его приготовим."] }).outcome
        = .ok () ∧
      (handleCheckout Sample.unreachableEnv
        { Sample.emptyPage with alerts := ["Заказ успешно оформлен! Скоро мы его приготовим."] }).state.alerts
        = ["Заказ успешно оформлен! Скоро мы его приготовим."] ∧
      (handleCheckout Sample.unreachableEnv
        { Sample.emptyPage with alerts := ["Заказ успешно оформлен! Скоро мы его приготовим."] }).state.console
        = [] :=
  handleCheckout_empty_is_silent Sample.unreachableEnv
    { Sample.emptyPage with alerts := ["Заказ успешно оформлен! Скоро мы его приготовим."] } rfl

/-- C5, as stated, fails: when the backend refuses the order with the message
"Блюдо недоступно", the one text shown to the user is the fixed text of the
`catch` block; the outcome's message is not shown. -/
theorem handleCheckout_alert_is_not_the_message :
    (handleCheckout Sample.refusingEnv Sample.menuPage).trace.length = 2 ∧
      (handleCheckout Sample.refusingEnv Sample.menuPage).state.alerts =
        ["Произошла ошибка при оформлении заказа. Пожалуйста, попробуйте еще раз."] ∧
      "Блюдо недоступно" ∉ (handleCheckout Sample.refusingEnv Sample.menuPage).state.alerts := by
  decide

/-- C5, amended. For a non-empty cart and a failure outcome
`{success: false, message: m}` of the order-creation call, `handleCheckout`
shows the user one `alert` with the fixed text of its `catch` block, whatever
`m` is; `m` goes to the console only, as the message of the logged `Error`
(the default text 'Ошибка при создании заказа' when `m` is empty). -/
theorem handleCheckout_failure_alert (env : CheckoutEnv) (s : MenuState)
    (db : DbModule) (req : OrderRequest) (m : String)
    (hne : s.cart ≠ []) (himp : env.importDb = .ok db)
    (hreq : buildOrderData s = .ok req)
    (hresp : db.createOrder req = .ok (.record (.bool false) .undefined .undefined (.str m))) :
    (handleCheckout env s).state.alerts = s.alerts ++
        ["Произошла ошибка при оформлении заказа. Пожалуйста, попробуйте еще раз."] ∧
      (handleCheckout env s).state.console = s.console ++
        [("Ошибка оформления заказа:",
          JsError.error (.str (if m = "" then "Ошибка при создании заказа" else m)))] := by
  have hlen := length_ne_zero_of_ne_nil hne
  unfold handleCheckout
  simp only [hlen, if_false, himp, hreq, hresp]
  by_cases hm : m = "" <;>
    simp [OrderResponse.accepted, OrderResponse.failureMessage, JsVal.or, JsVal.truthy,
      checkoutCatch, hm]

/-- Witness of C5, amended: the refused order on the cart of two lines. -/
theorem handleCheckout_failure_alert_witness :
    (handleCheckout Sample.refusingEnv Sample.menuPage).state.alerts = Sample.menuPage.alerts ++
        ["Произошла ошибка при оформлении заказа. Пожалуйста, попробуйте еще раз."] ∧
      (handleCheckout Sample.refusingEnv Sample.menuPage).state.console =
        Sample.menuPage.console ++
        [("Ошибка оформления заказа:",
          JsError.error (.str (if "Блюдо недоступно" = "" then "Ошибка при создании заказа"
            else "Блюдо недоступно")))] :=
  handleCheckout_failure_alert Sample.refusingEnv Sample.menuPage
    { createOrder := fun _ =>
        .ok (.record (.bool false) .undefined .undefined (.str "Блюдо недоступно")) }
    { table_number := "0"
      items := [{ dish_id := .num 1, quantity := 2 }, { dish_id := .num 6, quantity := 1 }]
      guest_phone := some "+7 (999) 123-45-67"
      guest_name := some "Алишер" }
    "Блюдо недоступно" (by decide) rfl rfl rfl

/-- C6, as stated, fails at the empty cart: with an unreachable backend and an
empty cart `handleCheckout` completes normally, but without showing any
message. -/
theorem handleCheckout_empty_shows_no_message :
    (handleCheckout Sample.unreachableEnv Sample.emptyPage).outcome = .ok () ∧
      ¬ ∃ msg, (handleCheckout Sample.unreachableEnv Sample.emptyPage).state.alerts =
        Sample.emptyPage.alerts ++ [msg] := by
  refine ⟨rfl, ?_⟩
  rintro ⟨msg, h⟩
  have hl := congrArg List.length h
  simp [handleCheckout, Sample.emptyPage] at hl

/-- C6, amended. No failure escapes `handleCheckout`: for every cart and every
behaviour of the module import, of `localStorage` and of the order-creation
call (a thrown transport error included) it completes normally.  For a
non-empty cart it does so after showing exactly one `alert`; for an empty cart
it shows none. -/
theorem handleCheckout_never_throws (env : CheckoutEnv) (s : MenuState) :
    (handleCheckout env s).outcome = .ok () ∧
      (s.cart ≠ [] → ∃ msg, (handleCheckout env s).state.alerts = s.alerts ++ [msg]) ∧
      (s.cart = [] → (handleCheckout env s).state.alerts = s.alerts) := by
  have hclear : ∀ t : MenuState, (closeCart (clearCart t)).alerts = t.alerts := by
    intro t
    unfold closeCart clearCart updateCartUI saveCart
    simp only
    split <;> split <;> split <;> rfl
  refine ⟨?_, ?_, ?_⟩
  · unfold handleCheckout
    repeat' split
    all_goals rfl
  · intro hne
    have hlen := length_ne_zero_of_ne_nil hne
    unfold handleCheckout
    simp only [hlen, if_false]
    repeat' split
    all_goals first
      | exact ⟨_, rfl⟩
      | exact ⟨_, hclear _⟩
  · intro hempty
    unfold handleCheckout
    simp [hempty]

/-- Outside the storages that the page produces: were the empty string stored
under `guest_name`, `localStorage.getItem('guest_name') || null` would send
`null` for it.  The page never stores one (`Menu.handleAuthSubmit_keeps_guest_values`). -/
theorem handleCheckout_empty_name_sent_as_null :
    Sample.namelessPage.storage.getString "guest_name" = .ok (some "") ∧
      (handleCheckout Sample.acceptingEnv Sample.namelessPage).trace =
        [.importDb,
         .createOrder
          { table_number := "0"
            items := [{ dish_id := .num 1, quantity := 2 }, { dish_id := .num 6, quantity := 1 }]
            guest_phone := some "+7 (999) 123-45-67"
            guest_name := none }] := by
  exact ⟨rfl, by decide⟩

/-- The request of `handleCheckout` on any readable storage: for a non-empty
cart, once the backend module is imported, exactly one `createOrder` call is
made; `guest_phone` and `guest_name` are the stored strings when these are
non-empty, and `null` otherwise. -/
theorem Menu.handleCheckout_trace (env : CheckoutEnv) (s : MenuState) (db : DbModule)
    (hne : s.cart ≠ []) (himp : env.importDb = .ok db)
    (hmode : s.storage.mode ≠ .blocked) :
    (handleCheckout env s).trace =
        [.importDb,
         .createOrder
          { table_number := "0"
            items := s.cart.map (fun line => { dish_id := line.id, quantity := line.quantity })
            guest_phone := (s.storage.strings.lookup "guest_phone").filter (fun v => v != "")
            guest_name := (s.storage.strings.lookup "guest_name").filter (fun v => v != "") }] := by
  have hlen := length_ne_zero_of_ne_nil hne
  unfold handleCheckout
  simp only [hlen, if_false, himp, buildOrderData_of_readable s hmode]
  repeat' split
  all_goals rfl

theorem Menu.filter_stored_guest_value (ls : LocalStorage) (key : String)
    (hkey : key ∈ ["guest_phone", "guest_name"]) (h : GuestValuesNonEmpty ls) :
    (ls.strings.lookup key).filter (fun v => v != "") = ls.strings.lookup key := by
  cases hl : ls.strings.lookup key with
  | none => rfl
  | some v =>
    have hv : v ≠ "" := h key hkey v hl
    simp [Option.filter, hv]

/-- C7. For every non-empty cart, once the backend module is imported and
`localStorage` can be read, `handleCheckout` makes exactly one `createOrder`
call.  Its request has `table_number` "0"; `items` is the cart mapped line by
line, in order, to `{dish_id: line.id, quantity: line.quantity}` (same length;
an item has no other field); `guest_phone` and `guest_name` are the values
stored under these keys, and `null` when none is stored.  The storage is one
that the page produces: `handleAuthSubmit`, the only writer of the two keys,
stores trimmed non-empty strings only
(`Menu.handleAuthSubmit_keeps_guest_values`). -/
theorem handleCheckout_request (env : CheckoutEnv) (s : MenuState) (db : DbModule)
    (hne : s.cart ≠ []) (himp : env.importDb = .ok db)
    (hmode : s.storage.mode ≠ .blocked) (hguest : GuestValuesNonEmpty s.storage) :
    (handleCheckout env s).trace =
        [.importDb,
         .createOrder
          { table_number := "0"
            items := s.cart.map (fun line => { dish_id := line.id, quantity := line.quantity })
            guest_phone := s.storage.strings.lookup "guest_phone"
            guest_name := s.storage.strings.lookup "guest_name" }] ∧
      (s.cart.map (fun line => ({ dish_id := line.id, quantity := line.quantity } : OrderItem))).length
        = s.cart.length ∧
      (s.storage.getString "guest_phone" = .ok (s.storage.strings.lookup "guest_phone") ∧
        s.storage.getString "guest_name" = .ok (s.storage.strings.lookup "guest_name")) := by
  refine ⟨?_, List.length_map _ _, ?_⟩
  · rw [Menu.handleCheckout_trace env s db hne himp hmode,
      Menu.filter_stored_guest_value s.storage "guest_phone" (by decide) hguest,
      Menu.filter_stored_guest_value s.storage "guest_name" (by decide) hguest]
  · unfold LocalStorage.getString
    cases hm : s.storage.mode with
    | blocked => exact absurd hm hmode
    | normal => exact ⟨rfl, rfl⟩
    | full => exact ⟨rfl, rfl⟩

/-- Witness of C7: the cart of two lines of a guest registered through the
form of the page. -/
theorem handleCheckout_request_witness :
    (handleCheckout Sample.refusingEnv Sample.registeredPage).trace =
        [.importDb,
         .createOrder
          { table_number := "0"
            items := [{ dish_id := .num 1, quantity := 2 }, { dish_id := .num 6, quantity := 1 }]
            guest_phone := some "+7 999 123-45-67"
            guest_name := some "Алишер" }] :=
  (handleCheckout_request Sample.refusingEnv Sample.registeredPage
    { createOrder := fun _ =>
        .ok (.record (.bool false) .undefined .undefined (.str "Блюдо недоступно")) }
    (by decide) rfl (by decide)
    (by
      intro key hkey v hv
      simp only [List.mem_cons, List.mem_singleton, List.not_mem_nil, or_false] at hkey
      rcases hkey with hk | hk
      · rw [hk] at hv
        have h2 : v = "+7 999 123-45-67" := by
          simpa [Sample.registeredPage, List.lookup] using hv.symm
        rw [h2]
        decide
      · rw [hk] at hv
        have h2 : v = "Алишер" := by
          simpa [Sample.registeredPage, List.lookup] using hv.symm
        rw [h2]
        decide)).1


/-! ### Cart lines -/

theorem findLine_eq_none_iff (id : JsId) (c : Cart) :
    findLine id c = none ↔ ∀ l ∈ c, l.id ≠ id := by
  unfold findLine
  simp [List.find?_eq_none]

theorem findLine_isSome_of_mem {id : JsId} {c : Cart} {l : CartLine}
    (hmem : l ∈ c) (hid : l.id = id) : ∃ found, findLine id c = some found := by
  cases h : findLine id c with
  | some found => exact ⟨found, rfl⟩
  | none => exact absurd hid ((findLine_eq_none_iff id c).mp h l hmem)

theorem updateFound_append (id : JsId) (f : Int → Int) (pre post : Cart) (l : CartLine)
    (hpre : ∀ x ∈ pre, x.id ≠ id) (hid : l.id = id) :
    updateFound id f (pre ++ l :: post) = pre ++ { l with quantity := f l.quantity } :: post := by
  induction pre with
  | nil => simp [updateFound, hid]
  | cons x rest ih =>
    have hx : x.id ≠ id := hpre x (List.mem_cons_self _ _)
    have hrest : ∀ y ∈ rest, y.id ≠ id := fun y hy => hpre y (List.mem_cons_of_mem _ hy)
    simp [updateFound, hx, ih hrest]

theorem no_id_before_of_nodup {pre post : Cart} {l : CartLine}
    (hnodup : ((pre ++ l :: post).map (fun x => x.id)).Nodup) :
    ∀ x ∈ pre, x.id ≠ l.id := by
  intro x hx heq
  rw [List.map_append, List.map_cons, List.nodup_append] at hnodup
  obtain ⟨_, _, hdisj⟩ := hnodup
  exact hdisj (List.mem_map_of_mem (fun x => x.id) hx) (heq ▸ List.mem_cons_self _ _)

theorem withoutId_eq_self {id : JsId} {c : Cart} (h : ∀ l ∈ c, l.id ≠ id) :
    withoutId id c = c := by
  unfold withoutId
  rw [List.filter_eq_self]
  intro l hl
  simpa using h l hl

/-! ### database.js on working storage -/

theorem Database.getCart_of_stored (s : Database.PageState) (c : Cart)
    (hmode : s.storage.mode = .normal)
    (hstored : s.storage.carts.lookup Database.cartKey = some (.lines c)) :
    Database.getCart s = .ok c := by
  unfold Database.getCart LocalStorage.getItem
  simp [hmode, hstored, CartText.truthy, jsonParse]

theorem Database.saveAndReturn_normal (cart : Cart) (s : Database.PageState)
    (hmode : s.storage.mode = .normal) :
    (Database.saveAndReturn cart s).outcome = .ok cart ∧
      Database.getCart (Database.saveAndReturn cart s).state = .ok cart ∧
      (Database.saveAndReturn cart s).state.storage.mode = .normal := by
  have hsave : Database.saveCart cart s = .ok { s with storage :=
      { s.storage with
        carts := putEntry Database.cartKey (jsonStringify cart) s.storage.carts
        strings := dropEntry Database.cartKey s.storage.strings } } := by
    unfold Database.saveCart LocalStorage.setItem
    simp [hmode]
  have hget : Database.getCart { s with storage :=
      { s.storage with
        carts := putEntry Database.cartKey (jsonStringify cart) s.storage.carts
        strings := dropEntry Database.cartKey s.storage.strings } } = .ok cart := by
    apply Database.getCart_of_stored
    · exact hmode
    · exact lookup_putEntry _ _ _
  unfold Database.saveAndReturn
  simp only [hsave, Database.updateCartCount, Database.getCartItemCount, hget]
  refine ⟨by trivial, ?_, hmode⟩
  unfold Database.getCart at hget ⊢
  exact hget


/-! ### menu.js: saving keeps the cart -/

theorem Menu.cart_updateCartUI_saveCart (t : MenuState) :
    (updateCartUI (saveCart t)).cart = t.cart := by
  unfold updateCartUI saveCart
  split <;> split <;> rfl

theorem Menu.stored_updateCartUI_saveCart (t : MenuState) (hmode : t.storage.mode = .normal) :
    (updateCartUI (saveCart t)).storage.getItem STORAGE_KEY =
      .ok (some (jsonStringify t.cart)) := by
  have hst : (updateCartUI (saveCart t)).storage =
      { t.storage with
        carts := putEntry STORAGE_KEY (jsonStringify t.cart) t.storage.carts
        strings := dropEntry STORAGE_KEY t.storage.strings } := by
    unfold updateCartUI saveCart LocalStorage.setItem
    simp only [hmode]
    split <;> rfl
  rw [hst]
  unfold LocalStorage.getItem
  simp only [hmode, lookup_putEntry]

/-! ### database.js: the two branches of `addToCart` -/

theorem Database.addToCart_of_none (dish : Dish) (ps : Database.PageState) (cart : Cart)
    (hdb : Database.getCart ps = .ok cart) (hnone : findLine dish.id cart = none) :
    Database.addToCart dish ps = Database.saveAndReturn
      (cart ++ [{ id := dish.id, name := dish.name, price := dish.price, quantity := 1,
                  image := dish.image_url }]) ps := by
  unfold Database.addToCart
  simp only [hdb, hnone]

theorem Database.addToCart_of_some (dish : Dish) (ps : Database.PageState) (cart : Cart)
    (found : CartLine)
    (hdb : Database.getCart ps = .ok cart) (hfound : findLine dish.id cart = some found) :
    Database.addToCart dish ps =
      Database.saveAndReturn (updateFound dish.id (fun q => q + 1) cart) ps := by
  unfold Database.addToCart
  simp only [hdb, hfound]

/-! ### Adding and removing lines -/

/-- C8. `addToCart` on a cart with pairwise distinct ids.  If the cart has a
line with the dish id (the cart is `pre ++ l :: post` with `l.id` that id),
the resulting cart is `pre ++ l1 :: post`, where `l1` is `l` with its quantity
increased by 1: the name and price of `l` stay as stored whatever the dish
passed in carries, and all other lines, their order and the length are
unchanged.  Otherwise the resulting cart is the old one with one line
`{id, name, price, quantity = 1}` of the dish appended at the end (in
`database.js` the new line also copies `dish.image_url` into `image`).  This
holds for `addToCart(id, name, price)` of `menu.js` on the in-memory cart, and
for `addToCart(dish)` of `database.js` on the cart it reads from working
storage: there the resulting cart is both returned and read back by
`getCart`. -/
theorem addToCart_merges_by_id (cart : Cart) (dish : Dish) (s : MenuState)
    (ps : Database.PageState)
    (hnodup : (cart.map (fun l => l.id)).Nodup)
    (hmenu : s.cart = cart)
    (hmode : ps.storage.mode = .normal) (hdb : Database.getCart ps = .ok cart) :
    (∀ pre l post, cart = pre ++ l :: post → l.id = dish.id →
        (Menu.addToCart dish.id dish.name dish.price s).cart =
            pre ++ { l with quantity := l.quantity + 1 } :: post ∧
          (Database.addToCart dish ps).outcome =
            .ok (pre ++ { l with quantity := l.quantity + 1 } :: post) ∧
          Database.getCart (Database.addToCart dish ps).state =
            .ok (pre ++ { l with quantity := l.quantity + 1 } :: post)) ∧
      ((∀ l ∈ cart, l.id ≠ dish.id) →
        (Menu.addToCart dish.id dish.name dish.price s).cart =
            cart ++ [{ id := dish.id, name := dish.name, price := dish.price, quantity := 1,
                       image := none }] ∧
          (Database.addToCart dish ps).outcome =
            .ok (cart ++ [{ id := dish.id, name := dish.name, price := dish.price,
                            quantity := 1, image := dish.image_url }]) ∧
          Database.getCart (Database.addToCart dish ps).state =
            .ok (cart ++ [{ id := dish.id, name := dish.name, price := dish.price,
                            quantity := 1, image := dish.image_url }])) := by
  refine ⟨?_, ?_⟩
  · intro pre l post hsplit hid
    subst hsplit
    have hpre : ∀ x ∈ pre, x.id ≠ dish.id := by
      intro x hx
      rw [← hid]
      exact no_id_before_of_nodup hnodup x hx
    have hupd := updateFound_append dish.id (fun q => q + 1) pre post l hpre hid
    obtain ⟨found, hfound⟩ : ∃ found, findLine dish.id (pre ++ l :: post) = some found :=
      findLine_isSome_of_mem (l := l) (by simp) hid
    have hrun := Database.saveAndReturn_normal
      (updateFound dish.id (fun q => q + 1) (pre ++ l :: post)) ps hmode
    rw [hupd] at hrun
    refine ⟨?_, ?_, ?_⟩
    · unfold Menu.addToCart
      simp only [hmenu, hfound, Menu.cart_updateCartUI_saveCart]
      rw [hupd]
    · rw [Database.addToCart_of_some dish ps _ found hdb hfound, hupd]
      exact hrun.1
    · rw [Database.addToCart_of_some dish ps _ found hdb hfound, hupd]
      exact hrun.2.1
  · intro hfresh
    have hnone : findLine dish.id cart = none := (findLine_eq_none_iff _ _).mpr hfresh
    have hrun := Database.saveAndReturn_normal
      (cart ++ [{ id := dish.id, name := dish.name, price := dish.price, quantity := 1,
                  image := dish.image_url }]) ps hmode
    refine ⟨?_, ?_, ?_⟩
    · unfold Menu.addToCart
      simp only [hmenu, hnone, Menu.cart_updateCartUI_saveCart]
    · rw [Database.addToCart_of_none dish ps cart hdb hnone]
      exact hrun.1
    · rw [Database.addToCart_of_none dish ps cart hdb hnone]
      exact hrun.2.1

/-- Witness of C8: the cart `[plov, chai]`; adding the dish of `plov` under a
new name and price, and adding a dish that is not in the cart. -/
theorem addToCart_merges_by_id_witness :
    ((Menu.addToCart Sample.plovDish.id Sample.plovDish.name Sample.plovDish.price
          Sample.menuPage).cart =
        [] ++ { Sample.plov with quantity := Sample.plov.quantity + 1 } :: [Sample.chai] ∧
      (Database.addToCart Sample.plovDish Sample.cartPage).outcome =
        .ok ([] ++ { Sample.plov with quantity := Sample.plov.quantity + 1 } :: [Sample.chai]) ∧
      Database.getCart (Database.addToCart Sample.plovDish Sample.cartPage).state =
        .ok ([] ++ { Sample.plov with quantity := Sample.plov.quantity + 1 } :: [Sample.chai])) ∧
    ((Menu.addToCart Sample.lagman.id Sample.lagman.name Sample.lagman.price
          Sample.menuPage).cart =
        [Sample.plov, Sample.chai] ++
          [{ id := Sample.lagman.id, name := Sample.lagman.name, price := Sample.lagman.price,
             quantity := 1, image := none }] ∧
      (Database.addToCart Sample.lagman Sample.cartPage).outcome =
        .ok ([Sample.plov, Sample.chai] ++
          [{ id := Sample.lagman.id, name := Sample.lagman.name, price := Sample.lagman.price,
             quantity := 1, image := Sample.lagman.image_url }]) ∧
      Database.getCart (Database.addToCart Sample.lagman Sample.cartPage).state =
        .ok ([Sample.plov, Sample.chai] ++
          [{ id := Sample.lagman.id, name := Sample.lagman.name, price := Sample.lagman.price,
             quantity := 1, image := Sample.lagman.image_url }])) :=
  ⟨(addToCart_merges_by_id [Sample.plov, Sample.chai] Sample.plovDish Sample.menuPage
      Sample.cartPage (by decide) rfl rfl rfl).1 [] Sample.plov [Sample.chai] rfl rfl,
   (addToCart_merges_by_id [Sample.plov, Sample.chai] Sample.lagman Sample.menuPage
      Sample.cartPage (by decide) rfl rfl rfl).2 (by decide)⟩

/-- C9. Add merges by id: on a cart with no line of id `x`, two `addToCart`
calls with dishes of that same id `x` yield the old cart followed by one line
of id `x` with quantity 2 (holding the name and price of the first call): the
result has exactly one line whose id is `x`, and one row more than before, not
two.  This holds for `menu.js` on the in-memory cart and for `database.js` on
the cart it reads from working storage. -/
theorem addToCart_twice_one_line (cart : Cart) (first second : Dish) (s : MenuState)
    (ps : Database.PageState)
    (hsame : second.id = first.id) (hfresh : ∀ l ∈ cart, l.id ≠ first.id)
    (hmenu : s.cart = cart)
    (hmode : ps.storage.mode = .normal) (hdb : Database.getCart ps = .ok cart) :
    (Menu.addToCart second.id second.name second.price
          (Menu.addToCart first.id first.name first.price s)).cart =
        cart ++ [{ id := first.id, name := first.name, price := first.price, quantity := 2,
                   image := none }] ∧
      (Database.addToCart second (Database.addToCart first ps).state).outcome =
        .ok (cart ++ [{ id := first.id, name := first.name, price := first.price,
                        quantity := 2, image := first.image_url }]) ∧
      Database.getCart (Database.addToCart second (Database.addToCart first ps).state).state =
        .ok (cart ++ [{ id := first.id, name := first.name, price := first.price,
                        quantity := 2, image := first.image_url }]) ∧
      (∀ line : CartLine, line.id = first.id →
        (cart ++ [line]).filter (fun l => decide (l.id = first.id)) = [line] ∧
          (cart ++ [line]).length = cart.length + 1) := by
  have hnone : findLine first.id cart = none := (findLine_eq_none_iff _ _).mpr hfresh
  have hfound : ∀ line : CartLine, line.id = first.id →
      ∃ found, findLine first.id (cart ++ [line]) = some found := by
    intro line hline
    exact findLine_isSome_of_mem (l := line) (by simp) hline
  have hupd : ∀ line : CartLine, line.id = first.id →
      updateFound first.id (fun q => q + 1) (cart ++ [line]) =
        cart ++ [{ line with quantity := line.quantity + 1 }] := by
    intro line hline
    exact updateFound_append first.id (fun q => q + 1) cart [] line hfresh hline
  have hdbrun :
      (Database.addToCart second (Database.addToCart first ps).state).outcome =
          .ok (cart ++ [{ id := first.id, name := first.name, price := first.price,
                          quantity := 2, image := first.image_url }]) ∧
        Database.getCart (Database.addToCart second (Database.addToCart first ps).state).state =
          .ok (cart ++ [{ id := first.id, name := first.name, price := first.price,
                          quantity := 2, image := first.image_url }]) := by
    have hrun := Database.saveAndReturn_normal
      (cart ++ [{ id := first.id, name := first.name, price := first.price, quantity := 1,
                  image := first.image_url }]) ps hmode
    rw [Database.addToCart_of_none first ps cart hdb hnone]
    obtain ⟨found, hf⟩ := hfound
      { id := first.id, name := first.name, price := first.price, quantity := 1,
        image := first.image_url } rfl
    have hf2 : findLine second.id
        (cart ++ [{ id := first.id, name := first.name, price := first.price, quantity := 1,
                    image := first.image_url }]) = some found := by
      rw [hsame]; exact hf
    have hrun2 := Database.saveAndReturn_normal
      (updateFound second.id (fun q => q + 1)
        (cart ++ [{ id := first.id, name := first.name, price := first.price, quantity := 1,
                    image := first.image_url }]))
      (Database.saveAndReturn
        (cart ++ [{ id := first.id, name := first.name, price := first.price, quantity := 1,
                    image := first.image_url }]) ps).state hrun.2.2
    rw [Database.addToCart_of_some second _ _ found hrun.2.1 hf2]
    rw [hsame, hupd _ rfl] at hrun2 ⊢
    exact ⟨hrun2.1, hrun2.2.1⟩
  refine ⟨?_, ?_, ?_, ?_⟩
  · have h1 : (Menu.addToCart first.id first.name first.price s).cart =
        cart ++ [{ id := first.id, name := first.name, price := first.price, quantity := 1,
                   image := none }] := by
      unfold Menu.addToCart
      simp only [hmenu, hnone, Menu.cart_updateCartUI_saveCart]
    obtain ⟨found, hf⟩ := hfound
      { id := first.id, name := first.name, price := first.price, quantity := 1, image := none } rfl
    unfold Menu.addToCart at h1 ⊢
    simp only [hsame, h1, hf, Menu.cart_updateCartUI_saveCart]
    rw [hupd _ rfl]
    rfl
  · exact hdbrun.1
  · exact hdbrun.2
  · intro line hline
    refine ⟨?_, by simp⟩
    rw [List.filter_append]
    have hcart : cart.filter (fun l => decide (l.id = first.id)) = [] := by
      rw [List.filter_eq_nil_iff]
      intro l hl
      simpa using hfresh l hl
    simp [hcart, hline]

/-- Witness of C9: the dish `lagman` added twice to the cart `[plov, chai]`,
the second time under another name and price. -/
theorem addToCart_twice_one_line_witness :
    (Menu.addToCart Sample.lagman.id "Лагман острый" 350
          (Menu.addToCart Sample.lagman.id Sample.lagman.name Sample.lagman.price
            Sample.menuPage)).cart =
        [Sample.plov, Sample.chai] ++
          [{ id := .num 2, name := "Лагман", price := 320, quantity := 2, image := none }] ∧
      (Database.addToCart { Sample.lagman with name := "Лагман острый", price := 350 }
          (Database.addToCart Sample.lagman Sample.cartPage).state).outcome =
        .ok ([Sample.plov, Sample.chai] ++
          [{ id := .num 2, name := "Лагман", price := 320, quantity := 2,
             image := some "/static/images/lagman.jpg" }]) :=
  ⟨(addToCart_twice_one_line [Sample.plov, Sample.chai] Sample.lagman
      { Sample.lagman with name := "Лагман острый", price := 350 } Sample.menuPage
      Sample.cartPage rfl (by decide) rfl rfl rfl).1,
   (addToCart_twice_one_line [Sample.plov, Sample.chai] Sample.lagman
      { Sample.lagman with name := "Лагман острый", price := 350 } Sample.menuPage
      Sample.cartPage rfl (by decide) rfl rfl rfl).2.1⟩

/-- C10. `removeFromCart(id)` yields the cart without the lines whose id is
`id`, the others kept in their order: `menu.js` on the in-memory cart (for
every state of storage, and it cannot throw), `database.js` on the cart it
reads from working storage, where it returns normally and the cart read back
is the returned one.  When the cart has no line with that id, the cart after
equals the cart before and no error is raised. -/
theorem removeFromCart_filters (cart : Cart) (id : JsId) (s : MenuState)
    (ps : Database.PageState)
    (hmenu : s.cart = cart)
    (hmode : ps.storage.mode = .normal) (hdb : Database.getCart ps = .ok cart) :
    ((Menu.removeFromCart id s).cart = cart.filter (fun l => decide (l.id ≠ id)) ∧
        (Database.removeFromCart id ps).outcome = .ok (cart.filter (fun l => decide (l.id ≠ id))) ∧
        Database.getCart (Database.removeFromCart id ps).state =
          .ok (cart.filter (fun l => decide (l.id ≠ id)))) ∧
      ((∀ l ∈ cart, l.id ≠ id) →
        (Menu.removeFromCart id s).cart = cart ∧
          (Database.removeFromCart id ps).outcome = .ok cart ∧
          Database.getCart (Database.removeFromCart id ps).state = .ok cart) := by
  have hm : (Menu.removeFromCart id s).cart = withoutId id cart := by
    unfold Menu.removeFromCart
    rw [Menu.cart_updateCartUI_saveCart, hmenu]
  have hd : Database.removeFromCart id ps = Database.saveAndReturn (withoutId id cart) ps := by
    unfold Database.removeFromCart
    simp only [hdb]
  have hrun := Database.saveAndReturn_normal (withoutId id cart) ps hmode
  refine ⟨⟨hm, ?_, ?_⟩, ?_⟩
  · rw [hd]; exact hrun.1
  · rw [hd]; exact hrun.2.1
  · intro habsent
    rw [withoutId_eq_self habsent] at hm hd hrun
    exact ⟨hm, by rw [hd]; exact hrun.1, by rw [hd]; exact hrun.2.1⟩

/-- Witness of C10: removing `chai` from `[plov, chai]`. -/
theorem removeFromCart_filters_witness :
    (Menu.removeFromCart (.num 6) Sample.menuPage).cart =
        [Sample.plov, Sample.chai].filter (fun l => decide (l.id ≠ .num 6)) ∧
      (Database.removeFromCart (.num 6) Sample.cartPage).outcome =
        .ok ([Sample.plov, Sample.chai].filter (fun l => decide (l.id ≠ .num 6))) ∧
      Database.getCart (Database.removeFromCart (.num 6) Sample.cartPage).state =
        .ok ([Sample.plov, Sample.chai].filter (fun l => decide (l.id ≠ .num 6))) :=
  (removeFromCart_filters [Sample.plov, Sample.chai] (.num 6) Sample.menuPage Sample.cartPage
    rfl rfl rfl).1



/-! ### Setting a quantity -/

theorem map_id_updateFound (id : JsId) (f : Int → Int) (c : Cart) :
    (updateFound id f c).map (fun l => l.id) = c.map (fun l => l.id) := by
  induction c with
  | nil => rfl
  | cons x rest ih =>
    by_cases hx : x.id = id
    · simp [updateFound, hx]
    · simp [updateFound, hx, ih]

theorem mem_updateFound {id : JsId} {f : Int → Int} {c : Cart} {l1 : CartLine}
    (h : l1 ∈ updateFound id f c) :
    l1 ∈ c ∨ ∃ l ∈ c, l1 = { l with quantity := f l.quantity } := by
  induction c with
  | nil => simp [updateFound] at h
  | cons x rest ih =>
    by_cases hx : x.id = id
    · rw [updateFound, if_pos hx, List.mem_cons] at h
      rcases h with h | h
      · exact Or.inr ⟨x, List.mem_cons_self _ _, h⟩
      · exact Or.inl (List.mem_cons_of_mem _ h)
    · rw [updateFound, if_neg hx, List.mem_cons] at h
      rcases h with h | h
      · exact Or.inl (h ▸ List.mem_cons_self _ _)
      · rcases ih h with h1 | ⟨l, hl, h1⟩
        · exact Or.inl (List.mem_cons_of_mem _ h1)
        · exact Or.inr ⟨l, List.mem_cons_of_mem _ hl, h1⟩

theorem mem_withoutId {id : JsId} {c : Cart} {l : CartLine} :
    l ∈ withoutId id c ↔ l ∈ c ∧ l.id ≠ id := by
  unfold withoutId
  simp [List.mem_filter]

theorem Menu.loadCart_of_stored (t : MenuState) (c : Cart)
    (h : t.storage.getItem STORAGE_KEY = .ok (some (.lines c))) : (loadCart t).cart = c := by
  unfold loadCart
  simp only [h]
  rfl

theorem Database.updateCartItemQuantity_of_none (id : JsId) (q : Int)
    (ps : Database.PageState) (cart : Cart)
    (hdb : Database.getCart ps = .ok cart) (hnone : findLine id cart = none) :
    Database.updateCartItemQuantity id q ps = { outcome := .ok cart, state := ps } := by
  unfold Database.updateCartItemQuantity
  simp only [hdb, hnone]

theorem Database.updateCartItemQuantity_of_some (id : JsId) (q : Int)
    (ps : Database.PageState) (cart : Cart) (found : CartLine)
    (hdb : Database.getCart ps = .ok cart) (hfound : findLine id cart = some found) :
    Database.updateCartItemQuantity id q ps =
      if q ≤ 0 then Database.removeFromCart id ps
      else Database.saveAndReturn (updateFound id (fun _ => q) cart) ps := by
  unfold Database.updateCartItemQuantity
  simp only [hdb, hfound]

theorem Database.removeFromCart_of_stored (id : JsId) (ps : Database.PageState) (cart : Cart)
    (hdb : Database.getCart ps = .ok cart) :
    Database.removeFromCart id ps = Database.saveAndReturn (withoutId id cart) ps := by
  unfold Database.removeFromCart
  simp only [hdb]

/-- C11. `updateCartItemQuantity(id, q)` on a cart with pairwise distinct ids,
in `menu.js` on the in-memory cart and in `database.js` on the cart it reads
from working storage.  When `q ≤ 0` (0 or -5, say) the cart afterwards, in
memory and read back from storage (`loadCart` in `menu.js`, `getCart` in
`database.js`), is the cart after `removeFromCart(id)`, and that cart is the
old cart without the lines of that id, so that no line with that id remains.
When `q > 0` and the cart has a line with that id (the cart is
`pre ++ l :: post` with `l.id = id`), the cart afterwards, in memory and read
back from storage, is `pre ++ l1 :: post`, where `l1` is `l` with quantity
`q`: every other line and the order are unchanged. -/
theorem updateCartItemQuantity_sets_or_removes (cart : Cart) (id : JsId) (q : Int)
    (s : MenuState) (ps : Database.PageState)
    (hnodup : (cart.map (fun l => l.id)).Nodup)
    (hmenu : s.cart = cart) (hsmode : s.storage.mode = .normal)
    (hsync : s.storage.getItem STORAGE_KEY = .ok (some (jsonStringify cart)))
    (hmode : ps.storage.mode = .normal) (hdb : Database.getCart ps = .ok cart) :
    (q ≤ 0 →
        ((Menu.updateCartItemQuantity id q s).cart = (Menu.removeFromCart id s).cart ∧
          (Menu.updateCartItemQuantity id q s).cart = cart.filter (fun l => decide (l.id ≠ id)) ∧
          (loadCart (Menu.updateCartItemQuantity id q s)).cart =
            (loadCart (Menu.removeFromCart id s)).cart ∧
          (loadCart (Menu.updateCartItemQuantity id q s)).cart =
            cart.filter (fun l => decide (l.id ≠ id))) ∧
        (Database.getCart (Database.updateCartItemQuantity id q ps).state =
            Database.getCart (Database.removeFromCart id ps).state ∧
          Database.getCart (Database.updateCartItemQuantity id q ps).state =
            .ok (cart.filter (fun l => decide (l.id ≠ id)))) ∧
        ∀ l ∈ cart.filter (fun l => decide (l.id ≠ id)), l.id ≠ id) ∧
      (0 < q → ∀ pre l post, cart = pre ++ l :: post → l.id = id →
        (Menu.updateCartItemQuantity id q s).cart = pre ++ { l with quantity := q } :: post ∧
          (loadCart (Menu.updateCartItemQuantity id q s)).cart =
            pre ++ { l with quantity := q } :: post ∧
          (Database.updateCartItemQuantity id q ps).outcome =
            .ok (pre ++ { l with quantity := q } :: post) ∧
          Database.getCart (Database.updateCartItemQuantity id q ps).state =
            .ok (pre ++ { l with quantity := q } :: post)) := by
  have hrem : (Menu.removeFromCart id s).cart = withoutId id cart := by
    unfold Menu.removeFromCart
    rw [Menu.cart_updateCartUI_saveCart, hmenu]
  have hremStored : (loadCart (Menu.removeFromCart id s)).cart = withoutId id cart := by
    apply Menu.loadCart_of_stored
    have h := Menu.stored_updateCartUI_saveCart { s with cart := withoutId id s.cart } hsmode
    rw [← hmenu]
    exact h
  have hdrem := Database.saveAndReturn_normal (withoutId id cart) ps hmode
  have hdremEq := Database.removeFromCart_of_stored id ps cart hdb
  have hdremGet : Database.getCart (Database.removeFromCart id ps).state =
      .ok (withoutId id cart) := by
    rw [hdremEq]; exact hdrem.2.1
  refine ⟨?_, ?_⟩
  · intro hq
    have hfacts :
        (Menu.updateCartItemQuantity id q s).cart = withoutId id cart ∧
          (loadCart (Menu.updateCartItemQuantity id q s)).cart = withoutId id cart ∧
          Database.getCart (Database.updateCartItemQuantity id q ps).state =
            .ok (withoutId id cart) := by
      cases hfind : findLine id cart with
      | none =>
        have hself : withoutId id cart = cart :=
          withoutId_eq_self ((findLine_eq_none_iff id cart).mp hfind)
        have hupd : Menu.updateCartItemQuantity id q s = s := by
          unfold Menu.updateCartItemQuantity
          simp only [hmenu, hfind]
        rw [hupd, Database.updateCartItemQuantity_of_none id q ps cart hdb hfind, hself]
        exact ⟨hmenu, Menu.loadCart_of_stored s cart hsync, hdb⟩
      | some found =>
        have hupd : Menu.updateCartItemQuantity id q s = Menu.removeFromCart id s := by
          unfold Menu.updateCartItemQuantity
          simp only [hmenu, hfind, hq, if_true]
        rw [hupd, Database.updateCartItemQuantity_of_some id q ps cart found hdb hfind]
        simp only [hq, if_true]
        exact ⟨hrem, hremStored, hdremGet⟩
    refine ⟨⟨hfacts.1.trans hrem.symm, hfacts.1, hfacts.2.1.trans hremStored.symm, hfacts.2.1⟩,
      ⟨hfacts.2.2.trans hdremGet.symm, hfacts.2.2⟩, ?_⟩
    intro l hl
    exact (mem_withoutId.mp hl).2
  · intro hq pre l post hsplit hid
    subst hsplit
    have hnot : ¬ q ≤ 0 := not_le.mpr hq
    have hpre : ∀ x ∈ pre, x.id ≠ id := by
      intro x hx
      rw [← hid]
      exact no_id_before_of_nodup hnodup x hx
    have hupd := updateFound_append id (fun _ => q) pre post l hpre hid
    obtain ⟨found, hfound⟩ : ∃ found, findLine id (pre ++ l :: post) = some found :=
      findLine_isSome_of_mem (l := l) (by simp) hid
    have hrun := Database.saveAndReturn_normal
      (updateFound id (fun _ => q) (pre ++ l :: post)) ps hmode
    rw [hupd] at hrun
    refine ⟨?_, ?_, ?_, ?_⟩
    · unfold Menu.updateCartItemQuantity
      simp only [hmenu, hfound, hnot, if_false, Menu.cart_updateCartUI_saveCart]
      rw [hupd]
    · apply Menu.loadCart_of_stored
      have hupdMenu : Menu.updateCartItemQuantity id q s =
          updateCartUI (saveCart
            { s with cart := updateFound id (fun _ => q) s.cart }) := by
        unfold Menu.updateCartItemQuantity
        simp only [hmenu, hfound, hnot, if_false]
      have h := Menu.stored_updateCartUI_saveCart
        { s with cart := updateFound id (fun _ => q) s.cart } hsmode
      rw [hupdMenu, h]
      simp only [hmenu, hupd]
      rfl
    · rw [Database.updateCartItemQuantity_of_some id q ps _ found hdb hfound]
      simp only [hnot, if_false]
      rw [hupd]
      exact hrun.1
    · rw [Database.updateCartItemQuantity_of_some id q ps _ found hdb hfound]
      simp only [hnot, if_false]
      rw [hupd]
      exact hrun.2.1

/-- Witness of C11: on `[plov, chai]`, setting the quantity of `chai` to -5
and setting the quantity of `plov` to 7. -/
theorem updateCartItemQuantity_sets_or_removes_witness :
    ((Menu.updateCartItemQuantity (.num 6) (-5) Sample.menuPage).cart =
        (Menu.removeFromCart (.num 6) Sample.menuPage).cart ∧
      (Menu.updateCartItemQuantity (.num 6) (-5) Sample.menuPage).cart =
        [Sample.plov, Sample.chai].filter (fun l => decide (l.id ≠ .num 6)) ∧
      (loadCart (Menu.updateCartItemQuantity (.num 6) (-5) Sample.menuPage)).cart =
        (loadCart (Menu.removeFromCart (.num 6) Sample.menuPage)).cart ∧
      (loadCart (Menu.updateCartItemQuantity (.num 6) (-5) Sample.menuPage)).cart =
        [Sample.plov, Sample.chai].filter (fun l => decide (l.id ≠ .num 6))) ∧
    ((Menu.updateCartItemQuantity (.num 1) 7 Sample.menuPage).cart =
        [] ++ { Sample.plov with quantity := 7 } :: [Sample.chai] ∧
      (loadCart (Menu.updateCartItemQuantity (.num 1) 7 Sample.menuPage)).cart =
        [] ++ { Sample.plov with quantity := 7 } :: [Sample.chai] ∧
      (Database.updateCartItemQuantity (.num 1) 7 Sample.cartPage).outcome =
        .ok ([] ++ { Sample.plov with quantity := 7 } :: [Sample.chai]) ∧
      Database.getCart (Database.updateCartItemQuantity (.num 1) 7 Sample.cartPage).state =
        .ok ([] ++ { Sample.plov with quantity := 7 } :: [Sample.chai])) :=
  ⟨((updateCartItemQuantity_sets_or_removes [Sample.plov, Sample.chai] (.num 6) (-5)
      Sample.menuPage Sample.cartPage (by decide) rfl rfl rfl rfl rfl).1 (by decide)).1,
   (updateCartItemQuantity_sets_or_removes [Sample.plov, Sample.chai] (.num 1) 7
      Sample.menuPage Sample.cartPage (by decide) rfl rfl rfl rfl rfl).2 (by decide)
      [] Sample.plov [Sample.chai] rfl rfl⟩


/-! ### Well-formedness -/

theorem wellFormed_nil : WellFormed [] := by
  unfold WellFormed
  simp

theorem wellFormed_updateFound {id : JsId} {f : Int → Int} {c : Cart}
    (hwf : WellFormed c) (hf : ∀ l ∈ c, 1 ≤ f l.quantity) : WellFormed (updateFound id f c) := by
  refine ⟨?_, ?_⟩
  · rw [map_id_updateFound]
    exact hwf.1
  · intro l1 hl1
    rcases mem_updateFound hl1 with h | ⟨l, hl, h⟩
    · exact hwf.2 l1 h
    · rw [h]
      exact hf l hl

theorem wellFormed_append_new {c : Cart} {line : CartLine}
    (hwf : WellFormed c) (hfresh : ∀ l ∈ c, l.id ≠ line.id) (hq : 1 ≤ line.quantity) :
    WellFormed (c ++ [line]) := by
  refine ⟨?_, ?_⟩
  · rw [List.map_append, List.nodup_append]
    refine ⟨hwf.1, by simp, ?_⟩
    intro a ha hb
    simp only [List.map_cons, List.map_nil, List.mem_singleton] at hb
    obtain ⟨l, hl, hla⟩ := List.mem_map.mp ha
    exact hfresh l hl (hla.trans hb)
  · intro l hl
    rcases List.mem_append.mp hl with h | h
    · exact hwf.2 l h
    · rw [List.mem_singleton.mp h]
      exact hq

theorem wellFormed_withoutId {id : JsId} {c : Cart} (hwf : WellFormed c) :
    WellFormed (withoutId id c) := by
  refine ⟨?_, ?_⟩
  · unfold withoutId
    exact hwf.1.sublist ((List.filter_sublist c).map _)
  · intro l hl
    exact hwf.2 l (mem_withoutId.mp hl).1

theorem lookup_dropEntry {α : Type} (key : String) (l : List (String × α)) :
    (dropEntry key l).lookup key = none := by
  induction l with
  | nil => rfl
  | cons e rest ih =>
    obtain ⟨k, w⟩ := e
    unfold dropEntry at ih ⊢
    rw [List.filter_cons]
    by_cases h : k = key
    · have hd : decide ((k, w).1 ≠ key) = false := by simpa using h
      rw [hd]
      exact ih
    · have hd : decide ((k, w).1 ≠ key) = true := by simpa using h
      have h2 : (key == k) = false := by
        simp only [beq_eq_false_iff_ne, ne_eq]
        exact fun h3 => h h3.symm
      rw [hd, if_pos rfl, List.lookup_cons, h2]
      exact ih

theorem Database.clearCart_readable (ps : Database.PageState)
    (hmode : ps.storage.mode ≠ .blocked) :
    (Database.clearCart ps).outcome = .ok [] ∧
      (Database.clearCart ps).state.storage.carts.lookup Database.cartKey = none ∧
      (Database.clearCart ps).state.storage.getItem Database.cartKey = .ok none ∧
      Database.getCart (Database.clearCart ps).state = .ok [] := by
  have hrem : ps.storage.removeItem Database.cartKey = .ok
      { ps.storage with
        carts := dropEntry Database.cartKey ps.storage.carts
        strings := dropEntry Database.cartKey ps.storage.strings } := by
    unfold LocalStorage.removeItem
    split
    · rename_i hb
      exact absurd hb hmode
    · rfl
  have hitem : ({ mode := ps.storage.mode
                  carts := dropEntry Database.cartKey ps.storage.carts
                  strings := dropEntry Database.cartKey ps.storage.strings } :
      LocalStorage).getItem Database.cartKey = .ok none := by
    unfold LocalStorage.getItem
    split
    · rename_i hb
      exact absurd hb hmode
    · simp only [lookup_dropEntry]
  have hget1 : Database.getCart
      { storage := { mode := ps.storage.mode
                     carts := dropEntry Database.cartKey ps.storage.carts
                     strings := dropEntry Database.cartKey ps.storage.strings }
        badges := ps.badges
        checkoutBtn := ps.checkoutBtn } = .ok [] := by
    unfold Database.getCart
    simp only [hitem]
  unfold Database.clearCart
  simp only [hrem, Database.updateCartCount, Database.getCartItemCount, hget1]
  refine ⟨by trivial, ?_, ?_, ?_⟩
  · exact lookup_dropEntry _ _
  · exact hitem
  · unfold Database.getCart
    simp only [hitem]

/-- C12. Cart well-formedness is preserved by every cart operation.  If the
cart has pairwise distinct line ids and every quantity is at least 1, then
after each of `addToCart` (any dish), `updateCartItemQuantity` (any id and any
integer quantity: zero and negatives too), `removeFromCart` (any id) and
`clearCart` the cart again has pairwise distinct ids and every quantity at
least 1: the in-memory cart of `menu.js` (for every state of storage), and for
`database.js` on working storage the cart that the call returns and that
`getCart` reads back. -/
theorem cart_operations_preserve_wellFormed (cart : Cart) (dish : Dish) (id : JsId) (q : Int)
    (s : MenuState) (ps : Database.PageState)
    (hwf : WellFormed cart) (hmenu : s.cart = cart)
    (hmode : ps.storage.mode = .normal) (hdb : Database.getCart ps = .ok cart) :
    (WellFormed (Menu.addToCart dish.id dish.name dish.price s).cart ∧
        WellFormed (Menu.updateCartItemQuantity id q s).cart ∧
        WellFormed (Menu.removeFromCart id s).cart ∧
        WellFormed (Menu.clearCart s).cart) ∧
      (∃ c, (Database.addToCart dish ps).outcome = .ok c ∧
          Database.getCart (Database.addToCart dish ps).state = .ok c ∧ WellFormed c) ∧
      (∃ c, (Database.updateCartItemQuantity id q ps).outcome = .ok c ∧
          Database.getCart (Database.updateCartItemQuantity id q ps).state = .ok c ∧
          WellFormed c) ∧
      (∃ c, (Database.removeFromCart id ps).outcome = .ok c ∧
          Database.getCart (Database.removeFromCart id ps).state = .ok c ∧ WellFormed c) ∧
      (∃ c, (Database.clearCart ps).outcome = .ok c ∧
          Database.getCart (Database.clearCart ps).state = .ok c ∧ WellFormed c) := by
  have hinc : WellFormed (updateFound dish.id (fun x => x + 1) cart) :=
    wellFormed_updateFound hwf (fun l hl => by have := hwf.2 l hl; omega)
  have hnew : ∀ img : Option String, findLine dish.id cart = none →
      WellFormed (cart ++ [{ id := dish.id, name := dish.name, price := dish.price,
                             quantity := 1, image := img }]) := by
    intro img hnone
    exact wellFormed_append_new hwf ((findLine_eq_none_iff _ _).mp hnone) (le_refl _)
  have hset : 0 < q → WellFormed (updateFound id (fun _ => q) cart) := by
    intro hq
    exact wellFormed_updateFound hwf (fun _ _ => hq)
  have hrem : WellFormed (withoutId id cart) := wellFormed_withoutId hwf
  have hremRun := Database.saveAndReturn_normal (withoutId id cart) ps hmode
  have hremEq := Database.removeFromCart_of_stored id ps cart hdb
  refine ⟨⟨?_, ?_, ?_, ?_⟩, ?_, ?_, ?_, ?_⟩
  · unfold Menu.addToCart
    cases hfind : findLine dish.id cart with
    | none =>
      simp only [hmenu, hfind, Menu.cart_updateCartUI_saveCart]
      exact hnew none hfind
    | some found =>
      simp only [hmenu, hfind, Menu.cart_updateCartUI_saveCart]
      exact hinc
  · unfold Menu.updateCartItemQuantity
    cases hfind : findLine id cart with
    | none =>
      simp only [hmenu, hfind]
      exact hwf
    | some found =>
      simp only [hmenu, hfind]
      by_cases hq : q ≤ 0
      · simp only [hq, if_true]
        unfold Menu.removeFromCart
        rw [Menu.cart_updateCartUI_saveCart, hmenu]
        exact hrem
      · simp only [hq, if_false, Menu.cart_updateCartUI_saveCart]
        exact hset (not_le.mp hq)
  · unfold Menu.removeFromCart
    rw [Menu.cart_updateCartUI_saveCart, hmenu]
    exact hrem
  · unfold Menu.clearCart
    rw [Menu.cart_updateCartUI_saveCart]
    exact wellFormed_nil
  · cases hfind : findLine dish.id cart with
    | none =>
      rw [Database.addToCart_of_none dish ps cart hdb hfind]
      have hrun := Database.saveAndReturn_normal
        (cart ++ [{ id := dish.id, name := dish.name, price := dish.price, quantity := 1,
                    image := dish.image_url }]) ps hmode
      exact ⟨_, hrun.1, hrun.2.1, hnew _ hfind⟩
    | some found =>
      rw [Database.addToCart_of_some dish ps cart found hdb hfind]
      have hrun := Database.saveAndReturn_normal
        (updateFound dish.id (fun x => x + 1) cart) ps hmode
      exact ⟨_, hrun.1, hrun.2.1, hinc⟩
  · cases hfind : findLine id cart with
    | none =>
      rw [Database.updateCartItemQuantity_of_none id q ps cart hdb hfind]
      exact ⟨cart, rfl, hdb, hwf⟩
    | some found =>
      rw [Database.updateCartItemQuantity_of_some id q ps cart found hdb hfind]
      by_cases hq : q ≤ 0
      · simp only [hq, if_true]
        rw [hremEq]
        exact ⟨_, hremRun.1, hremRun.2.1, hrem⟩
      · simp only [hq, if_false]
        have hrun := Database.saveAndReturn_normal (updateFound id (fun _ => q) cart) ps hmode
        exact ⟨_, hrun.1, hrun.2.1, hset (not_le.mp hq)⟩
  · rw [hremEq]
    exact ⟨_, hremRun.1, hremRun.2.1, hrem⟩
  · have hclear := Database.clearCart_readable ps (by rw [hmode]; decide)
    exact ⟨[], hclear.1, hclear.2.2.2, wellFormed_nil⟩

/-- Witness of C12: the cart `[plov, chai]`, the dish of `plov` added, the
quantity of `chai` set to 0. -/
theorem cart_operations_preserve_wellFormed_witness :
    WellFormed [Sample.plov, Sample.chai] ∧
      WellFormed (Menu.addToCart Sample.plovDish.id Sample.plovDish.name Sample.plovDish.price
        Sample.menuPage).cart ∧
      WellFormed (Menu.updateCartItemQuantity (.num 6) 0 Sample.menuPage).cart ∧
      WellFormed (Menu.removeFromCart (.num 6) Sample.menuPage).cart ∧
      WellFormed (Menu.clearCart Sample.menuPage).cart :=
  ⟨by decide,
   (cart_operations_preserve_wellFormed [Sample.plov, Sample.chai] Sample.plovDish (.num 6) 0
      Sample.menuPage Sample.cartPage (by decide) rfl rfl rfl).1⟩

/-! ### Rounding -/

theorem bits_zero (fuel : Nat) : bits fuel 0 = 0 := by
  cases fuel <;> simp [bits]

theorem bits_spec (fuel : Nat) : ∀ n : Nat, n ≤ fuel → 0 < n →
    0 < bits fuel n ∧ 2 ^ (bits fuel n - 1) ≤ n ∧ n < 2 ^ bits fuel n := by
  induction fuel with
  | zero => intro n h1 h2; omega
  | succ f ih =>
    intro n hle hpos
    have hn : n ≠ 0 := by omega
    simp only [bits, hn, if_false]
    by_cases hhalf : n / 2 = 0
    · have h1 : n = 1 := by omega
      rw [hhalf, bits_zero]
      subst h1
      simp
    · obtain ⟨hb, hlo, hhi⟩ := ih (n / 2) (by omega) (by omega)
      refine ⟨by omega, ?_, ?_⟩
      · have h2 : bits f (n / 2) + 1 - 1 = (bits f (n / 2) - 1) + 1 := by omega
        rw [h2, pow_succ]
        omega
      · rw [pow_succ]
        omega

theorem bitLength_spec (n : Nat) (hpos : 0 < n) :
    0 < bitLength n ∧ 2 ^ (bitLength n - 1) ≤ n ∧ n < 2 ^ bitLength n :=
  bits_spec n n (le_refl n) hpos

theorem bitLength_le (n m : Nat) (h : n < 2 ^ m) : bitLength n ≤ m := by
  by_cases h0 : n = 0
  · subst h0
    simp [bitLength, bits_zero]
  · obtain ⟨hb, hlo, _⟩ := bitLength_spec n (by omega)
    by_contra hcon
    have h1 : m ≤ bitLength n - 1 := by omega
    have h2 : 2 ^ m ≤ 2 ^ (bitLength n - 1) := Nat.pow_le_pow_right (by decide) h1
    omega

theorem reduce_mul_pow (m : Int) (j : Nat) : reduce (m * 2 ^ j) j = ⟨m, 0⟩ := by
  induction j with
  | zero => simp [reduce]
  | succ j ih =>
    have h1 : (m * 2 ^ (j + 1)) % 2 = 0 := by
      rw [pow_succ, ← mul_assoc]
      exact Int.mul_emod_left _ _
    have h2 : (m * 2 ^ (j + 1)) / 2 = m * 2 ^ j := by
      rw [pow_succ, ← mul_assoc]
      exact Int.mul_ediv_cancel _ (by decide)
    simp only [reduce, h1, if_true, h2, ih]

theorem nearest_one (x : Nat) : nearest x 1 = x := by
  simp [nearest, Nat.mod_one]

theorem exponentOf_one (a : Nat) (hpos : 0 < a) : exponentOf a 1 = (bitLength a : Int) - 1 := by
  obtain ⟨hb, hlo, _⟩ := bitLength_spec a hpos
  have h1 : bitLength 1 = 1 := rfl
  have hk : ((bitLength a : Int) - 1).toNat = bitLength a - 1 := by omega
  have hk2 : (-((bitLength a : Int) - 1)).toNat = 0 := by omega
  simp only [exponentOf, h1, Nat.cast_one, hk, hk2, Nat.shiftLeft_eq, one_mul, pow_zero, mul_one,
    hlo, if_true]

/-- An integer of at most 53 binary digits, and `2 ^ 53` itself, is a number of
the language: rounding leaves it as it is. -/
theorem roundRatio_int (n : Int) (h : n.natAbs ≤ 2 ^ 53) : roundRatio n 1 = .finite ⟨n, 0⟩ := by
  by_cases h0 : n.natAbs = 0
  · have hn : n = 0 := Int.natAbs_eq_zero.mp h0
    subst hn
    rfl
  by_cases htop : n.natAbs = 2 ^ 53
  · rcases Int.natAbs_eq n with hn | hn
    · rw [hn, htop]
      decide
    · rw [hn, htop]
      decide
  have hlt : n.natAbs < 2 ^ 53 := by omega
  obtain ⟨hb, hlo, hhi⟩ := bitLength_spec n.natAbs (by omega)
  have hL : bitLength n.natAbs ≤ 53 := bitLength_le _ _ hlt
  have hq : max ((bitLength n.natAbs : Int) - 1 - 52) (-1074) = (bitLength n.natAbs : Int) - 53 := by
    omega
  have hq1 : ((bitLength n.natAbs : Int) - 53).toNat = 0 := by omega
  have hq2 : (-((bitLength n.natAbs : Int) - 53)).toNat = 53 - bitLength n.natAbs := by omega
  have hsize : n.natAbs * 2 ^ (53 - bitLength n.natAbs) < 2 ^ 53 := by
    calc n.natAbs * 2 ^ (53 - bitLength n.natAbs)
        < 2 ^ bitLength n.natAbs * 2 ^ (53 - bitLength n.natAbs) :=
          Nat.mul_lt_mul_of_pos_right hhi (by positivity)
      _ = 2 ^ 53 := by rw [← pow_add]; congr 1; omega
  have hfits : ¬ 1024 < bitLength (n.natAbs * 2 ^ (53 - bitLength n.natAbs)) := by
    have := bitLength_le _ _ hsize
    omega
  have hsigned : (if n < 0 then -((n.natAbs * 2 ^ (53 - bitLength n.natAbs) : Nat) : Int)
      else ((n.natAbs * 2 ^ (53 - bitLength n.natAbs) : Nat) : Int)) =
      n * 2 ^ (53 - bitLength n.natAbs) := by
    split
    · rename_i hneg
      push_cast
      rw [abs_of_neg hneg]
      ring
    · rename_i hneg
      push_cast
      rw [abs_of_nonneg (not_lt.mp hneg)]
  have hor : ¬ (n.natAbs = 0 ∨ (1 : Nat) = 0) := by omega
  simp only [roundRatio, hor, if_false, exponentOf_one _ (Nat.pos_of_ne_zero h0), hq, hq1, hq2,
    Nat.shiftLeft_eq, pow_zero, mul_one, nearest_one, hfits, hsigned, reduce_mul_pow]

set_option maxRecDepth 100000 in
/-- The rounding on values known from the language: `0.1 + 0.2` is
`0.30000000000000004` and not `0.3`; the largest number is
`2 ^ 1024 - 2 ^ 971` and the first value that rounds to `Infinity` is
`2 ^ 1024 - 2 ^ 970`; the smallest positive number is `2 ^ (-1074)`, half of
it rounds to 0 and one and a half of it to `2 ^ (-1073)`; and
`Infinity + -Infinity` is `NaN`. -/
theorem roundRatio_known_values :
    roundRatio 1 10 = .finite ⟨3602879701896397, 55⟩ ∧
      roundRatio 2 10 = .finite ⟨3602879701896397, 54⟩ ∧
      Double.add ⟨3602879701896397, 55⟩ ⟨3602879701896397, 54⟩ =
        roundRatio 30000000000000004 (10 ^ 17) ∧
      Double.add ⟨3602879701896397, 55⟩ ⟨3602879701896397, 54⟩ ≠ roundRatio 3 10 ∧
      roundRatio ((1 <<< 1024 - 1 <<< 970 - 1 : Nat) : Int) 1 =
        .finite ⟨((1 <<< 1024 - 1 <<< 971 : Nat) : Int), 0⟩ ∧
      roundRatio ((1 <<< 1024 - 1 <<< 970 : Nat) : Int) 1 = .posInf ∧
      roundRatio (-((1 <<< 1024 - 1 <<< 970 : Nat) : Int)) 1 = .negInf ∧
      roundRatio 1 (1 <<< 1074) = .finite ⟨1, 1074⟩ ∧
      roundRatio 1 (1 <<< 1075) = .finite ⟨0, 0⟩ ∧
      roundRatio 3 (1 <<< 1075) = .finite ⟨1, 1073⟩ ∧
      JsNumber.add .posInf .negInf = .nan := by
  decide

/-! ### The total -/

theorem Double.mul_int (x : Double) (q : Int) (hx : x.shift = 0)
    (h : (x.num * q).natAbs ≤ 2 ^ 53) :
    x.mul (Double.ofInt q) = .finite ⟨x.num * q, 0⟩ := by
  unfold Double.mul Double.ofInt
  simp only [hx, Nat.add_zero, Nat.shiftLeft_eq, pow_zero, mul_one]
  exact roundRatio_int _ h

theorem Double.add_int (a b : Int) (h : (a + b).natAbs ≤ 2 ^ 53) :
    Double.add ⟨a, 0⟩ ⟨b, 0⟩ = .finite ⟨a + b, 0⟩ := by
  unfold Double.add
  simp only [Nat.add_zero, Nat.shiftLeft_eq, pow_zero, mul_one, Nat.cast_one]
  exact roundRatio_int _ h

theorem JsNumber.finite_add_finite (x y : Double) :
    (JsNumber.finite x).add (JsNumber.finite y) = x.add y := rfl

theorem foldl_total_int (cart : Cart) : ∀ acc : Int,
    (∀ l ∈ cart, l.price.shift = 0) →
    acc.natAbs + (cart.map (fun l => (l.price.num * l.quantity).natAbs)).sum ≤ 2 ^ 53 →
    cart.foldl (fun (sum : JsNumber) (item : CartLine) =>
        sum.add (item.price.mul (Double.ofInt item.quantity))) (.finite ⟨acc, 0⟩) =
      .finite ⟨acc + (cart.map (fun l => l.price.num * l.quantity)).sum, 0⟩ := by
  induction cart with
  | nil => intro acc _ _; simp
  | cons x rest ih =>
    intro acc hint hbound
    simp only [List.map_cons, List.sum_cons] at hbound
    have hx : x.price.shift = 0 := hint x (List.mem_cons_self _ _)
    have hmul := Double.mul_int x.price x.quantity hx (by omega)
    have habs : (acc + x.price.num * x.quantity).natAbs ≤
        acc.natAbs + (x.price.num * x.quantity).natAbs := Int.natAbs_add_le _ _
    have hadd := Double.add_int acc (x.price.num * x.quantity) (by omega)
    rw [List.foldl_cons, hmul, JsNumber.finite_add_finite, hadd,
      ih (acc + x.price.num * x.quantity)
        (fun l hl => hint l (List.mem_cons_of_mem _ hl)) (by omega),
      List.map_cons, List.sum_cons, add_assoc]

theorem cartTotal_int (cart : Cart) (hint : ∀ l ∈ cart, l.price.shift = 0)
    (hbound : (cart.map (fun l => (l.price.num * l.quantity).natAbs)).sum ≤ 2 ^ 53) :
    cartTotal cart = .finite ⟨(cart.map (fun l => l.price.num * l.quantity)).sum, 0⟩ := by
  have h := foldl_total_int cart 0 hint (by simpa using hbound)
  simpa [cartTotal] using h

theorem Double.ofNat_eq (n : Nat) : (OfNat.ofNat n : Double) = ⟨(n : Int), 0⟩ := rfl

theorem JsNumber.ofNat_eq_finite (n : Nat) : (OfNat.ofNat n : JsNumber) = .finite ⟨(n : Int), 0⟩ := rfl

theorem exactTotal_int (cart : Cart) (hint : ∀ l ∈ cart, l.price.shift = 0) :
    exactTotal cart = (((cart.map (fun l => l.price.num * l.quantity)).sum : Int) : ℚ) := by
  unfold exactTotal
  induction cart with
  | nil => simp
  | cons x rest ih =>
    have hx : x.price.shift = 0 := hint x (List.mem_cons_self _ _)
    simp only [List.map_cons, List.sum_cons, Int.cast_add, Int.cast_mul]
    rw [ih (fun l hl => hint l (List.mem_cons_of_mem _ hl))]
    simp [Double.value, hx]

theorem cartTotal_append (cart : Cart) (l : CartLine) :
    cartTotal (cart ++ [l]) = (cartTotal cart).add (l.price.mul (Double.ofInt l.quantity)) := by
  unfold cartTotal
  rw [List.foldl_append]
  rfl

/-- C13 fails on the code as the sentence reads.  The price `99.9` is held as
`3514918771674317 / 2 ^ 45`; three of that line give the total
`1318094539377869 / 2 ^ 42`, the number that prints as
`299.70000000000005`, which is neither the sum of price times quantity nor
the number `299.7`.  With integers too: 94906267 portions at the price
94906267 give 9007199515875288, one less than the product. -/
theorem total_is_not_the_exact_sum :
    roundRatio 999 10 = .finite Sample.samsa.price ∧
      cartTotal [Sample.samsa] = .finite ⟨1318094539377869, 42⟩ ∧
      (cartTotal [Sample.samsa]).exact ≠ some (exactTotal [Sample.samsa]) ∧
      cartTotal [Sample.samsa] = roundRatio 29970000000000005 (10 ^ 14) ∧
      cartTotal [Sample.samsa] ≠ roundRatio 2997 10 ∧
      cartTotal [{ Sample.plov with price := ⟨94906267, 0⟩, quantity := 94906267 }] =
        .finite ⟨9007199515875288, 0⟩ ∧
      (cartTotal [{ Sample.plov with price := ⟨94906267, 0⟩, quantity := 94906267 }]).exact ≠
        some (exactTotal [{ Sample.plov with price := ⟨94906267, 0⟩, quantity := 94906267 }]) := by
  have h1 : cartTotal [Sample.samsa] = .finite ⟨1318094539377869, 42⟩ := by decide
  have h2 : cartTotal [{ Sample.plov with price := ⟨94906267, 0⟩, quantity := 94906267 }] =
      .finite ⟨9007199515875288, 0⟩ := by decide
  refine ⟨by decide, h1, ?_, by decide, by decide, h2, ?_⟩
  · rw [h1]
    simp only [JsNumber.exact, exactTotal, Double.value, Sample.samsa, List.map_cons,
      List.map_nil, List.sum_cons, List.sum_nil, ne_eq, Option.some.injEq]
    norm_num
  · rw [h2]
    simp only [JsNumber.exact, exactTotal, Double.value, Sample.plov, List.map_cons,
      List.map_nil, List.sum_cons, List.sum_nil, ne_eq, Option.some.injEq]
    norm_num

/-- C13, amended.  The total is the sum that the language computes: from 0,
line by line in the order of the cart, each product and each sum rounded to
the nearest number.  `getCartTotal` of `database.js` returns it for the cart
it reads, `updateCartUI` of `menu.js` writes it into `totalAmount` whenever
the cart elements exist, and it is 0 for the empty cart.  When every price is
an integer and the absolute values of the products price times quantity add
up to at most `2 ^ 53`, no rounding takes place: the total is exactly the sum
over the lines of price times quantity.  For
`[{price: 100, quantity: 2}, {price: 50, quantity: 1}]` it is 250. -/
theorem total_is_rounded_sum (cart : Cart) (s : MenuState) (ps : Database.PageState) :
    (Database.getCart ps = .ok cart → Database.getCartTotal ps = .ok (cartTotal cart)) ∧
      (updateCartUI s).panel.map (fun p => p.totalText) =
        s.panel.map (fun _ => cartTotal s.cart) ∧
      cartTotal [] = 0 ∧
      (∀ l : CartLine,
        cartTotal (cart ++ [l]) = (cartTotal cart).add (l.price.mul (Double.ofInt l.quantity))) ∧
      ((∀ l ∈ cart, l.price.shift = 0) →
        (cart.map (fun l => (l.price.num * l.quantity).natAbs)).sum ≤ 2 ^ 53 →
        cartTotal cart = .finite ⟨(cart.map (fun l => l.price.num * l.quantity)).sum, 0⟩ ∧
          (cartTotal cart).exact = some (exactTotal cart)) ∧
      (∀ (id1 id2 : JsId) (name1 name2 : String) (image1 image2 : Option String),
        cartTotal [{ id := id1, name := name1, price := 100, quantity := 2, image := image1 },
                   { id := id2, name := name2, price := 50, quantity := 1, image := image2 }]
          = 250) := by
  refine ⟨?_, ?_, rfl, cartTotal_append cart, ?_, ?_⟩
  · intro hdb
    unfold Database.getCartTotal
    simp only [hdb]
  · unfold updateCartUI
    cases hp : s.panel with
    | none => simp [hp]
    | some p => simp [hp]
  · intro hint hbound
    have htotal := cartTotal_int cart hint hbound
    refine ⟨htotal, ?_⟩
    rw [htotal, exactTotal_int cart hint]
    simp [JsNumber.exact, Double.value]
  · intro id1 id2 name1 name2 image1 image2
    rw [cartTotal_int _
      (by
        intro l hl
        simp only [List.mem_cons, List.mem_singleton, List.not_mem_nil, or_false] at hl
        rcases hl with h | h <;> rw [h] <;> rfl)
      (by
        simp only [List.map_cons, List.map_nil, List.sum_cons, List.sum_nil, Double.ofNat_eq]
        norm_num),
      JsNumber.ofNat_eq_finite]
    simp only [List.map_cons, List.map_nil, List.sum_cons, List.sum_nil, Double.ofNat_eq]
    norm_num

/-- Witness of C13: the cart `[plov, chai]`, two portions at 350 and one at
120, on the menu page and in the storage of `database.js`; its total is 820. -/
theorem total_is_rounded_sum_witness :
    Database.getCartTotal Sample.cartPage = .ok (cartTotal [Sample.plov, Sample.chai]) ∧
      (cartTotal [Sample.plov, Sample.chai] = .finite ⟨820, 0⟩ ∧
        (cartTotal [Sample.plov, Sample.chai]).exact =
          some (exactTotal [Sample.plov, Sample.chai])) :=
  ⟨(total_is_rounded_sum [Sample.plov, Sample.chai] Sample.menuPage Sample.cartPage).1 rfl,
   (total_is_rounded_sum [Sample.plov, Sample.chai] Sample.menuPage Sample.cartPage).2.2.2.2.1
      (by decide) (by decide)⟩


/-! ### The cart store of database.js -/

/-- C14. Storage round trip: on working storage `saveCart(c)` of
`database.js` returns normally for every cart `c`, the empty cart included,
and a following `getCart()` returns `c`: the same lines in the same order with
the same field values. -/
theorem saveCart_getCart_round_trip (c : Cart) (ps : Database.PageState)
    (hmode : ps.storage.mode = .normal) :
    ∃ saved, Database.saveCart c ps = .ok saved ∧ Database.getCart saved = .ok c := by
  refine ⟨{ ps with storage :=
      { ps.storage with
        carts := putEntry Database.cartKey (jsonStringify c) ps.storage.carts
        strings := dropEntry Database.cartKey ps.storage.strings } }, ?_, ?_⟩
  · unfold Database.saveCart LocalStorage.setItem
    simp [hmode]
  · apply Database.getCart_of_stored
    · exact hmode
    · exact lookup_putEntry _ _ _

/-- Witness of C14: the empty cart saved over the stored cart `[plov, chai]`. -/
theorem saveCart_getCart_round_trip_witness :
    ∃ saved, Database.saveCart [] Sample.cartPage = .ok saved ∧
      Database.getCart saved = .ok [] :=
  saveCart_getCart_round_trip [] Sample.cartPage rfl

/-- C15 fails on the code. `getCart` of `database.js` returns the empty cart
when nothing is stored under its key, but when the stored text is not JSON the
`SyntaxError` of `JSON.parse` leaves `getCart`, and with it `getCartTotal` and
`addToCart`; `loadCart` of `menu.js`, on the same text, catches it and ends
with the empty cart. -/
theorem getCart_throws_on_corrupt_text :
    Database.getCart { Sample.corruptPage with
        storage := { mode := .normal, carts := [], strings := [] } } = .ok [] ∧
      Database.getCart Sample.corruptPage = .error .syntaxError ∧
      Database.getCartTotal Sample.corruptPage = .error .syntaxError ∧
      (Database.addToCart Sample.lagman Sample.corruptPage).outcome = .error .syntaxError ∧
      (loadCart Sample.corruptMenuPage).cart = [] :=
  ⟨rfl, rfl, rfl, rfl, rfl⟩

/-- C16 fails on the code. When the quota is used up, `saveCart` of
`database.js` throws the `QuotaExceededError` of `setItem` to its caller, and
so do `addToCart` and `updateCartItemQuantity` built on it, leaving storage
as it was; `saveCart` of
`menu.js` catches the error, logs it and returns. -/
theorem saveCart_throws_on_full_storage :
    Database.saveCart
        [Sample.plov, Sample.chai,
         { id := .num 2, name := "Лагман", price := 320, quantity := 1, image := none }]
        Sample.fullPage = .error .quotaExceeded ∧
      (Database.addToCart Sample.lagman Sample.fullPage).outcome = .error .quotaExceeded ∧
      (Database.addToCart Sample.lagman Sample.fullPage).state = Sample.fullPage ∧
      (Database.updateCartItemQuantity (.num 1) 10 Sample.fullPage).outcome =
        .error .quotaExceeded ∧
      (Menu.saveCart { Sample.menuPage with
          storage := { Sample.guestStorage with mode := .full } }).console =
        [("Ошибка сохранения корзины:", .quotaExceeded)] :=
  ⟨rfl, rfl, rfl, rfl, rfl⟩

/-- C17. Whatever is persisted, once storage can be reached `clearCart()` of
`database.js` removes the cart key (the key is absent afterwards, not set to
the serialised empty list), returns the empty cart, and a following
`getCart()` returns the empty cart. -/
theorem clearCart_removes_key (ps : Database.PageState)
    (hmode : ps.storage.mode ≠ .blocked) :
    (Database.clearCart ps).state.storage.getItem Database.cartKey = .ok none ∧
      (Database.clearCart ps).state.storage.getItem Database.cartKey ≠
        .ok (some (jsonStringify [])) ∧
      (Database.clearCart ps).outcome = .ok [] ∧
      Database.getCart (Database.clearCart ps).state = .ok [] := by
  have h := Database.clearCart_readable ps hmode
  refine ⟨h.2.2.1, ?_, h.1, h.2.2.2⟩
  rw [h.2.2.1]
  intro hcontra
  cases hcontra

/-- Witness of C17: clearing the stored cart `[plov, chai]`. -/
theorem clearCart_removes_key_witness :
    (Database.clearCart Sample.cartPage).state.storage.getItem Database.cartKey = .ok none ∧
      (Database.clearCart Sample.cartPage).state.storage.getItem Database.cartKey ≠
        .ok (some (jsonStringify [])) ∧
      (Database.clearCart Sample.cartPage).outcome = .ok [] ∧
      Database.getCart (Database.clearCart Sample.cartPage).state = .ok [] :=
  clearCart_removes_key Sample.cartPage (by decide)


/-! ### The gateway -/

theorem Database.rawRequest_of_response (b : Browser) (path method : String) (body : Json)
    (res : HttpResponse)
    (hfetch : b.fetch (Database.API_BASE b ++ path) (Database.requestOptions method body) =
      .ok res) :
    Database.rawRequest b path method body =
      .ok { ok := res.ok, status := res.status, json := res.json.getD .null } := by
  unfold Database.rawRequest
  simp only [hfetch]
  cases res.json <;> rfl

/-- C18, as stated, fails: for a response with status 400 whose payload is
`{"detail": ""}` the field `detail` is present, yet the message is the generic
"HTTP 400". -/
theorem wrappedRequest_empty_detail_gives_status_message :
    (Json.obj [("detail", .str "")]).detail = some (.str "") ∧
      Database.wrappedRequest
          (Sample.answering { status := 400, json := some (.obj [("detail", .str "")]) })
          "/orders" "POST" (.obj [("table_number", .str "0")]) =
        .ok { success := false, message := some (.str "HTTP 400"), data := .null } :=
  ⟨rfl, rfl⟩

/-- C18, amended. For every response with a non-success status `s` and parsed
payload `j` (`null` when the body is not JSON), `wrappedRequest` returns an
outcome with `success = false` and `data = null`, whose message is the
`detail` field of `j` when that field is present and truthy, and otherwise
(no `detail`, or a falsy one such as `""`) the generic "HTTP s". -/
theorem wrappedRequest_failure_outcome (b : Browser) (path method : String) (body : Json)
    (res : HttpResponse)
    (hfetch : b.fetch (Database.API_BASE b ++ path) (Database.requestOptions method body) =
      .ok res)
    (hstatus : res.ok = false) :
    Database.wrappedRequest b path method body =
      .ok { success := false
            message := some
              (match (res.json.getD .null).detail with
               | some d => if d.truthy then d else .str ("HTTP " ++ toString res.status)
               | none => .str ("HTTP " ++ toString res.status))
            data := .null } := by
  unfold Database.wrappedRequest
  rw [Database.rawRequest_of_response b path method body res hfetch]
  simp only [hstatus, Bool.not_false, if_true]
  rfl

/-- Witness of C18, amended: a 404 answer with a `detail` text. -/
theorem wrappedRequest_failure_outcome_witness :
    Database.wrappedRequest
        (Sample.answering { status := 404, json := some (.obj [("detail", .str "Not Found")]) })
        "/dishes/99" "GET" .null =
      .ok { success := false
            message := some
              (match ((some (Json.obj [("detail", .str "Not Found")])).getD .null).detail with
               | some d => if d.truthy then d else .str ("HTTP " ++ toString 404)
               | none => .str ("HTTP " ++ toString 404))
            data := .null } :=
  wrappedRequest_failure_outcome
    (Sample.answering { status := 404, json := some (.obj [("detail", .str "Not Found")]) })
    "/dishes/99" "GET" .null
    { status := 404, json := some (.obj [("detail", .str "Not Found")]) } rfl rfl

/-- C19, as stated, fails: for a response with status 200 whose body is the
JSON value `0`, the outcome carries `data = null`, not the payload. -/
theorem wrappedRequest_zero_payload_gives_null :
    ∃ outcome, Database.wrappedRequest (Sample.answering { status := 200, json := some (.num 0) })
          "/dishes" "GET" .null = .ok outcome ∧
        outcome.success = true ∧ outcome.data = .null ∧ outcome.data ≠ .num 0 := by
  refine ⟨{ success := true, message := none, data := .null }, rfl, rfl, rfl, ?_⟩
  intro h
  cases h

/-- C19, amended. For every response with a success status whose body parses
as JSON to a payload `p`, `wrappedRequest` returns exactly
`{success: true, data: p}` when `p` is truthy (an object, an array, a non-zero
number, a non-empty string, `true`) and `{success: true, data: null}` when `p`
is falsy (`null`, `false`, `0`, `""`). -/
theorem wrappedRequest_success_outcome (b : Browser) (path method : String) (body : Json)
    (res : HttpResponse) (p : Json)
    (hfetch : b.fetch (Database.API_BASE b ++ path) (Database.requestOptions method body) =
      .ok res)
    (hstatus : res.ok = true) (hjson : res.json = some p) :
    Database.wrappedRequest b path method body =
      .ok { success := true, message := none, data := if p.truthy then p else .null } := by
  unfold Database.wrappedRequest
  rw [Database.rawRequest_of_response b path method body res hfetch]
  simp only [hstatus, Bool.not_true, hjson]
  rfl

/-- Witness of C19, amended: a 200 answer with an array of one dish. -/
theorem wrappedRequest_success_outcome_witness :
    Database.wrappedRequest
        (Sample.answering
          { status := 200, json := some (.arr [.obj [("id", .num 1), ("name", .str "Плов")]]) })
        "/dishes" "GET" .null =
      .ok { success := true, message := none
            data := if (Json.arr [.obj [("id", .num 1), ("name", .str "Плов")]]).truthy
              then .arr [.obj [("id", .num 1), ("name", .str "Плов")]] else .null } :=
  wrappedRequest_success_outcome
    (Sample.answering
      { status := 200, json := some (.arr [.obj [("id", .num 1), ("name", .str "Плов")]]) })
    "/dishes" "GET" .null
    { status := 200, json := some (.arr [.obj [("id", .num 1), ("name", .str "Плов")]]) }
    (.arr [.obj [("id", .num 1), ("name", .str "Плов")]]) rfl rfl rfl

/-- C20. When the response body cannot be parsed as JSON, `rawRequest` returns
`json = null` without raising, and `wrappedRequest` returns
`{success: true, data: null}` on a success status and
`{success: false, message: "HTTP <status>", data: null}` on any other
status. -/
theorem unparsable_body_is_null_payload (b : Browser) (path method : String) (body : Json)
    (res : HttpResponse)
    (hfetch : b.fetch (Database.API_BASE b ++ path) (Database.requestOptions method body) =
      .ok res)
    (hjson : res.json = none) :
    Database.rawRequest b path method body =
        .ok { ok := res.ok, status := res.status, json := .null } ∧
      (res.ok = true →
        Database.wrappedRequest b path method body =
          .ok { success := true, message := none, data := .null }) ∧
      (res.ok = false →
        Database.wrappedRequest b path method body =
          .ok { success := false, message := some (.str ("HTTP " ++ toString res.status)),
                data := .null }) := by
  have hraw := Database.rawRequest_of_response b path method body res hfetch
  rw [hjson] at hraw
  refine ⟨hraw, ?_, ?_⟩
  · intro hok
    unfold Database.wrappedRequest
    rw [hraw]
    simp only [hok, Bool.not_true]
    rfl
  · intro hok
    unfold Database.wrappedRequest
    rw [hraw]
    simp only [hok, Bool.not_false, if_true]
    rfl

/-- Witness of C20: a 502 answer with an HTML body, and a 204 answer with no
body. -/
theorem unparsable_body_is_null_payload_witness :
    Database.wrappedRequest (Sample.answering { status := 502, json := none })
          "/orders" "POST" (.obj [("table_number", .str "0")]) =
        .ok { success := false, message := some (.str ("HTTP " ++ toString 502)),
              data := .null } ∧
      Database.wrappedRequest (Sample.answering { status := 204, json := none })
          "/orders" "POST" (.obj [("table_number", .str "0")]) =
        .ok { success := true, message := none, data := .null } :=
  ⟨(unparsable_body_is_null_payload (Sample.answering { status := 502, json := none })
      "/orders" "POST" (.obj [("table_number", .str "0")])
      { status := 502, json := none } rfl rfl).2.2 rfl,
   (unparsable_body_is_null_payload (Sample.answering { status := 204, json := none })
      "/orders" "POST" (.obj [("table_number", .str "0")])
      { status := 204, json := none } rfl rfl).2.1 rfl⟩


/-! ### Transport failures -/

/-- C21, as stated, fails: when the server cannot be reached, `createOrder`
(and `wrappedRequest` under it) returns no outcome value; the rejection of
`fetch` leaves it. -/
theorem createOrder_rejects_when_offline :
    Database.createOrder Sample.offline (.obj [("table_number", .str "0")]) =
        .error (.transport "Failed to fetch") ∧
      ¬ ∃ outcome, Database.wrappedRequest Sample.offline "/orders" "POST"
          (.obj [("table_number", .str "0")]) = .ok outcome := by
  refine ⟨rfl, ?_⟩
  rintro ⟨outcome, h⟩
  cases h

/-- C21, amended. For every path, method and body, when the network request
itself fails (`fetch` rejects with an error `e` because the server cannot be
reached), `wrappedRequest`, and hence `getCategories`, `getDishes`,
`findOrCreateGuest` and `createOrder`, rejects with that same error `e`: no
outcome value is returned and the transport exception reaches the caller. -/
theorem wrappedRequest_rejects_with_fetch (b : Browser) (e : JsError)
    (hdown : ∀ url opts, b.fetch url opts = .error e)
    (path method query : String) (body phone name payload : Json) :
    Database.wrappedRequest b path method body = .error e ∧
      Database.getCategories b = .error e ∧
      Database.getDishes b query = .error e ∧
      Database.findOrCreateGuest b phone name = .error e ∧
      Database.createOrder b payload = .error e := by
  have h : ∀ (path method : String) (body : Json),
      Database.wrappedRequest b path method body = .error e := by
    intro path method body
    unfold Database.wrappedRequest Database.rawRequest
    simp only [hdown]
  exact ⟨h _ _ _, h _ _ _, h _ _ _, h _ _ _, h _ _ _⟩

/-- Witness of C21, amended: the browser that cannot reach the server. -/
theorem wrappedRequest_rejects_with_fetch_witness :
    Database.wrappedRequest Sample.offline "/news" "GET" .null =
        .error (.transport "Failed to fetch") ∧
      Database.getCategories Sample.offline = .error (.transport "Failed to fetch") ∧
      Database.getDishes Sample.offline "limit=20" = .error (.transport "Failed to fetch") ∧
      Database.findOrCreateGuest Sample.offline (.str "+7 (999) 123-45-67") .null =
        .error (.transport "Failed to fetch") ∧
      Database.createOrder Sample.offline (.obj [("table_number", .str "0")]) =
        .error (.transport "Failed to fetch") :=
  wrappedRequest_rejects_with_fetch Sample.offline (.transport "Failed to fetch")
    (fun _ _ => rfl) "/news" "GET" "limit=20" .null (.str "+7 (999) 123-45-67") .null
    (.obj [("table_number", .str "0")])

/-! ### The two cart keys -/

/-- C26. The two cart modules do not share a cart.  Starting from empty
storage, `addToCart(d)` of `database.js` persists its line under
`teaHouseCart`, and `loadCart` of `menu.js`, which reads `tea_house_cart`,
still yields the empty cart; conversely the line that `addToCart` of `menu.js`
persists under `tea_house_cart` does not appear in `getCart()` of
`database.js`, which still returns the empty cart. -/
theorem cart_modules_do_not_share (dish : Dish) (page : MenuState) (badges : List Int)
    (checkoutBtn : Option Bool) :
    ((Database.addToCart dish
          { storage := Sample.emptyStorage, badges := badges, checkoutBtn := checkoutBtn
          }).state.storage.getItem "teaHouseCart" =
        .ok (some (.lines [{ id := dish.id, name := dish.name, price := dish.price,
                             quantity := 1, image := dish.image_url }])) ∧
      (loadCart { page with
          cart := []
          storage := (Database.addToCart dish
            { storage := Sample.emptyStorage, badges := badges, checkoutBtn := checkoutBtn
            }).state.storage }).cart = []) ∧
    ((Menu.addToCart dish.id dish.name dish.price
          { page with cart := [], storage := Sample.emptyStorage }).storage.getItem
          "tea_house_cart" =
        .ok (some (.lines [{ id := dish.id, name := dish.name, price := dish.price,
                             quantity := 1, image := none }])) ∧
      Database.getCart
          { storage := (Menu.addToCart dish.id dish.name dish.price
              { page with cart := [], storage := Sample.emptyStorage }).storage
            badges := badges, checkoutBtn := checkoutBtn } = .ok []) := by
  refine ⟨⟨rfl, rfl⟩, ?_, ?_⟩
  · unfold Menu.addToCart updateCartUI
    cases page.panel <;> rfl
  · unfold Menu.addToCart updateCartUI
    cases page.panel <;> rfl

/-! ### Strict equality of ids -/

theorem Database.getCart_after_saveAndReturn_same (cart : Cart) (ps : Database.PageState)
    (hdb : Database.getCart ps = .ok cart) :
    Database.getCart (Database.saveAndReturn cart ps).state = .ok cart := by
  cases hm : ps.storage.mode with
  | normal => exact (Database.saveAndReturn_normal cart ps hm).2.1
  | full =>
    have hsave : Database.saveCart cart ps = .error .quotaExceeded := by
      unfold Database.saveCart LocalStorage.setItem
      simp [hm]
    unfold Database.saveAndReturn
    simp only [hsave]
    exact hdb
  | blocked =>
    have hget : Database.getCart ps = .error .securityError := by
      unfold Database.getCart LocalStorage.getItem
      simp [hm]
    rw [hget] at hdb
    cases hdb

/-- C27. The functions `removeFromCart` and `updateCartItemQuantity` of
`database.js` match ids by strict equality.  Called with a string id (as the
handlers of `cart-reser.js` do, passing `dataset.id`) on a stored cart whose
line ids are all numbers, they find no line: `updateCartItemQuantity` returns
the cart and writes nothing, `removeFromCart` saves the cart it read, and the
cart read back afterwards is the cart before: no line is removed and no
quantity changes. -/
theorem string_id_matches_no_numeric_line (cart : Cart) (text : String) (q : Int)
    (ps : Database.PageState)
    (hnum : ∀ l ∈ cart, ∃ n, l.id = .num n)
    (hdb : Database.getCart ps = .ok cart) :
    findLine (.str text) cart = none ∧
      Database.updateCartItemQuantity (.str text) q ps = { outcome := .ok cart, state := ps } ∧
      Database.removeFromCart (.str text) ps = Database.saveAndReturn cart ps ∧
      Database.getCart (Database.removeFromCart (.str text) ps).state = .ok cart ∧
      (ps.storage.mode = .normal →
        (Database.removeFromCart (.str text) ps).outcome = .ok cart) := by
  have hfresh : ∀ l ∈ cart, l.id ≠ .str text := by
    intro l hl heq
    obtain ⟨n, hn⟩ := hnum l hl
    rw [hn] at heq
    cases heq
  have hnone : findLine (.str text) cart = none := (findLine_eq_none_iff _ _).mpr hfresh
  have hrem : Database.removeFromCart (.str text) ps = Database.saveAndReturn cart ps := by
    rw [Database.removeFromCart_of_stored _ ps cart hdb, withoutId_eq_self hfresh]
  refine ⟨hnone, Database.updateCartItemQuantity_of_none _ q ps cart hdb hnone, hrem, ?_, ?_⟩
  · rw [hrem]
    exact Database.getCart_after_saveAndReturn_same cart ps hdb
  · intro hmode
    rw [hrem]
    exact (Database.saveAndReturn_normal cart ps hmode).1

/-- Witness of C27: the stored cart `[plov, chai]` with ids 1 and 6, and the
string id "6". -/
theorem string_id_matches_no_numeric_line_witness :
    findLine (.str "6") [Sample.plov, Sample.chai] = none ∧
      Database.updateCartItemQuantity (.str "6") 2 Sample.cartPage =
        { outcome := .ok [Sample.plov, Sample.chai], state := Sample.cartPage } ∧
      Database.removeFromCart (.str "6") Sample.cartPage =
        Database.saveAndReturn [Sample.plov, Sample.chai] Sample.cartPage ∧
      Database.getCart (Database.removeFromCart (.str "6") Sample.cartPage).state =
        .ok [Sample.plov, Sample.chai] ∧
      (Sample.cartPage.storage.mode = .normal →
        (Database.removeFromCart (.str "6") Sample.cartPage).outcome =
          .ok [Sample.plov, Sample.chai]) :=
  string_id_matches_no_numeric_line [Sample.plov, Sample.chai] "6" 2 Sample.cartPage
    (by
      intro l hl
      simp only [List.mem_cons, List.mem_singleton, List.not_mem_nil, or_false] at hl
      rcases hl with h | h
      · exact ⟨1, by rw [h]; rfl⟩
      · exact ⟨6, by rw [h]; rfl⟩) rfl

/-! ### Russian word forms -/

/-- C30. For every non-negative integer `n`,
`getRussianWordForm(n, [one, few, many])` returns `one` when `n mod 10 = 1` and
`n mod 100 ≠ 11`; `few` when `n mod 10` is 2, 3 or 4 and `n mod 100` is not
12, 13 or 14; and `many` in every other case. -/
theorem getRussianWordForm_forms (n : Nat) (one few many : String) :
    AiWaiter.getRussianWordForm n [one, few, many] =
      some (if n % 10 = 1 ∧ n % 100 ≠ 11 then one
        else if (n % 10 = 2 ∨ n % 10 = 3 ∨ n % 10 = 4) ∧
            ¬ (n % 100 = 12 ∨ n % 100 = 13 ∨ n % 100 = 14) then few
        else many) := by
  unfold AiWaiter.getRussianWordForm
  by_cases hteen : 4 < n % 100 ∧ n % 100 < 20
  · have h1 : ¬ (n % 10 = 1 ∧ n % 100 ≠ 11) := by omega
    have h2 : ¬ ((n % 10 = 2 ∨ n % 10 = 3 ∨ n % 10 = 4) ∧
        ¬ (n % 100 = 12 ∨ n % 100 = 13 ∨ n % 100 = 14)) := by omega
    rw [if_neg h1, if_neg h2]
    simp [hteen.1, hteen.2]
  · have hcond : (decide (n % 100 > 4) && decide (n % 100 < 20)) = false := by
      simp only [Bool.and_eq_false_iff, decide_eq_false_iff_not]
      omega
    rw [hcond]
    have hdigit : n % 10 = 0 ∨ n % 10 = 1 ∨ n % 10 = 2 ∨ n % 10 = 3 ∨ n % 10 = 4 ∨
        5 ≤ n % 10 := by omega
    rcases hdigit with h | h | h | h | h | h
    · have h1 : ¬ (n % 10 = 1 ∧ n % 100 ≠ 11) := by omega
      have h2 : ¬ ((n % 10 = 2 ∨ n % 10 = 3 ∨ n % 10 = 4) ∧
          ¬ (n % 100 = 12 ∨ n % 100 = 13 ∨ n % 100 = 14)) := by omega
      rw [if_neg h1, if_neg h2]
      simp [h]
    · have h1 : n % 10 = 1 ∧ n % 100 ≠ 11 := by omega
      rw [if_pos h1]
      simp [h]
    · have h1 : ¬ (n % 10 = 1 ∧ n % 100 ≠ 11) := by omega
      have h2 : (n % 10 = 2 ∨ n % 10 = 3 ∨ n % 10 = 4) ∧
          ¬ (n % 100 = 12 ∨ n % 100 = 13 ∨ n % 100 = 14) := by omega
      rw [if_neg h1, if_pos h2]
      simp [h]
    · have h1 : ¬ (n % 10 = 1 ∧ n % 100 ≠ 11) := by omega
      have h2 : (n % 10 = 2 ∨ n % 10 = 3 ∨ n % 10 = 4) ∧
          ¬ (n % 100 = 12 ∨ n % 100 = 13 ∨ n % 100 = 14) := by omega
      rw [if_neg h1, if_pos h2]
      simp [h]
    · have h1 : ¬ (n % 10 = 1 ∧ n % 100 ≠ 11) := by omega
      have h2 : (n % 10 = 2 ∨ n % 10 = 3 ∨ n % 10 = 4) ∧
          ¬ (n % 100 = 12 ∨ n % 100 = 13 ∨ n % 100 = 14) := by omega
      rw [if_neg h1, if_pos h2]
      simp [h]
    · have hmin : min (n % 10) 5 = 5 := by omega
      have h1 : ¬ (n % 10 = 1 ∧ n % 100 ≠ 11) := by omega
      have h2 : ¬ ((n % 10 = 2 ∨ n % 10 = 3 ∨ n % 10 = 4) ∧
          ¬ (n % 100 = 12 ∨ n % 100 = 13 ∨ n % 100 = 14)) := by omega
      rw [if_neg h1, if_neg h2]
      simp [hmin]


/-! ### Trying endpoints in order -/

theorem AdminAPI.tryFrom_skip_failures (api : AdminAPI.Api) (opts : List (String × String))
    (pre rest : List String)
    (hfail : ∀ q ∈ pre, ∃ e, AdminAPI.fetchJSON api q opts = .error e) :
    ∀ (lastErr : Option JsError) (requested : List String),
      ∃ lastErr1,
        AdminAPI.tryFrom api opts (pre ++ rest) lastErr requested =
          AdminAPI.tryFrom api opts rest lastErr1 (requested ++ pre) := by
  induction pre with
  | nil =>
    intro lastErr requested
    exact ⟨lastErr, by simp⟩
  | cons q more ih =>
    intro lastErr requested
    obtain ⟨e, he⟩ := hfail q (List.mem_cons_self _ _)
    obtain ⟨lastErr1, h1⟩ :=
      ih (fun x hx => hfail x (List.mem_cons_of_mem _ hx)) (some e) (requested ++ [q])
    have hstep : AdminAPI.tryFrom api opts (q :: (more ++ rest)) lastErr requested =
        AdminAPI.tryFrom api opts (more ++ rest) (some e) (requested ++ [q]) := by
      rw [AdminAPI.tryFrom]
      simp only [he]
    refine ⟨lastErr1, ?_⟩
    rw [List.cons_append, hstep, h1, List.append_assoc]
    rfl

/-- C25. The method `tryEndpoints(paths, opts)` of `AdminAPI` tries the paths
in list order.  When the paths before `p` all fail and `fetchJSON(p)`
succeeds, it returns that result and has requested those paths and `p`, no
later path.  When every path fails, it throws the error of the last path
tried.  For the empty list it throws the error 'No endpoints available'
without requesting anything. -/
theorem tryEndpoints_first_success (api : AdminAPI.Api) (opts : List (String × String)) :
    (∀ (pre : List String) (p : String) (post : List String) (data : Json),
        (∀ q ∈ pre, ∃ e, AdminAPI.fetchJSON api q opts = .error e) →
        AdminAPI.fetchJSON api p opts = .ok data →
        AdminAPI.tryEndpoints api (pre ++ p :: post) opts =
          { outcome := .ok data, requested := pre ++ [p] }) ∧
      (∀ (init : List String) (last : String) (e : JsError),
        (∀ q ∈ init, ∃ e1, AdminAPI.fetchJSON api q opts = .error e1) →
        AdminAPI.fetchJSON api last opts = .error e →
        AdminAPI.tryEndpoints api (init ++ [last]) opts =
          { outcome := .error e, requested := init ++ [last] }) ∧
      AdminAPI.tryEndpoints api [] opts =
        { outcome := .error (.error (.str "No endpoints available")), requested := [] } := by
  refine ⟨?_, ?_, rfl⟩
  · intro pre p post data hfail hok
    obtain ⟨lastErr1, h⟩ :=
      AdminAPI.tryFrom_skip_failures api opts pre (p :: post) hfail none []
    unfold AdminAPI.tryEndpoints
    rw [h]
    simp only [AdminAPI.tryFrom, hok, List.nil_append]
  · intro init last e hfail herr
    obtain ⟨lastErr1, h⟩ :=
      AdminAPI.tryFrom_skip_failures api opts init [last] hfail none []
    unfold AdminAPI.tryEndpoints
    rw [h]
    simp only [AdminAPI.tryFrom, herr, List.nil_append]

/-- Witness of C25: of three candidate paths the second is the first that
succeeds; the third is never requested. -/
theorem tryEndpoints_first_success_witness :
    AdminAPI.tryEndpoints Sample.adminApi
        (["/api/orders/active"] ++ "/api/admin/orders" :: ["/api/orders"]) [] =
      { outcome := .ok (.arr []), requested := ["/api/orders/active"] ++ ["/api/admin/orders"] } :=
  (tryEndpoints_first_success Sample.adminApi []).1 ["/api/orders/active"]
    "/api/admin/orders" ["/api/orders"] (.arr [])
    (by
      intro q hq
      rw [List.mem_singleton.mp hq]
      exact ⟨_, rfl⟩)
    rfl


/-! ### The category accordion -/

/-- C28 fails on the code. With the categories 0 and 1, both closed and
nothing recorded, `toggleCategory(0)` opens category 0 and records it; the
following `toggleCategory(1)` tests `if (currentOpenCategory)`, finds the
recorded `0` falsy and does not close category 0: both categories are open
while only category 1 is recorded. -/
theorem toggleCategory_leaves_zero_open :
    toggleCategory (.num 0) Sample.twoCategories =
        { currentOpenCategory := some (.num 0)
          blocks := [{ attr := "0", isOpen := true }, { attr := "1", isOpen := false }] } ∧
      toggleCategory (.num 1) (toggleCategory (.num 0) Sample.twoCategories) =
        { currentOpenCategory := some (.num 1)
          blocks := [{ attr := "0", isOpen := true }, { attr := "1", isOpen := true }] } ∧
      ((toggleCategory (.num 1) (toggleCategory (.num 0) Sample.twoCategories)).blocks.filter
        (fun b => b.isOpen)).length = 2 := by
  decide

/-! ### Form validation -/

open Auth

theorem Auth.utf16Length_empty : Auth.utf16Length "" = 0 := rfl

theorem Auth.ne_empty_of_utf16Length_pos {s : String} (h : 0 < Auth.utf16Length s) : s ≠ "" := by
  intro hs
  rw [hs, Auth.utf16Length_empty] at h
  exact absurd h (lt_irrefl 0)

/-- C29. The function `validateForm(formData, 'register')` of `auth.js` returns
an empty error object if and only if the trimmed name has at least 2
characters, the phone satisfies `isValidPhone`, the email is empty or
satisfies `isValidEmail`, the password has at least 6 characters,
`confirmPassword` equals the password, and `agreeTerms` is true; for 'login'
it returns no errors if and only if the phone is valid and the password has at
least 6 characters.  Lengths are counted as `.length` counts them, in UTF-16
code units. -/
theorem validateForm_no_errors_iff (formData : FormData) :
    (validateForm formData "register" = [] ↔
        (2 ≤ utf16Length (jsTrim formData.name) ∧
          isValidPhone formData.phone = true ∧
          (formData.email = "" ∨ isValidEmail formData.email = true) ∧
          6 ≤ utf16Length formData.password ∧
          formData.confirmPassword = formData.password ∧
          formData.agreeTerms = true)) ∧
      (validateForm formData "login" = [] ↔
        (isValidPhone formData.phone = true ∧ 6 ≤ utf16Length formData.password)) := by
  have hphone : ((if formData.phone = "" then [("phone", "Введите номер телефона")]
      else if (!isValidPhone formData.phone) = true then
        [("phone", "Введите корректный номер телефона")]
      else []) = ([] : List (String × String))) ↔ isValidPhone formData.phone = true := by
    by_cases h1 : formData.phone = ""
    · have h2 : isValidPhone "" = false := rfl
      simp [h1, h2]
    · cases h2 : isValidPhone formData.phone <;> simp [h1]
  have hpassword : ((if formData.password = "" then [("password", "Введите пароль")]
      else if utf16Length formData.password < 6 then
        [("password", "Пароль должен содержать минимум 6 символов")]
      else []) = ([] : List (String × String))) ↔ 6 ≤ utf16Length formData.password := by
    by_cases h1 : formData.password = ""
    · simp [h1, Auth.utf16Length_empty]
    · by_cases h2 : utf16Length formData.password < 6
      · simp [h1, h2]
      · simp [h1, h2]
        omega
  have hname : ((if jsTrim formData.name = "" then [("name", "Введите ваше имя")]
      else if utf16Length (jsTrim formData.name) < 2 then
        [("name", "Имя должно содержать минимум 2 символа")]
      else []) = ([] : List (String × String))) ↔ 2 ≤ utf16Length (jsTrim formData.name) := by
    by_cases h1 : jsTrim formData.name = ""
    · simp [h1, Auth.utf16Length_empty]
    · by_cases h2 : utf16Length (jsTrim formData.name) < 2
      · simp [h1, h2]
      · simp [h1, h2]
        omega
  have hemail : ((if formData.email ≠ "" ∧ isValidEmail formData.email = false then
        [("email", "Введите корректный email адрес")]
      else []) = ([] : List (String × String))) ↔
      (formData.email = "" ∨ isValidEmail formData.email = true) := by
    by_cases h1 : formData.email = ""
    · simp [h1]
    · cases h2 : isValidEmail formData.email <;> simp [h1]
  have hconfirm : 6 ≤ utf16Length formData.password →
      (((if formData.confirmPassword = "" then [("confirmPassword", "Подтвердите пароль")]
        else if formData.password ≠ formData.confirmPassword then
          [("confirmPassword", "Пароли не совпадают")]
        else []) = ([] : List (String × String))) ↔
        formData.confirmPassword = formData.password) := by
    intro hlen
    have hne : formData.password ≠ "" := Auth.ne_empty_of_utf16Length_pos (by omega)
    by_cases h1 : formData.confirmPassword = ""
    · simp only [h1, if_true]
      constructor
      · intro h
        cases h
      · intro h
        exact absurd h.symm hne
    · by_cases h2 : formData.password = formData.confirmPassword
      · simp [h1, h2]
      · have h3 : ¬ formData.confirmPassword = formData.password := fun h => h2 h.symm
        simp [h1, h2, h3]
  have hterms : ((if (!formData.agreeTerms) = true then
        [("terms", "Необходимо согласие с условиями")]
      else []) = ([] : List (String × String))) ↔ formData.agreeTerms = true := by
    cases formData.agreeTerms <;> simp
  refine ⟨?_, ?_⟩
  · unfold validateForm
    simp only [if_true, true_and, List.append_eq_nil, hname, hphone, hemail, hpassword, hterms]
    constructor
    · rintro ⟨⟨⟨⟨h1, h2⟩, h3⟩, h4⟩, h5, h6⟩
      exact ⟨h1, h2, h3, h4, (hconfirm h4).mp h5, h6⟩
    · rintro ⟨h1, h2, h3, h4, h5, h6⟩
      exact ⟨⟨⟨⟨h1, h2⟩, h3⟩, h4⟩, (hconfirm h4).mpr h5, h6⟩
  · have hlogin : ¬ ("login" = "register") := by decide
    unfold validateForm
    simp only [hlogin, if_false, false_and, List.append_eq_nil, hphone, hpassword,
      List.nil_append, and_true, true_and]


/-! ### Loading the menu -/

theorem Menu.dishes_showError (message : String) (t : Catalog) :
    (showError message t).dishes = t.dishes := by
  unfold showError
  split <;> rfl

theorem Menu.dishes_loadCatch (e : JsError) (t : Catalog) :
    (loadCatch e t).state.dishes = t.dishes := by
  unfold loadCatch
  exact Menu.dishes_showError _ _

theorem Menu.outcome_loadCatch (e : JsError) (t : Catalog) :
    (loadCatch e t).outcome = .ok () := rfl

theorem Menu.container_loadCatch (e : JsError) (t : Catalog) (h : t.container ≠ none) :
    (loadCatch e t).state.container =
      some (.error "Не удалось загрузить меню. Пожалуйста, попробуйте позже.") := by
  unfold loadCatch showError
  cases hc : t.container with
  | none => exact absurd hc h
  | some v => simp [hc]

theorem Menu.dishes_displayMenu (env : LoadEnv) (cs ds : List Entry) (t : Catalog) :
    (displayMenu env cs ds t).2.dishes = t.dishes := by
  unfold displayMenu
  split
  · rfl
  · split
    · exact Menu.dishes_showError _ _
    · split <;> rfl

theorem Menu.normalizeAll_objects (items : List Json)
    (hobj : ∀ d ∈ items, ∃ fields, d = .obj fields) :
    normalizeAll items =
      .ok (items.map (fun d => { source := d, Id := orValue (d.get "Id") (d.get "id") })) := by
  induction items with
  | nil => rfl
  | cons d rest ih =>
    obtain ⟨fields, hd⟩ := hobj d (List.mem_cons_self _ _)
    have hrest := ih (fun x hx => hobj x (List.mem_cons_of_mem _ hx))
    subst hd
    simp only [normalizeAll, normalizeEntry, hrest, List.map_cons]

/-- The run of `loadMenuData` once both responses are chosen and the
categories are normalised. -/
theorem Menu.loadMenuData_after_choice (env : LoadEnv) (s : Catalog) (db : MenuDb)
    (cr dr : Option Json) (cats chosen : Json) (catEntries : List Entry)
    (himp : env.importDb = .ok db)
    (hcr : db.getCategories = .ok cr) (hcats : chooseCategories cr = .ok cats)
    (hnorm : Menu.normalize cats = .ok catEntries)
    (hdr : db.getDishes = .ok dr) (hchosen : chooseDishes dr = .ok chosen) :
    (∀ e, Menu.normalize chosen = .error e →
        loadMenuData env s =
          loadCatch e { s with categories := .entries catEntries, dishes := .raw chosen }) ∧
      (∀ items, Menu.normalize chosen = .ok items →
        (loadMenuData env s).outcome = .ok () ∧
          (loadMenuData env s).state.dishes = .entries items) := by
  refine ⟨?_, ?_⟩
  · intro e he
    unfold loadMenuData
    simp only [himp, hcr, hcats, hdr, hchosen, hnorm, he]
  · intro items hitems
    unfold loadMenuData
    simp only [himp, hcr, hcats, hdr, hchosen, hnorm, hitems]
    have hd := Menu.dishes_displayMenu env catEntries items
      { s with categories := .entries catEntries, dishes := .entries items }
    rcases hrun : displayMenu env catEntries items
        { s with categories := .entries catEntries, dishes := .entries items } with ⟨r, s5⟩
    rw [hrun] at hd
    cases r with
    | error e =>
      refine ⟨rfl, ?_⟩
      show (loadCatch e s5).state.dishes = _
      rw [Menu.dishes_loadCatch]
      exact hd
    | ok u =>
      cases u
      exact ⟨rfl, hd⟩

/-- C22. Assuming the categories loaded (their response was accepted and
normalised), for every array `L` of dish objects: when the value that
`db.getDishes()` resolves to is the bare array `L`, or an object whose `data`
property is `L`, `loadMenuData` returns normally and the dish list is the
elements of `L` in the same order, each copied with its property `Id` set to
`d.Id || d.id`. -/
theorem loadMenuData_accepts_array_or_data (env : LoadEnv) (s : Catalog) (db : MenuDb)
    (cr : Option Json) (cats : Json) (catEntries : List Entry) (L : List Json) (dr : Json)
    (himp : env.importDb = .ok db)
    (hcr : db.getCategories = .ok cr) (hcats : chooseCategories cr = .ok cats)
    (hnorm : Menu.normalize cats = .ok catEntries)
    (hobj : ∀ d ∈ L, ∃ fields, d = .obj fields)
    (hdr : db.getDishes = .ok (some dr))
    (hshape : dr = .arr L ∨ ∃ fields, dr = .obj fields ∧ fields.lookup "data" = some (.arr L)) :
    (loadMenuData env s).outcome = .ok () ∧
      (loadMenuData env s).state.dishes =
        .entries (L.map (fun d => { source := d, Id := orValue (d.get "Id") (d.get "id") })) := by
  have hchosen : chooseDishes (some dr) = .ok (.arr L) := by
    rcases hshape with h | ⟨fields, h, hdata⟩
    · subst h
      simp [chooseDishes, Json.truthy, Json.isArray, Json.get, truthyValue]
    · subst h
      simp [chooseDishes, Json.truthy, Json.isArray, Json.get, truthyValue, hdata]
  have hitems : Menu.normalize (.arr L) = .ok
      (L.map (fun d => { source := d, Id := orValue (d.get "Id") (d.get "id") })) := by
    unfold Menu.normalize
    exact Menu.normalizeAll_objects L hobj
  exact (Menu.loadMenuData_after_choice env s db cr (some dr) cats (.arr L) catEntries
    himp hcr hcats hnorm hdr hchosen).2 _ hitems

/-- Witness of C22: a database module that resolves to bare arrays. -/
theorem loadMenuData_accepts_array_or_data_witness :
    (loadMenuData (Sample.loadEnv (.arr [Sample.hotCategory]) (.arr [Sample.plovJson]))
        Sample.freshCatalog).outcome = .ok () ∧
      (loadMenuData (Sample.loadEnv (.arr [Sample.hotCategory]) (.arr [Sample.plovJson]))
        Sample.freshCatalog).state.dishes =
        .entries ([Sample.plovJson].map
          (fun d => { source := d, Id := orValue (d.get "Id") (d.get "id") })) :=
  loadMenuData_accepts_array_or_data
    (Sample.loadEnv (.arr [Sample.hotCategory]) (.arr [Sample.plovJson])) Sample.freshCatalog
    { getCategories := .ok (some (.arr [Sample.hotCategory]))
      getDishes := .ok (some (.arr [Sample.plovJson])) }
    (some (.arr [Sample.hotCategory])) (.arr [Sample.hotCategory])
    [{ source := Sample.hotCategory, Id := some (.num 10) }] [Sample.plovJson]
    (.arr [Sample.plovJson]) rfl rfl rfl rfl
    (by
      intro d hd
      rw [List.mem_singleton.mp hd]
      exact ⟨_, rfl⟩)
    rfl (Or.inl rfl)


theorem Menu.normalize_of_not_array (v : Json) (h : v.isArray = false) :
    Menu.normalize v = .error (.typeError "map is not a function") := by
  cases v <;> first | rfl | simp [Json.isArray] at h

theorem Menu.chooseDishes_not_array (r : Json) (h : r.isArray = false) :
    chooseDishes (some r) =
      if r.truthy = false ∨
          (truthyValue (r.get "success") = false ∧ truthyValue (r.get "data") = false) then
        .error (.error (.str "Ошибка загрузки блюд (пустой ответ)"))
      else
        match r.get "data" with
        | some data => if data.truthy then .ok data else .ok r
        | none => .ok r := by
  unfold chooseDishes
  cases ht : r.truthy <;> cases hs : r.get "success" with
    | none =>
      cases hg : r.get "data" with
      | none => simp [truthyValue, h, ht, hs, hg]
      | some data => cases hd : data.truthy <;> simp [truthyValue, h, ht, hs, hg, hd]
    | some flag =>
      cases hf : flag.truthy <;> cases hg : r.get "data" with
      | none => simp [truthyValue, h, ht, hs, hg, hf]
      | some data => cases hd : data.truthy <;> simp [truthyValue, h, ht, hs, hg, hf, hd]

theorem Menu.loadMenuData_choice_fails (env : LoadEnv) (s : Catalog) (db : MenuDb)
    (cr dr : Option Json) (cats : Json) (e : JsError)
    (himp : env.importDb = .ok db)
    (hcr : db.getCategories = .ok cr) (hcats : chooseCategories cr = .ok cats)
    (hdr : db.getDishes = .ok dr) (hchosen : chooseDishes dr = .error e) :
    loadMenuData env s = loadCatch e { s with categories := .raw cats } := by
  unfold loadMenuData
  simp only [himp, hcr, hcats, hdr, hchosen]

/-- C23, as stated, fails: when `db.getDishes()` resolves to `{success: true}`
with no `data`, `loadMenuData` shows the error message and returns normally,
but the dish list is not the empty list: the variable `dishes` holds the
response object itself. -/
theorem loadMenuData_keeps_unrecognised_value :
    (loadMenuData (Sample.loadEnv (.arr [Sample.hotCategory]) (.obj [("success", .bool true)]))
        Sample.freshCatalog).outcome = .ok () ∧
      (loadMenuData (Sample.loadEnv (.arr [Sample.hotCategory]) (.obj [("success", .bool true)]))
        Sample.freshCatalog).state.container =
        some (.error "Не удалось загрузить меню. Пожалуйста, попробуйте позже.") ∧
      (loadMenuData (Sample.loadEnv (.arr [Sample.hotCategory]) (.obj [("success", .bool true)]))
        Sample.freshCatalog).state.dishes = .raw (.obj [("success", .bool true)]) ∧
      (loadMenuData (Sample.loadEnv (.arr [Sample.hotCategory]) (.obj [("success", .bool true)]))
        Sample.freshCatalog).state.dishes ≠ .raw (.arr []) ∧
      (loadMenuData (Sample.loadEnv (.arr [Sample.hotCategory]) (.obj [("success", .bool true)]))
        Sample.freshCatalog).state.dishes ≠ .entries [] := by
  have h : (loadMenuData
      (Sample.loadEnv (.arr [Sample.hotCategory]) (.obj [("success", .bool true)]))
      Sample.freshCatalog).state.dishes = .raw (.obj [("success", .bool true)]) := rfl
  refine ⟨rfl, rfl, h, ?_, ?_⟩
  · rw [h]
    intro hcontra
    cases hcontra
  · rw [h]
    intro hcontra
    cases hcontra

/-- C23, amended. Assuming the categories loaded, for every value that
`db.getDishes()` resolves to that is neither an array nor an object with a
`data` array, `loadMenuData` ends with the error message shown (on a page that
has the container) and no exception escapes it.  The dish list is left as it
was (empty on a freshly loaded page) when the value is falsy or has neither a
truthy `success` nor a truthy `data`; otherwise the variable `dishes` is left
holding a value that is not a list: the `data` property when it is truthy,
else the response itself. -/
theorem loadMenuData_unrecognised_shape (env : LoadEnv) (s : Catalog) (db : MenuDb)
    (cr dr : Option Json) (cats : Json) (catEntries : List Entry)
    (himp : env.importDb = .ok db)
    (hcr : db.getCategories = .ok cr) (hcats : chooseCategories cr = .ok cats)
    (hnorm : Menu.normalize cats = .ok catEntries)
    (hdr : db.getDishes = .ok dr)
    (hnotArray : ∀ r, dr = some r → r.isArray = false)
    (hnoData : ∀ r data, dr = some r → r.get "data" = some data → data.isArray = false) :
    (loadMenuData env s).outcome = .ok () ∧
      (s.container ≠ none →
        (loadMenuData env s).state.container =
          some (.error "Не удалось загрузить меню. Пожалуйста, попробуйте позже.")) ∧
      (loadMenuData env s).state.dishes =
        (match dr with
         | none => s.dishes
         | some r =>
           if r.truthy = false ∨
               (truthyValue (r.get "success") = false ∧ truthyValue (r.get "data") = false) then
             s.dishes
           else
             match r.get "data" with
             | some data => if data.truthy then .raw data else .raw r
             | none => .raw r) := by
  have hfail : ∀ e, chooseDishes dr = .error e →
      (loadMenuData env s).outcome = .ok () ∧
        (s.container ≠ none →
          (loadMenuData env s).state.container =
            some (.error "Не удалось загрузить меню. Пожалуйста, попробуйте позже.")) ∧
        (loadMenuData env s).state.dishes = s.dishes := by
    intro e he
    rw [Menu.loadMenuData_choice_fails env s db cr dr cats e himp hcr hcats hdr he]
    exact ⟨rfl, fun hc => Menu.container_loadCatch e _ hc, Menu.dishes_loadCatch e _⟩
  have hjunk : ∀ v, chooseDishes dr = .ok v → v.isArray = false →
      (loadMenuData env s).outcome = .ok () ∧
        (s.container ≠ none →
          (loadMenuData env s).state.container =
            some (.error "Не удалось загрузить меню. Пожалуйста, попробуйте позже.")) ∧
        (loadMenuData env s).state.dishes = .raw v := by
    intro v hv harr
    rw [(Menu.loadMenuData_after_choice env s db cr dr cats v catEntries himp hcr hcats hnorm
      hdr hv).1 _ (Menu.normalize_of_not_array v harr)]
    exact ⟨rfl, fun hc => Menu.container_loadCatch _ _ hc, Menu.dishes_loadCatch _ _⟩
  cases dr with
  | none => exact hfail _ rfl
  | some r =>
    have hr := hnotArray r rfl
    have hchoose := Menu.chooseDishes_not_array r hr
    by_cases hcond : r.truthy = false ∨
        (truthyValue (r.get "success") = false ∧ truthyValue (r.get "data") = false)
    · rw [if_pos hcond] at hchoose
      simp only [if_pos hcond]
      exact hfail _ hchoose
    · rw [if_neg hcond] at hchoose
      simp only [if_neg hcond]
      cases hg : r.get "data" with
      | none =>
        rw [hg] at hchoose
        exact hjunk r hchoose hr
      | some data =>
        rw [hg] at hchoose
        cases hd : data.truthy with
        | false =>
          simp only [hd] at hchoose
          have hres := hjunk r hchoose hr
          simpa only [hd, Bool.false_eq_true, if_false] using hres
        | true =>
          simp only [hd, if_true] at hchoose
          have hres := hjunk data hchoose (hnoData r data rfl hg)
          simpa only [hd, if_true] using hres

/-- Witness of C23, amended: the response `{data: 5}`. -/
theorem loadMenuData_unrecognised_shape_witness :
    (loadMenuData (Sample.loadEnv (.arr [Sample.hotCategory]) (.obj [("data", .num 5)]))
        Sample.freshCatalog).outcome = .ok () ∧
      (loadMenuData (Sample.loadEnv (.arr [Sample.hotCategory]) (.obj [("data", .num 5)]))
        Sample.freshCatalog).state.container =
        some (.error "Не удалось загрузить меню. Пожалуйста, попробуйте позже.") ∧
      (loadMenuData (Sample.loadEnv (.arr [Sample.hotCategory]) (.obj [("data", .num 5)]))
        Sample.freshCatalog).state.dishes = .raw (.num 5) :=
  have h := loadMenuData_unrecognised_shape
    (Sample.loadEnv (.arr [Sample.hotCategory]) (.obj [("data", .num 5)])) Sample.freshCatalog
    { getCategories := .ok (some (.arr [Sample.hotCategory]))
      getDishes := .ok (some (.obj [("data", .num 5)])) }
    (some (.arr [Sample.hotCategory])) (some (.obj [("data", .num 5)]))
    (.arr [Sample.hotCategory]) [{ source := Sample.hotCategory, Id := some (.num 10) }]
    rfl rfl rfl rfl rfl
    (by
      intro r hr
      cases hr
      rfl)
    (by
      intro r data hr hdata
      cases hr
      cases hdata
      rfl)
  ⟨h.1, h.2.1 (by decide), h.2.2⟩


theorem Database.getDishes_of_response (b : Browser) (res : HttpResponse) (p : Json)
    (hfetch : b.fetch (Database.API_BASE b ++ "/dishes") (Database.requestOptions "GET" .null) =
      .ok res)
    (hstatus : res.ok = true) (hjson : res.json = some p) (hp : p.truthy = true) :
    Database.getDishes b "" = .ok { success := true, message := none, data := p } := by
  have hpath : "/dishes" ++ (if ("" != "") = true then "?" ++ "" else "") = "/dishes" := by
    decide
  unfold Database.getDishes Database.wrappedRequest
  rw [hpath, Database.rawRequest_of_response b "/dishes" "GET" .null res hfetch]
  simp only [hstatus, Bool.not_true, hjson, Option.getD_some, Json.orElse, hp, if_true]
  rfl

/-- C24, as stated, fails: when the backend answers `GET /dishes` with status
200 and the envelope `{"data": [plov]}`, the gateway wraps the envelope once
more, `loadMenuData` takes the inner object for the dish list, and the run ends
with the error message shown and the variable `dishes` holding the object
`{data: [plov]}`, not the list. -/
theorem loadMenuData_envelope_through_gateway :
    (loadMenuData (Sample.gatewayEnv (Sample.backend (.obj [("data", .arr [Sample.plovJson])])))
        Sample.freshCatalog).state.dishes = .raw (.obj [("data", .arr [Sample.plovJson])]) ∧
      (loadMenuData (Sample.gatewayEnv (Sample.backend (.obj [("data", .arr [Sample.plovJson])])))
        Sample.freshCatalog).state.container =
        some (.error "Не удалось загрузить меню. Пожалуйста, попробуйте позже.") ∧
      (loadMenuData (Sample.gatewayEnv (Sample.backend (.obj [("data", .arr [Sample.plovJson])])))
        Sample.freshCatalog).state.dishes ≠
        .entries ([Sample.plovJson].map
          (fun d => { source := d, Id := orValue (d.get "Id") (d.get "id") })) := by
  have h : (loadMenuData
      (Sample.gatewayEnv (Sample.backend (.obj [("data", .arr [Sample.plovJson])])))
      Sample.freshCatalog).state.dishes = .raw (.obj [("data", .arr [Sample.plovJson])]) := rfl
  refine ⟨h, rfl, ?_⟩
  rw [h]
  intro hcontra
  cases hcontra

/-- C24, amended. End to end through the gateway, with the categories loaded:
for every array `L` of dish objects, when the backend answers `GET /dishes`
with a success status and the bare array `L`, the dish list that
`loadMenuData` ends with is `L`, each element copied with its `Id` set.  When
the body is an envelope object whose `data` is `L`, the gateway wraps it as
`{success: true, data: envelope}`; `loadMenuData` then leaves the variable
`dishes` holding the envelope object, not `L`, and shows the error message. -/
theorem loadMenuData_through_gateway (b : Browser)
    (render : List Entry → List Entry → Except JsError String) (s : Catalog)
    (cr : Option Json) (cats : Json) (catEntries : List Entry) (L : List Json)
    (res : HttpResponse)
    (hcr : (databaseModule b).getCategories = .ok cr)
    (hcats : chooseCategories cr = .ok cats)
    (hnorm : Menu.normalize cats = .ok catEntries)
    (hobj : ∀ d ∈ L, ∃ fields, d = .obj fields)
    (hfetch : b.fetch (Database.API_BASE b ++ "/dishes") (Database.requestOptions "GET" .null) =
      .ok res)
    (hstatus : res.ok = true) :
    (res.json = some (.arr L) →
        (loadMenuData { importDb := .ok (databaseModule b), render := render } s).outcome =
            .ok () ∧
          (loadMenuData { importDb := .ok (databaseModule b), render := render } s).state.dishes =
            .entries (L.map
              (fun d => { source := d, Id := orValue (d.get "Id") (d.get "id") }))) ∧
      (∀ fields, res.json = some (.obj fields) → fields.lookup "data" = some (.arr L) →
        (loadMenuData { importDb := .ok (databaseModule b), render := render } s).outcome =
            .ok () ∧
          (loadMenuData { importDb := .ok (databaseModule b), render := render } s).state.dishes =
            .raw (.obj fields) ∧
          (s.container ≠ none →
            (loadMenuData { importDb := .ok (databaseModule b), render := render }
                s).state.container =
              some (.error "Не удалось загрузить меню. Пожалуйста, попробуйте позже."))) := by
  have hmodule : ∀ p : Json, res.json = some p → p.truthy = true →
      (databaseModule b).getDishes =
        .ok (some (.obj [("success", .bool true), ("data", p)])) := by
    intro p hjson hp
    unfold databaseModule
    simp only [Database.getDishes_of_response b res p hfetch hstatus hjson hp]
    rfl
  refine ⟨?_, ?_⟩
  · intro hjson
    have hdr := hmodule (.arr L) hjson rfl
    have hchosen : chooseDishes (some (.obj [("success", .bool true), ("data", .arr L)])) =
        .ok (.arr L) := by
      simp [chooseDishes, Json.truthy, Json.isArray, Json.get, truthyValue, List.lookup]
    have hitems : Menu.normalize (.arr L) = .ok
        (L.map (fun d => { source := d, Id := orValue (d.get "Id") (d.get "id") })) := by
      unfold Menu.normalize
      exact Menu.normalizeAll_objects L hobj
    exact (Menu.loadMenuData_after_choice
      { importDb := .ok (databaseModule b), render := render } s (databaseModule b) cr _ cats
      (.arr L) catEntries rfl hcr hcats hnorm hdr hchosen).2 _ hitems
  · intro fields hjson _
    have hdr := hmodule (.obj fields) hjson rfl
    have hchosen : chooseDishes (some (.obj [("success", .bool true), ("data", .obj fields)])) =
        .ok (.obj fields) := by
      simp [chooseDishes, Json.truthy, Json.isArray, Json.get, truthyValue, List.lookup]
    rw [(Menu.loadMenuData_after_choice
      { importDb := .ok (databaseModule b), render := render } s (databaseModule b) cr _ cats
      (.obj fields) catEntries rfl hcr hcats hnorm hdr hchosen).1 _
      (Menu.normalize_of_not_array _ rfl)]
    exact ⟨rfl, Menu.dishes_loadCatch _ _, fun hc => Menu.container_loadCatch _ _ hc⟩

/-- Witness of C24, amended: the backend answers `GET /dishes` with the bare
array of one dish. -/
theorem loadMenuData_through_gateway_witness :
    (loadMenuData (Sample.gatewayEnv (Sample.backend (.arr [Sample.plovJson])))
        Sample.freshCatalog).outcome = .ok () ∧
      (loadMenuData (Sample.gatewayEnv (Sample.backend (.arr [Sample.plovJson])))
        Sample.freshCatalog).state.dishes =
        .entries ([Sample.plovJson].map
          (fun d => { source := d, Id := orValue (d.get "Id") (d.get "id") })) :=
  (loadMenuData_through_gateway (Sample.backend (.arr [Sample.plovJson]))
    (fun _ _ => .ok "menu") Sample.freshCatalog
    (some (.obj [("success", .bool true), ("data", .arr [Sample.hotCategory])]))
    (.arr [Sample.hotCategory]) [{ source := Sample.hotCategory, Id := some (.num 10) }]
    [Sample.plovJson]
    { status := 200, json := some (.arr [Sample.plovJson]) }
    rfl rfl rfl
    (by
      intro d hd
      rw [List.mem_singleton.mp hd]
      exact ⟨_, rfl⟩)
    rfl rfl).1 rfl


/-! ### The phone pattern -/

theorem Auth.matchPattern_once (cls : Char → Bool) (rest : List ((Char → Bool) × Repeat))
    (cs : List Char) :
    matchPattern ((cls, .once) :: rest) cs = true ↔
      ∃ c tail, cs = c :: tail ∧ cls c = true ∧ matchPattern rest tail = true := by
  cases cs with
  | nil => simp [matchPattern]
  | cons c tail =>
    simp only [matchPattern, Bool.and_eq_true]
    constructor
    · rintro ⟨h1, h2⟩
      exact ⟨c, tail, rfl, h1, h2⟩
    · rintro ⟨c1, tail1, heq, h1, h2⟩
      cases heq
      exact ⟨h1, h2⟩

theorem Auth.matchPattern_nil (cs : List Char) : matchPattern [] cs = true ↔ cs = [] := by
  cases cs <;> simp [matchPattern]

/-- The texts that `isValidPhone` accepts are those of the form
`+7 (DDD) DDD-DD-DD`, each `D` a decimal digit. -/
theorem Auth.isValidPhone_iff_form (phone : String) :
    isValidPhone phone = true ↔
      ∃ a b c d e f g h i j : Char,
        (a.isDigit = true ∧ b.isDigit = true ∧ c.isDigit = true ∧ d.isDigit = true ∧
          e.isDigit = true ∧ f.isDigit = true ∧ g.isDigit = true ∧ h.isDigit = true ∧
          i.isDigit = true ∧ j.isDigit = true) ∧
        phone.data =
          ['+', '7', ' ', '(', a, b, c, ')', ' ', d, e, f, '-', g, h, '-', i, j] := by
  unfold isValidPhone phoneRegex lit digit
  simp only [Auth.matchPattern_once, Auth.matchPattern_nil, beq_iff_eq]
  constructor
  · rintro ⟨c1, t1, h1, p1, c2, t2, h2, p2, c3, t3, h3, p3, c4, t4, h4, p4, c5, t5, h5, p5,
      c6, t6, h6, p6, c7, t7, h7, p7, c8, t8, h8, p8, c9, t9, h9, p9, c10, t10, h10, p10,
      c11, t11, h11, p11, c12, t12, h12, p12, c13, t13, h13, p13, c14, t14, h14, p14,
      c15, t15, h15, p15, c16, t16, h16, p16, c17, t17, h17, p17, c18, t18, h18, p18, hend⟩
    subst hend h18 h17 h16 h15 h14 h13 h12 h11 h10 h9 h8 h7 h6 h5 h4 h3 h2
    subst p1 p2 p3 p4 p8 p9 p13 p16
    exact ⟨c5, c6, c7, c10, c11, c12, c14, c15, c17, c18,
      ⟨p5, p6, p7, p10, p11, p12, p14, p15, p17, p18⟩, h1⟩
  · rintro ⟨a, b, c, d, e, f, g, h, i, j, ⟨ha, hb, hc, hd, he, hf, hg, hh, hi, hj⟩, hdata⟩
    exact ⟨_, _, hdata, rfl, _, _, rfl, rfl, _, _, rfl, rfl, _, _, rfl, rfl,
      _, _, rfl, ha, _, _, rfl, hb, _, _, rfl, hc, _, _, rfl, rfl, _, _, rfl, rfl,
      _, _, rfl, hd, _, _, rfl, he, _, _, rfl, hf, _, _, rfl, rfl,
      _, _, rfl, hg, _, _, rfl, hh, _, _, rfl, rfl, _, _, rfl, hi, _, _, rfl, hj, rfl⟩


/-! ### The accordion with truthy identifiers -/

theorem Menu.setOpen_eq_map (text : String) (value : Bool) (blocks : List CategoryBlock)
    (hnodup : (blocks.map (fun b => b.attr)).Nodup) :
    setOpen text value blocks =
      blocks.map (fun b => if b.attr = text then { b with isOpen := value } else b) := by
  induction blocks with
  | nil => rfl
  | cons b rest ih =>
    rw [List.map_cons, List.nodup_cons] at hnodup
    by_cases hb : b.attr = text
    · have hrest : ∀ x ∈ rest, ¬ x.attr = text := by
        intro x hx hxa
        exact hnodup.1 (List.mem_map.mpr ⟨x, hx, hxa.trans hb.symm⟩)
      have hid : rest.map (fun b => if b.attr = text then { b with isOpen := value } else b) =
          rest := by
        conv_rhs => rw [← List.map_id rest]
        apply List.map_congr_left
        intro x hx
        simp [hrest x hx]
      simp only [setOpen, hb, if_true, List.map_cons, hid]
    · simp only [setOpen, hb, if_false, List.map_cons, ih hnodup.2]

theorem Menu.attrs_map_setFlag (text : String) (value : Bool) (blocks : List CategoryBlock) :
    (blocks.map (fun b => if b.attr = text then { b with isOpen := value } else b)).map
        (fun b => b.attr) = blocks.map (fun b => b.attr) := by
  rw [List.map_map]
  apply List.map_congr_left
  intro b _
  by_cases hb : b.attr = text <;> simp [hb]

theorem Menu.queryCategory_eq_none_iff (text : String) (blocks : List CategoryBlock) :
    queryCategory text blocks = none ↔ ∀ b ∈ blocks, b.attr ≠ text := by
  unfold queryCategory
  simp [List.find?_eq_none]

/-- Where C28 holds: one `toggleCategory` call with a truthy identifier keeps
the accordion invariant. -/
theorem Menu.toggleCategory_consistent (categoryId : JsId) (s : Accordion)
    (htruthy : categoryId.truthy = true) (hs : Consistent s) :
    Consistent (toggleCategory categoryId s) := by
  obtain ⟨hnodup, hcur, hopen⟩ := hs
  unfold toggleCategory
  cases hq : queryCategory categoryId.toText s.blocks with
  | none => exact ⟨hnodup, hcur, hopen⟩
  | some found =>
    simp only
    by_cases hsame : s.currentOpenCategory = some categoryId
    · simp only [hsame, if_true]
      rw [Menu.setOpen_eq_map _ _ _ hnodup]
      refine ⟨by rw [Menu.attrs_map_setFlag]; exact hnodup, fun id h => (by cases h), ?_⟩
      intro b1 hb1
      obtain ⟨b, hb, hbb⟩ := List.mem_map.mp hb1
      constructor
      · intro hopen1
        exfalso
        by_cases hattr : b.attr = categoryId.toText
        · rw [if_pos hattr] at hbb
          rw [← hbb] at hopen1
          cases hopen1
        · rw [if_neg hattr] at hbb
          rw [← hbb] at hopen1
          obtain ⟨id, hid, htext⟩ := (hopen b hb).mp hopen1
          rw [hsame] at hid
          cases hid
          exact hattr htext.symm
      · rintro ⟨id, hid, _⟩
        cases hid
    · simp only [hsame, if_false]
      have hclosed : ∃ closed : List CategoryBlock,
          (match s.currentOpenCategory with
            | some previous =>
              if previous.truthy = true then
                match queryCategory previous.toText s.blocks with
                | some _ => setOpen previous.toText false s.blocks
                | none => s.blocks
              else s.blocks
            | none => s.blocks) = closed ∧
          closed.map (fun b => b.attr) = s.blocks.map (fun b => b.attr) ∧
          ∀ b ∈ closed, b.isOpen = false := by
        cases hc : s.currentOpenCategory with
        | none =>
          refine ⟨s.blocks, rfl, rfl, ?_⟩
          intro b hb
          cases hbo : b.isOpen with
          | false => rfl
          | true =>
            obtain ⟨id, hid, _⟩ := (hopen b hb).mp hbo
            rw [hc] at hid
            cases hid
        | some previous =>
          have hprev : previous.truthy = true := hcur previous hc
          have hmap : (match queryCategory previous.toText s.blocks with
              | some _ => setOpen previous.toText false s.blocks
              | none => s.blocks) =
              s.blocks.map
                (fun b => if b.attr = previous.toText then { b with isOpen := false } else b) := by
            cases hqp : queryCategory previous.toText s.blocks with
            | some _ => exact Menu.setOpen_eq_map _ _ _ hnodup
            | none =>
              have hno := (Menu.queryCategory_eq_none_iff _ _).mp hqp
              conv_lhs => rw [← List.map_id s.blocks]
              apply List.map_congr_left
              intro x hx
              simp [hno x hx]
          refine ⟨_, by simp only [hprev, if_true]; exact hmap, Menu.attrs_map_setFlag _ _ _, ?_⟩
          intro b1 hb1
          obtain ⟨b, hb, hbb⟩ := List.mem_map.mp hb1
          by_cases hattr : b.attr = previous.toText
          · rw [if_pos hattr] at hbb
            rw [← hbb]
          · rw [if_neg hattr] at hbb
            rw [← hbb]
            cases hbo : b.isOpen with
            | false => rfl
            | true =>
              obtain ⟨id, hid, htext⟩ := (hopen b hb).mp hbo
              rw [hc] at hid
              cases hid
              exact absurd htext.symm hattr
      obtain ⟨closed, hceq, hattrs, hall⟩ := hclosed
      rw [hceq]
      have hnodupClosed : (closed.map (fun b => b.attr)).Nodup := by rw [hattrs]; exact hnodup
      rw [Menu.setOpen_eq_map _ _ _ hnodupClosed]
      refine ⟨by rw [Menu.attrs_map_setFlag]; exact hnodupClosed, ?_, ?_⟩
      · intro id hid
        cases hid
        exact htruthy
      · intro b1 hb1
        obtain ⟨b, hb, hbb⟩ := List.mem_map.mp hb1
        by_cases hattr : b.attr = categoryId.toText
        · rw [if_pos hattr] at hbb
          rw [← hbb]
          exact ⟨fun _ => ⟨categoryId, rfl, hattr.symm⟩, fun _ => rfl⟩
        · rw [if_neg hattr] at hbb
          rw [← hbb]
          constructor
          · intro hbo
            rw [hall b hb] at hbo
            cases hbo
          · rintro ⟨id, hid, htext⟩
            cases hid
            exact absurd htext.symm hattr

/-- Where C28 holds: from an accordion with pairwise distinct category
identifiers, all closed and nothing recorded, any run of `toggleCategory`
calls with truthy identifiers keeps the invariant, so that at most one
category is open, and it is the recorded one. -/
theorem Menu.toggleAll_consistent (ids : List JsId) (s : Accordion)
    (htruthy : ∀ id ∈ ids, id.truthy = true) (hs : Consistent s) :
    Consistent (toggleAll ids s) ∧
      ∀ b1 ∈ (toggleAll ids s).blocks, ∀ b2 ∈ (toggleAll ids s).blocks,
        b1.isOpen = true → b2.isOpen = true → b1 = b2 := by
  have hcons : Consistent (toggleAll ids s) := by
    unfold toggleAll
    induction ids generalizing s with
    | nil => exact hs
    | cons id rest ih =>
      rw [List.foldl_cons]
      exact ih (toggleCategory id s) (fun x hx => htruthy x (List.mem_cons_of_mem _ hx))
        (Menu.toggleCategory_consistent id s (htruthy id (List.mem_cons_self _ _)) hs)
  refine ⟨hcons, ?_⟩
  intro b1 hb1 b2 hb2 ho1 ho2
  obtain ⟨hnodup, _, hopen⟩ := hcons
  obtain ⟨id1, hid1, ht1⟩ := (hopen b1 hb1).mp ho1
  obtain ⟨id2, hid2, ht2⟩ := (hopen b2 hb2).mp ho2
  rw [hid1] at hid2
  cases hid2
  exact List.inj_on_of_nodup_map hnodup hb1 hb2 (ht1.symm.trans ht2)

/-- The invariant at work: on the page with the categories 1, 2 and 3, opening
1, then 2, then closing 2 keeps at most one category open. -/
theorem Menu.toggleAll_consistent_example :
    Consistent (toggleAll [.num 1, .num 2, .num 2] Sample.numberedCategories) ∧
      ∀ b1 ∈ (toggleAll [.num 1, .num 2, .num 2] Sample.numberedCategories).blocks,
        ∀ b2 ∈ (toggleAll [.num 1, .num 2, .num 2] Sample.numberedCategories).blocks,
          b1.isOpen = true → b2.isOpen = true → b1 = b2 :=
  Menu.toggleAll_consistent [.num 1, .num 2, .num 2] Sample.numberedCategories
    (by
      intro id hid
      simp only [List.mem_cons, List.mem_singleton, List.not_mem_nil, or_false] at hid
      rcases hid with h | h | h <;> rw [h] <;> rfl)
    ⟨by decide, fun id h => (by cases h), by
      intro b hb
      simp only [Sample.numberedCategories, List.mem_cons, List.mem_singleton,
        List.not_mem_nil, or_false] at hb
      constructor
      · intro ho
        rcases hb with h | h | h <;> rw [h] at ho <;> cases ho
      · rintro ⟨id, hid, _⟩
        cases hid⟩

end TeaHouse
